import Mathlib

set_option maxRecDepth 100000
set_option maxHeartbeats 1000000

/-!
Verification of the NFL schedule generator.

This development shallowly embeds the Python sources (schedule_generator.py,
schedule_setup.py, nfl_teams.py, home_away_assignments.py) into Lean.

Modelling conventions:
* Python dicts become association lists (`List (String × _)`) with
  insert-or-replace update (`aset`), preserving insertion order exactly as
  Python dicts do.  Lookup of a missing key, which raises KeyError in Python,
  is modelled by `Option` (`alookup`) wherever a miss is reachable; where the
  source guarantees the key was initialised beforehand we use `getD` defaults,
  which coincide with the Python behaviour on those executions.
* Python functions that can raise (KeyError, IndexError, AssertionError,
  UnboundLocalError) are embedded as `Option`-valued functions returning
  `none` exactly when the Python function raises.
* Randomness is embedded by passing the outcomes of the random primitives as
  explicit arguments: `random.random() < 0.5` consumes from a `List Bool`
  stream, `random.choice` consumes an index from a `List Nat` stream, and
  `random.shuffle` outcomes are modelled by an index list applied with
  `applyPerm` (every true permutation of the input is reachable, matching the
  Fisher-Yates shuffle).  Universal claims about "every sequence of random
  choices" quantify over these arguments.
-/

namespace NFLSched

/-- A team record, mirroring the dictionaries in nfl_teams.py. -/
structure Team where
  name : String
  abbreviation : String
  conference : String
  division : String
deriving DecidableEq, Repr

/-- The static NFL_TEAMS catalog from nfl_teams.py, AFC North. -/
def afcNorth : List Team :=
  [⟨"Baltimore Ravens", "BAL", "AFC", "North"⟩,
   ⟨"Cincinnati Bengals", "CIN", "AFC", "North"⟩,
   ⟨"Cleveland Browns", "CLE", "AFC", "North"⟩,
   ⟨"Pittsburgh Steelers", "PIT", "AFC", "North"⟩]

/-- AFC South teams. -/
def afcSouth : List Team :=
  [⟨"Houston Texans", "HOU", "AFC", "South"⟩,
   ⟨"Indianapolis Colts", "IND", "AFC", "South"⟩,
   ⟨"Jacksonville Jaguars", "JAX", "AFC", "South"⟩,
   ⟨"Tennessee Titans", "TEN", "AFC", "South"⟩]

/-- AFC East teams. -/
def afcEast : List Team :=
  [⟨"Buffalo Bills", "BUF", "AFC", "East"⟩,
   ⟨"Miami Dolphins", "MIA", "AFC", "East"⟩,
   ⟨"New England Patriots", "NE", "AFC", "East"⟩,
   ⟨"New York Jets", "NYJ", "AFC", "East"⟩]

/-- AFC West teams. -/
def afcWest : List Team :=
  [⟨"Denver Broncos", "DEN", "AFC", "West"⟩,
   ⟨"Kansas City Chiefs", "KC", "AFC", "West"⟩,
   ⟨"Las Vegas Raiders", "LV", "AFC", "West"⟩,
   ⟨"Los Angeles Chargers", "LAC", "AFC", "West"⟩]

/-- NFC North teams. -/
def nfcNorth : List Team :=
  [⟨"Chicago Bears", "CHI", "NFC", "North"⟩,
   ⟨"Detroit Lions", "DET", "NFC", "North"⟩,
   ⟨"Green Bay Packers", "GB", "NFC", "North"⟩,
   ⟨"Minnesota Vikings", "MIN", "NFC", "North"⟩]

/-- NFC South teams. -/
def nfcSouth : List Team :=
  [⟨"Atlanta Falcons", "ATL", "NFC", "South"⟩,
   ⟨"Carolina Panthers", "CAR", "NFC", "South"⟩,
   ⟨"New Orleans Saints", "NO", "NFC", "South"⟩,
   ⟨"Tampa Bay Buccaneers", "TB", "NFC", "South"⟩]

/-- NFC East teams. -/
def nfcEast : List Team :=
  [⟨"Dallas Cowboys", "DAL", "NFC", "East"⟩,
   ⟨"New York Giants", "NYG", "NFC", "East"⟩,
   ⟨"Philadelphia Eagles", "PHI", "NFC", "East"⟩,
   ⟨"Washington Commanders", "WAS", "NFC", "East"⟩]

/-- NFC West teams. -/
def nfcWest : List Team :=
  [⟨"Arizona Cardinals", "ARI", "NFC", "West"⟩,
   ⟨"Los Angeles Rams", "LAR", "NFC", "West"⟩,
   ⟨"San Francisco 49ers", "SF", "NFC", "West"⟩,
   ⟨"Seattle Seahawks", "SEA", "NFC", "West"⟩]

/-- The nested NFL_TEAMS structure from nfl_teams.py with the same iteration
order as the Python dict literal. -/
def NFL_TEAMS : List (String × List (String × List Team)) :=
  [("AFC", [("North", afcNorth), ("South", afcSouth), ("East", afcEast), ("West", afcWest)]),
   ("NFC", [("North", nfcNorth), ("South", nfcSouth), ("East", nfcEast), ("West", nfcWest)])]

/-- The canonical division-name list used throughout the source. -/
def divisionNames : List String := ["North", "South", "East", "West"]

/-- The canonical conference-name list used throughout the source. -/
def conferenceNames : List String := ["AFC", "NFC"]

/-- Association-list lookup, mirroring a Python dict read (first binding of
the key; returns `none` where Python raises KeyError). -/
def alookup (k : String) : List (String × α) → Option α
  | [] => none
  | (k', v) :: rest => if k' = k then some v else alookup k rest

/-- Association-list write, mirroring a Python dict write: replace the value
in place if the key exists, else append the new binding (Python dicts keep
insertion order). -/
def aset (k : String) (v : α) : List (String × α) → List (String × α)
  | [] => [(k, v)]
  | (k', v') :: rest => if k' = k then (k', v) :: rest else (k', v') :: aset k v rest

/-- List of keys of an association list. -/
def akeys (m : List (String × α)) : List String := m.map (·.1)

/-- Lookup in the static catalog: teams of one conference. -/
def nflConf (conf : String) : List (String × List Team) :=
  (alookup conf NFL_TEAMS).getD []

/-- Lookup in the static catalog: teams of one division.  Total variant of
the Python indexing `NFL_TEAMS[conference][division]`; every use in the
theorems below instantiates valid conference and division names, where the
two coincide. -/
def nflDivision (conf div : String) : List Team :=
  (alookup div (nflConf conf)).getD []

/-- All 32 teams in catalog order. -/
def allTeams : List Team :=
  NFL_TEAMS.flatMap (fun cd => cd.2.flatMap (·.2))

/-- All 32 team abbreviations in catalog order. -/
def allAbbreviations : List String := allTeams.map (·.abbreviation)

/-- A division matchup tuple `(conf1, div1, conf2, div2)` as produced by
generate_pairings_matchups in schedule_setup.py. -/
abbrev Matchup := String × String × String × String

/-- Standings have the same nested shape as NFL_TEAMS, with each division
list shuffled (schedule_setup.generate_random_standings). -/
abbrev Standings := List (String × List (String × List Team))

/-- Standings lookup `standings[conf][div]`, total variant with `[]` default;
all theorem instances are well formed, where this coincides with Python. -/
def sdivision (s : Standings) (conf div : String) : List Team :=
  (alookup div ((alookup conf s).getD [])).getD []

/-- A standings table is well formed when it has exactly the NFL_TEAMS shape
and each division holds a permutation of the corresponding catalog division.
These are exactly the reachable outputs of generate_random_standings. -/
def WellFormedStandings (s : Standings) : Prop :=
  ∃ aN aS aE aW nN nS nE nW : List Team,
    s = [("AFC", [("North", aN), ("South", aS), ("East", aE), ("West", aW)]),
         ("NFC", [("North", nN), ("South", nS), ("East", nE), ("West", nW)])] ∧
    aN.Perm afcNorth ∧ aS.Perm afcSouth ∧ aE.Perm afcEast ∧ aW.Perm afcWest ∧
    nN.Perm nfcNorth ∧ nS.Perm nfcSouth ∧ nE.Perm nfcEast ∧ nW.Perm nfcWest

/-- Intra-conference division pairings (generate_pairings_matchups with
matchup_type "intra"): for each conference the shuffled division list is
paired positionally as (0,1) and (2,3).  The shuffle outcomes are the
arguments `lA`, `lN`.  The validation loop of the source compares equal
conference literals and never fires. -/
def pairingsIntra (lA lN : List String) : List Matchup :=
  [("AFC", lA.getD 0 "", "AFC", lA.getD 1 ""),
   ("AFC", lA.getD 2 "", "AFC", lA.getD 3 ""),
   ("NFC", lN.getD 0 "", "NFC", lN.getD 1 ""),
   ("NFC", lN.getD 2 "", "NFC", lN.getD 3 "")]

/-- Inter-conference division pairings (generate_pairings_matchups with
matchup_type "inter"): the two shuffled division lists are zipped.  The
validation loop of the source compares distinct conference literals and
never fires. -/
def pairingsInter (lA lN : List String) : List Matchup :=
  (lA.zip lN).map (fun p => ("AFC", p.1, "NFC", p.2))

/-- find_other_divisions from schedule_setup.py.  The scan for the division
paired with `paired` mirrors the two break conditions of the source
(including the source comparing `conf1` in both branches); if no tuple
matches, the Python code raises UnboundLocalError, modelled by `none`. -/
def find_other_divisions (conference paired : String) (ms : List Matchup) :
    Option (List String) :=
  (ms.findSome? (fun m =>
    if m.1 = conference ∧ m.2.1 = paired then some m.2.2.2
    else if m.1 = conference ∧ m.2.2.2 = paired then some m.2.1
    else none)).map
    (fun otherPaired =>
      divisionNames.filter (fun d => d != paired && d != otherPaired))

/-- generate_rankings_matchups with matchup_type "intra": an association
list keyed by strings such as "AFC North", mapping each division to the two
divisions of its conference excluded from its cross-division pairing. -/
def generate_rankings_matchups_intra (ms : List Matchup) :
    Option (List (String × List String)) :=
  (conferenceNames.flatMap (fun conf => divisionNames.map (fun d => (conf, d)))).foldlM
    (fun acc cd =>
      (find_other_divisions cd.1 cd.2 ms).map
        (fun opps => aset (cd.1 ++ " " ++ cd.2) opps acc))
    []

/-- Lexicographic strict order on code-point lists, as Python compares
strings. -/
def charListLt : List Char → List Char → Bool
  | _, [] => false
  | [], _ :: _ => true
  | a :: as, b :: bs =>
    if a.toNat < b.toNat then true
    else if b.toNat < a.toNat then false
    else charListLt as bs

/-- The Python string comparison `a <= b` (code-point lexicographic). -/
def strLe (a b : String) : Bool := !(charListLt b.data a.data)

/-- Helper for `splitOnSpace`: split a code-point list at spaces. -/
def wordsAux : List Char → List Char → List String
  | [], cur => [String.mk cur.reverse]
  | c :: cs, cur =>
    if c = ' ' then String.mk cur.reverse :: wordsAux cs []
    else wordsAux cs (c :: cur)

/-- The Python `str.split()` call of the source, which is only ever applied
to two words joined by one space. -/
def splitOnSpace (s : String) : List String := wordsAux s.data []

/-- Pop one value from a natural-number random stream (outcome of a call of
random.choice); an exhausted stream defaults to 0, which is never relied on
by any theorem below. -/
def popNat : List Nat → Nat × List Nat
  | [] => (0, [])
  | n :: rest => (n, rest)

/-- random.choice(seq) given the random outcome `n`: any element of a
nonempty list is reachable via a suitable `n`, and for the empty list
Python raises IndexError, modelled by `none` (`List.get?` of `[]`). -/
def randChoice (l : List α) (n : Nat) : Option α :=
  l.get? (n % l.length)

/-- The current_pairs table of generate_rankings_matchups with
matchup_type "inter": each division key maps to the string naming its
pairing partner. -/
def currentPairsOf (ms : List Matchup) : List (String × String) :=
  ms.foldl
    (fun acc m =>
      if m.1 = "AFC" then aset ("AFC " ++ m.2.1) ("NFC " ++ m.2.2.2) acc
      else aset ("NFC " ++ m.2.1) ("AFC " ++ m.2.2.2) acc)
    []

/-- One AFC division of the greedy selection loop of
generate_rankings_matchups with matchup_type "inter"; the state carries
the rankings pairs built so far, the used NFC divisions and the remaining
random choices. -/
def interRankStep (currentPairs : List (String × String))
    (st : List Matchup × List String × List Nat) (afcDiv : String) :
    Option (List Matchup × List String × List Nat) :=
  (alookup ("AFC " ++ afcDiv) currentPairs).bind (fun cur =>
    ((splitOnSpace cur).get? 1).bind (fun currentNfc =>
      (randChoice (divisionNames.filter
          (fun d => d != currentNfc && !(st.2.1.contains d)))
        (popNat st.2.2).1).map (fun chosen =>
        (st.1 ++ [("AFC", afcDiv, "NFC", chosen)],
          st.2.1 ++ [chosen], (popNat st.2.2).2))))

/-- generate_rankings_matchups with matchup_type "inter": from the current
inter-conference pairing table, greedily pick for each AFC division a not
yet used NFC division distinct from its current pairing partner, consuming
one random choice per division.  Returns `none` when a dict lookup, the
split, or random.choice on an empty candidate list raises. -/
def generate_rankings_matchups_inter (ms : List Matchup) (choices : List Nat) :
    Option (List Matchup) :=
  (divisionNames.foldlM (interRankStep (currentPairsOf ms))
    ([], [], choices)).map (·.1)

/-- get_division_games from schedule_generator.py (the identical copy in
home_away_assignments.py is embedded by this same definition): scan the
catalog for the division containing the abbreviation; `none` models the
all-None tuple returned when the team is unknown. -/
def get_division_games (code : String) :
    Option (String × String × String × List String) :=
  NFL_TEAMS.findSome? (fun cd =>
    cd.2.findSome? (fun dteams =>
      if dteams.2.any (fun t => t.abbreviation == code) then
        (dteams.2.find? (fun t => t.abbreviation == code)).map
          (fun tm => (tm.name, cd.1, dteams.1,
            (dteams.2.filter (fun t => t != tm)).map (·.name)))
      else none))

/-- get_teams_in_division from schedule_generator.py. -/
def get_teams_in_division (conf div : String) : List String :=
  (nflDivision conf div).map (·.name)

/-- get_team_rank from schedule_generator.py: 1-based rank of the team with
the given full name in the standings, scanning in dict order. -/
def get_team_rank (name : String) (s : Standings) : Option Nat :=
  s.findSome? (fun cd =>
    cd.2.findSome? (fun dteams =>
      dteams.2.enum.findSome? (fun it =>
        if it.2.name == name then some (it.1 + 1) else none)))

/-- find_division_matchup from schedule_generator.py; `none` models the
`(None, None)` fallback of the source. -/
def find_division_matchup (conf div : String) (ms : List Matchup) :
    Option (String × String) :=
  ms.findSome? (fun m =>
    if m.1 = conf ∧ m.2.1 = div then some (m.2.2.1, m.2.2.2)
    else if m.2.2.1 = conf ∧ m.2.2.2 = div then some (m.1, m.2.1)
    else none)

/-- get_intra_ranking_based_opponents from schedule_generator.py: the two
same-rank opponents, looked up through the intra rankings table; `none`
models a KeyError on the rankings dict or an out-of-range standings index. -/
def get_intra_ranking_based_opponents (conf div : String) (rank : Nat)
    (s : Standings) (intraRankings : List (String × List String)) :
    Option (List String) :=
  (alookup (conf ++ " " ++ div) intraRankings).bind (fun opponentDivisions =>
    opponentDivisions.mapM (fun od =>
      ((sdivision s conf od).get? (rank - 1)).map (·.name)))

/-- get_inter_ranking_based_opponent from schedule_generator.py; `none`
models UnboundLocalError when no rankings tuple matches and IndexError on a
bad rank. -/
def get_inter_ranking_based_opponent (conf div : String) (rank : Nat)
    (s : Standings) (interRankings : List Matchup) : Option String :=
  (interRankings.findSome? (fun m =>
    if m.1 = conf ∧ m.2.1 = div then some m.2.2.2
    else if m.2.2.1 = conf ∧ m.2.2.2 = div then some m.2.1
    else none)).bind (fun oppDiv =>
    ((sdivision s (if conf = "AFC" then "NFC" else "AFC") oppDiv).get?
      (rank - 1)).map (·.name))

/-- find_inter_ranking_division from schedule_generator.py; the source
falls off the loop returning None when nothing matches. -/
def find_inter_ranking_division (conf div : String) (rs : List Matchup) :
    Option String :=
  rs.findSome? (fun m =>
    if m.1 = conf ∧ m.2.1 = div then some m.2.2.2
    else if m.2.2.1 = conf ∧ m.2.2.2 = div then some m.2.1
    else none)

/-- Nested table mapping a team abbreviation to its opponent/location map,
mirroring the module-level assignment dicts of schedule_generator.py. -/
abbrev Table := List (String × List (String × String))

/-- Nested dict read `table[a][b]`; `none` models a KeyError on either
level. -/
def aget2 (t : Table) (a b : String) : Option String :=
  (alookup a t).bind (alookup b)

/-- Nested dict write `table[a][b] = v`.  The outer row defaults to the
empty dict; every use in the source writes only to rows created by a
preceding initialisation loop, where this coincides with Python. -/
def aset2 (t : Table) (a b v : String) : Table :=
  aset a (aset b v ((alookup a t).getD [])) t

/-- The double write `table[a][b] = la; table[b][a] = lb` that every
assignment site of the source performs. -/
def assignPair (t : Table) (a b la lb : String) : Table :=
  aset2 (aset2 t a b la) b a lb

/-- Specification predicate of the pairwise-consistency requirement: every
recorded game appears in both directions with complementary HOME and AWAY
labels (or in neither). -/
def PairConsistent (t : Table) : Prop :=
  ∀ A B : String, A ≠ B →
    ((aget2 t A B).isNone ∧ (aget2 t B A).isNone) ∨
    (aget2 t A B = some "HOME" ∧ aget2 t B A = some "AWAY") ∨
    (aget2 t A B = some "AWAY" ∧ aget2 t B A = some "HOME")

/-- The initialisation loop `if abbr not in assignments: assignments[abbr]
= \x7b\x7d` over a team list. -/
def initTeams (ts : List Team) (t : Table) : Table :=
  ts.foldl
    (fun acc tm =>
      if (alookup tm.abbreviation acc).isSome then acc
      else aset tm.abbreviation [] acc)
    t

/-- One matchup tuple of the cross-division assignment loop shared by
generate_intra_conference_assignments and
generate_inter_conference_assignments: initialise the 8 teams, then assign
by the (i+j) parity rule over the enumerated division lists. -/
def processMatchup (t : Table) (m : Matchup) : Table :=
  let ts1 := nflDivision m.1 m.2.1
  let ts2 := nflDivision m.2.2.1 m.2.2.2
  let t1 := initTeams (ts1 ++ ts2) t
  ts1.enum.foldl
    (fun acc it =>
      ts2.enum.foldl
        (fun acc2 jt =>
          if (it.1 + jt.1) % 2 = 0 then
            assignPair acc2 it.2.abbreviation jt.2.abbreviation "HOME" "AWAY"
          else
            assignPair acc2 it.2.abbreviation jt.2.abbreviation "AWAY" "HOME")
        acc)
    t1

/-- Number of games of a row with the given location label. -/
def countLoc (row : List (String × String)) (loc : String) : Nat :=
  row.countP (fun p => p.2 == loc)

/-- The verification loop of the cross-division generators: every team must
show exactly 2 HOME and 2 AWAY entries. -/
def verifyCross (t : Table) : Bool :=
  t.all (fun r => countLoc r.2 "HOME" == 2 && countLoc r.2 "AWAY" == 2)

/-- generate_intra_conference_assignments from schedule_generator.py;
`none` models the AssertionError of the verification loop.  The function
consumes no randomness. -/
def generate_intra_conference_assignments (ms : List Matchup) : Option Table :=
  let t := ms.foldl processMatchup []
  if verifyCross t then some t else none

/-- generate_inter_conference_assignments from schedule_generator.py.  Its
source body is textually identical to the intra-conference variant. -/
def generate_inter_conference_assignments (ms : List Matchup) : Option Table :=
  let t := ms.foldl processMatchup []
  if verifyCross t then some t else none

/-- Counter dict read with the 0 default; the source initialises every
counter before reading it, where this coincides with Python. -/
def cnt (m : List (String × Nat)) (k : String) : Nat :=
  (alookup k m).getD 0

/-- Counter dict increment. -/
def bump (m : List (String × Nat)) (k : String) : List (String × Nat) :=
  aset k (cnt m k + 1) m

/-- Pop one value from the boolean random stream (outcome of one
`random.random() < 0.5` test); an exhausted stream defaults to `true`,
which no theorem below relies on. -/
def popBool : List Bool → Bool × List Bool
  | [] => (true, [])
  | b :: rest => (b, rest)

/-- `tuple(sorted([a, b]))` on two abbreviations. -/
def sortPair (a b : String) : String × String :=
  if strLe a b then (a, b) else (b, a)

/-- State of the matchup-building phase of
generate_intra_rank_assignments: the processed-pairs set, the first-seen
order of team codes (the keys of the counter dicts), the matchup list, and
the remaining random bits. -/
structure BuildSt where
  processed : List (String × String)
  seen : List String
  matchups : List (String × String)
  bits : List Bool
deriving Repr

/-- Record a team code the first time it appears (counter initialisation
to zero in the source). -/
def addIfNew (l : List String) (c : String) : List String :=
  if l.contains c then l else l ++ [c]

/-- One opponent division of one (division, rank) iteration of the
matchup-building phase of generate_intra_rank_assignments: add the
randomly oriented edge unless the unordered pair was already processed. -/
def buildInnerStep (s : Standings) (conf : String) (teamCode : String)
    (rank : Nat) (st2 : BuildSt) (od : String) : Option BuildSt :=
  ((sdivision s conf od).get? rank).map (fun opp =>
    let st3 := { st2 with seen := addIfNew st2.seen opp.abbreviation }
    let pr := sortPair teamCode opp.abbreviation
    if st3.processed.contains pr then st3
    else
      { processed := st3.processed ++ [pr], seen := st3.seen,
        matchups := st3.matchups ++
          [if (popBool st3.bits).1 then (teamCode, opp.abbreviation)
           else (opp.abbreviation, teamCode)],
        bits := (popBool st3.bits).2 })

/-- One (division, rank) iteration of the matchup-building phase of
generate_intra_rank_assignments: look up the team, initialise its
counters, and process each of its opponent divisions. -/
def buildStep (s : Standings) (intraRankings : List (String × List String))
    (st : BuildSt) (conf div : String) (rank : Nat) : Option BuildSt :=
  ((sdivision s conf div).get? rank).bind (fun team =>
    (alookup (conf ++ " " ++ div) intraRankings).bind (fun opps =>
      opps.foldlM (buildInnerStep s conf team.abbreviation rank)
        { st with seen := addIfNew st.seen team.abbreviation }))

/-- The (conference, division, rank) iteration order of the building phase
of generate_intra_rank_assignments. -/
def rankTasks : List (String × String × Nat) :=
  conferenceNames.flatMap
    (fun conf => divisionNames.flatMap
      (fun d => (List.range 4).map (fun r => (conf, d, r))))

/-- The complete matchup-building phase of
generate_intra_rank_assignments. -/
def buildIntraRankMatchups (s : Standings)
    (intraRankings : List (String × List String)) (bits : List Bool) :
    Option BuildSt :=
  rankTasks.foldlM
    (fun st t => buildStep s intraRankings st t.1 t.2.1 t.2.2)
    { processed := [], seen := [], matchups := [], bits := bits }

/-- A reachable outcome of random.shuffle: reorder a list by an index
list.  When `perm` enumerates the positions of `l` exactly once this is a
permutation of `l`, which is exactly the set of outcomes Fisher-Yates can
produce. -/
def applyPerm (perm : List Nat) (l : List α) : List α :=
  perm.filterMap l.get?

/-- State of the edge-processing phase of
generate_intra_rank_assignments. -/
structure ProcSt where
  asgn : Table
  hm : List (String × Nat)
  aw : List (String × Nat)
  tot : List (String × Nat)
  bits : List Bool
deriving Repr

/-- Record one oriented assignment: write both table directions and bump
the home counter of the host and the away counter of the visitor. -/
def assignEdge (st : ProcSt) (t1 t2 : String) (t1Home : Bool) : ProcSt :=
  if t1Home then
    { st with
        asgn := assignPair st.asgn t1 t2 "HOME" "AWAY",
        hm := bump st.hm t1,
        aw := bump st.aw t2 }
  else
    { st with
        asgn := assignPair st.asgn t1 t2 "AWAY" "HOME",
        aw := bump st.aw t1,
        hm := bump st.hm t2 }

/-- One edge of the processing loop of generate_intra_rank_assignments:
the random case when both teams are untouched, the two forced cases, and
the fewest-total-games tie break. -/
def procStep (st : ProcSt) (e : String × String) : ProcSt :=
  let t1 := e.1
  let t2 := e.2
  let st' :=
    if cnt st.tot t1 = 0 ∧ cnt st.tot t2 = 0 then
      let (b, bits') := popBool st.bits
      assignEdge { st with bits := bits' } t1 t2 b
    else if cnt st.hm t1 = 0 ∧ cnt st.aw t2 = 0 then
      assignEdge st t1 t2 true
    else if cnt st.hm t2 = 0 ∧ cnt st.aw t1 = 0 then
      assignEdge st t1 t2 false
    else if cnt st.tot t1 < cnt st.tot t2 then
      assignEdge st t1 t2 true
    else
      assignEdge st t1 t2 false
  { st' with tot := bump (bump st'.tot t1) t2 }

/-- The verification loop of generate_intra_rank_assignments: per team 2
total games, 1 home, 1 away, and pairwise consistency of the table; a
failed check or a missing reverse entry (KeyError) aborts the function. -/
def verifyIntraRank (st : ProcSt) : Bool :=
  st.asgn.all (fun r =>
    cnt st.tot r.1 == 2 && cnt st.hm r.1 == 1 && cnt st.aw r.1 == 1 &&
    r.2.all (fun ol =>
      match (alookup ol.1 st.asgn).bind (alookup r.1) with
      | some l => l != ol.2
      | none => false))

/-- generate_intra_rank_assignments from schedule_generator.py: build the
deduplicated randomly oriented matchup list, shuffle it, process every
edge, and verify; `none` models the fatal assertions. -/
def generate_intra_rank_assignments (s : Standings)
    (intraRankings : List (String × List String)) (bits : List Bool)
    (perm : List Nat) : Option Table :=
  (buildIntraRankMatchups s intraRankings bits).bind (fun bst =>
    let st0 : ProcSt :=
      { asgn := bst.seen.map (fun c => (c, [])),
        hm := bst.seen.map (fun c => (c, 0)),
        aw := bst.seen.map (fun c => (c, 0)),
        tot := bst.seen.map (fun c => (c, 0)),
        bits := bst.bits }
    let fin := (applyPerm perm bst.matchups).foldl procStep st0
    if verifyIntraRank fin then some fin.asgn else none)

/-- One rank matchup of generate_inter_rank_assignments, carrying the two
team codes with their conference and division. -/
structure IRMatch where
  t1 : String
  c1 : String
  d1 : String
  t2 : String
  c2 : String
  d2 : String
deriving Repr, DecidableEq

/-- One rank of one rankings tuple in the matchup-collection loop of
generate_inter_rank_assignments. -/
def buildIRStep (s : Standings) (m : Matchup) (acc2 : List IRMatch)
    (r : Nat) : Option (List IRMatch) :=
  ((sdivision s m.1 m.2.1).get? r).bind (fun t1 =>
    ((sdivision s m.2.2.1 m.2.2.2).get? r).map (fun t2 =>
      acc2 ++
        [⟨t1.abbreviation, m.1, m.2.1, t2.abbreviation, m.2.2.1, m.2.2.2⟩]))

/-- The matchup-collection loop of generate_inter_rank_assignments: for
each rankings tuple, pair the teams of equal rank. -/
def buildInterRankMatchups (s : Standings) (interRankings : List Matchup) :
    Option (List IRMatch) :=
  interRankings.foldlM
    (fun acc m => (List.range 4).foldlM (buildIRStep s m) acc)
    []

/-- The per-team assignment record of generate_inter_rank_assignments: a
team code maps to its opponent code and location. -/
abbrev IRTable := List (String × String × String)

/-- State of the two assignment passes of
generate_inter_rank_assignments. -/
structure IRSt where
  asgn : IRTable
  confHomes : List (String × Nat)
  divHomes : List (String × List (String × Nat))
  processed : List String
deriving Repr

/-- The initial division_homes dict with all eight divisions at zero. -/
def initDivHomes : List (String × List (String × Nat)) :=
  [("AFC", [("North", 0), ("South", 0), ("East", 0), ("West", 0)]),
   ("NFC", [("North", 0), ("South", 0), ("East", 0), ("West", 0)])]

/-- Read `division_homes[conf][div]` (0 default; the source initialises
all eight divisions, where this coincides with Python). -/
def getDivHomes (st : IRSt) (conf div : String) : Nat :=
  (alookup div ((alookup conf st.divHomes).getD [])).getD 0

/-- Read `conference_homes[conf]`. -/
def getConfHomes (st : IRSt) (conf : String) : Nat :=
  (alookup conf st.confHomes).getD 0

/-- Record one inter-rank assignment: write both team records and bump the
division and conference counters of the host. -/
def assignIR (st : IRSt) (m : IRMatch) (t1Home : Bool) : IRSt :=
  if t1Home then
    { st with
      asgn := aset m.t2 (m.t1, "AWAY") (aset m.t1 (m.t2, "HOME") st.asgn),
      divHomes := aset m.c1
        (aset m.d1 (getDivHomes st m.c1 m.d1 + 1)
          ((alookup m.c1 st.divHomes).getD [])) st.divHomes,
      confHomes := aset m.c1 (getConfHomes st m.c1 + 1) st.confHomes }
  else
    { st with
      asgn := aset m.t2 (m.t1, "HOME") (aset m.t1 (m.t2, "AWAY") st.asgn),
      divHomes := aset m.c2
        (aset m.d2 (getDivHomes st m.c2 m.d2 + 1)
          ((alookup m.c2 st.divHomes).getD [])) st.divHomes,
      confHomes := aset m.c2 (getConfHomes st m.c2 + 1) st.confHomes }

/-- One step of the first pass of generate_inter_rank_assignments: assign
only when exactly one of the two divisions can still host. -/
def pass1Step (st : IRSt) (m : IRMatch) : IRSt :=
  if st.processed.contains m.t1 || st.processed.contains m.t2 then st
  else
    let d1needs := getDivHomes st m.c1 m.d1 < 2
    let d2needs := getDivHomes st m.c2 m.d2 < 2
    if d1needs ∧ ¬ d2needs then
      let st' := assignIR st m true
      { st' with processed := st'.processed ++ [m.t1, m.t2] }
    else if d2needs ∧ ¬ d1needs then
      let st' := assignIR st m false
      { st' with processed := st'.processed ++ [m.t1, m.t2] }
    else st

/-- One step of the second pass of generate_inter_rank_assignments: give
team1 the home game exactly when team1 is unconstrained and team2 is not,
else give it to team2. -/
def pass2Step (st : IRSt) (m : IRMatch) : IRSt :=
  if st.processed.contains m.t1 || st.processed.contains m.t2 then st
  else
    let conf1Can := getConfHomes st m.c1 < 8
    let conf2Can := getConfHomes st m.c2 < 8
    let div1Can := getDivHomes st m.c1 m.d1 < 2
    let div2Can := getDivHomes st m.c2 m.d2 < 2
    let st' :=
      if conf1Can ∧ div1Can ∧ ¬ (conf2Can ∧ div2Can) then assignIR st m true
      else assignIR st m false
    { st' with processed := st'.processed ++ [m.t1, m.t2] }

/-- verify_inter_rank_assignments from schedule_generator.py: 32
assignments, pairwise consistency, a 32-team assigned set, 8 home games
per conference and 2 per division. -/
def verify_inter_rank_assignments (asgn : IRTable)
    (confHomes : List (String × Nat))
    (divHomes : List (String × List (String × Nat))) : Bool :=
  asgn.length == 32 &&
  asgn.all (fun r =>
    match alookup r.2.1 asgn with
    | some ol => ol.1 == r.1 && ol.2 != r.2.2
    | none => false) &&
  ((akeys asgn ++ asgn.map (·.2.1)).dedup).length == 32 &&
  confHomes.all (fun c => c.2 == 8) &&
  divHomes.all (fun cd => cd.2.all (fun dv => dv.2 == 2))

/-- The initial state of the two assignment passes of
generate_inter_rank_assignments. -/
def irInitialState : IRSt :=
  { asgn := [], confHomes := [("AFC", 0), ("NFC", 0)],
    divHomes := initDivHomes, processed := [] }

/-- Closed form of the assignment records that one rankings tuple (one
AFC division against one NFC division, four ranks) contributes in the
second pass of generate_inter_rank_assignments: the NFC team hosts the
rank-1 and rank-2 games, the AFC team hosts the rank-3 and rank-4
games. -/
def irBlock (x0 y0 x1 y1 x2 y2 x3 y3 : String) : IRTable :=
  [(x0, (y0, "AWAY")), (y0, (x0, "HOME")),
   (x1, (y1, "AWAY")), (y1, (x1, "HOME")),
   (x2, (y2, "HOME")), (y2, (x2, "AWAY")),
   (x3, (y3, "HOME")), (y3, (x3, "AWAY"))]

/-- generate_inter_rank_assignments from schedule_generator.py.  The
function consumes no randomness: it is a plain function of the standings
and the rankings list (the optional existing_assignments parameter of the
source is never read).  `none` models the fatal assertions of the final
verification. -/
def generate_inter_rank_assignments (s : Standings)
    (interRankings : List Matchup) : Option IRTable :=
  (buildInterRankMatchups s interRankings).bind (fun ms =>
    let st1 := ms.foldl pass1Step irInitialState
    let st2 := ms.foldl pass2Step st1
    if verify_inter_rank_assignments st2.asgn st2.confHomes st2.divHomes then
      some st2.asgn
    else none)

/-- Resolve a full team name to its abbreviation by scanning the divisions
of one conference (the lookup loop shared by the per-team game getters;
the source keeps the first match since catalog names are unique). -/
def nameToCodeInConf (conf name : String) : Option String :=
  (nflConf conf).findSome? (fun dteams =>
    dteams.2.findSome? (fun t =>
      if t.name == name then some t.abbreviation else none))

/-- assign_home_away_division from schedule_generator.py: every division
opponent once HOME and once AWAY; the assertion on exactly 3 home and 3
away games is `none` on failure. -/
def assign_home_away_division (opponents : List String) :
    Option (List (String × String) × List (String × String)) :=
  let h := opponents.map (fun o => (o, "HOME"))
  let a := opponents.map (fun o => (o, "AWAY"))
  if opponents.length = 3 then some (h, a) else none

/-- One opponent of the game-splitting loop shared by the cached-game
getters: read the cached location for the resolved opponent code and file
the game under home or away. -/
def splitGameStep (table : Table) (code : String)
    (ha : List (String × String) × List (String × String))
    (nc : String × String) :
    Option (List (String × String) × List (String × String)) :=
  (aget2 table code nc.2).map (fun loc =>
    if loc = "HOME" then (ha.1 ++ [(nc.1, "HOME")], ha.2)
    else (ha.1, ha.2 ++ [(nc.1, "AWAY")]))

/-- get_intra_conference_games from schedule_generator.py: resolve each
opponent name of the matched division to a code, read the cached
assignment table, and split into home and away lists; `none` models a
KeyError on the table. -/
def get_intra_conference_games (code : String) (names : List String)
    (table : Table) :
    Option (List (String × String) × List (String × String)) :=
  (get_division_games code).bind (fun dg =>
    (names.filterMap
      (fun nm => (nameToCodeInConf dg.2.1 nm).map (fun c => (nm, c)))).foldlM
      (splitGameStep table code) ([], []))

/-- get_inter_conference_games from schedule_generator.py: as the intra
variant but resolving the opponents in the opposite conference. -/
def get_inter_conference_games (code : String) (names : List String)
    (table : Table) :
    Option (List (String × String) × List (String × String)) :=
  (get_division_games code).bind (fun dg =>
    (names.filterMap
      (fun nm => (nameToCodeInConf (if dg.2.1 = "AFC" then "NFC" else "AFC")
        nm).map (fun c => (nm, c)))).foldlM
      (splitGameStep table code) ([], []))

/-- get_intra_rank_games from schedule_generator.py: as the conference
getters but over the two rank opponents, with the final assertion of
exactly one home and one away game. -/
def get_intra_rank_games (code : String) (names : List String)
    (table : Table) :
    Option (List (String × String) × List (String × String)) :=
  (get_division_games code).bind (fun dg =>
    ((names.filterMap
      (fun nm => (nameToCodeInConf dg.2.1 nm).map (fun c => (nm, c)))).foldlM
      (splitGameStep table code) ([], [])).bind (fun res =>
      if res.1.length = 1 ∧ res.2.length = 1 then some res else none))

/-- get_inter_rank_games from schedule_generator.py: read the single
cached location for the team (the source also scans for the opponent
abbreviation, which it never uses afterwards). -/
def get_inter_rank_games (code oppName : String) (table : IRTable) :
    Option (List (String × String) × List (String × String)) :=
  (alookup code table).map (fun asn =>
    if asn.2 = "HOME" then ([(oppName, "HOME")], [])
    else ([], [(oppName, "AWAY")]))

/-- The session state built by main in schedule_generator.py: the
standings, pairing and rankings tables, and the four cached assignment
tables (the module-level globals, made explicit). -/
structure Session where
  standings : Standings
  intraMatchups : List Matchup
  interMatchups : List Matchup
  intraRankings : List (String × List String)
  interRankings : List Matchup
  intraConf : Table
  interConf : Table
  intraRank : Table
  interRank : IRTable

/-- The generation pipeline of main in schedule_generator.py, with every
random outcome passed explicitly: `s` is the shuffled standings, `lA lN`
the intra pairing shuffles, `lA2 lN2` the inter pairing shuffles, `bits`
and `perm` the randomness of the intra-rank generator and `choices` that
of the inter rankings generator.  `none` models any fatal error during
generation. -/
def runPipeline (s : Standings) (lA lN lA2 lN2 : List String)
    (bits : List Bool) (perm : List Nat) (choices : List Nat) :
    Option Session :=
  let intraM := pairingsIntra lA lN
  let interM := pairingsInter lA2 lN2
  (generate_rankings_matchups_intra intraM).bind (fun intraRk =>
    (generate_rankings_matchups_inter interM choices).bind (fun interRk =>
      (generate_intra_conference_assignments intraM).bind (fun t1 =>
        (generate_inter_conference_assignments interM).bind (fun t2 =>
          (generate_intra_rank_assignments s intraRk bits perm).bind (fun t3 =>
            (generate_inter_rank_assignments s interRk).map (fun t4 =>
              ⟨s, intraM, interM, intraRk, interRk, t1, t2, t3, t4⟩))))))

/-- The per-team query of main plus the game-list computations of
print_team_schedule: all five category game lists with home/away labels.
`none` models any exception while rendering. -/
def team_schedule (sess : Session) (code : String) :
    Option ((List (String × String) × List (String × String)) ×
            (List (String × String) × List (String × String)) ×
            (List (String × String) × List (String × String)) ×
            (List (String × String) × List (String × String)) ×
            (List (String × String) × List (String × String))) :=
  (get_division_games code).bind (fun dg =>
    (find_division_matchup dg.2.1 dg.2.2.1 sess.intraMatchups).bind (fun im =>
      (find_division_matchup dg.2.1 dg.2.2.1 sess.interMatchups).bind (fun em =>
        (get_team_rank dg.1 sess.standings).bind (fun rank =>
          (get_intra_ranking_based_opponents dg.2.1 dg.2.2.1 rank
            sess.standings sess.intraRankings).bind (fun intraRankOpps =>
            (get_inter_ranking_based_opponent dg.2.1 dg.2.2.1 rank
              sess.standings sess.interRankings).bind (fun interRankOpp =>
              (assign_home_away_division dg.2.2.2).bind (fun dGames =>
                (get_intra_conference_games code
                  (get_teams_in_division im.1 im.2) sess.intraConf).bind
                  (fun iGames =>
                  (get_inter_conference_games code
                    (get_teams_in_division em.1 em.2) sess.interConf).bind
                    (fun eGames =>
                    (get_intra_rank_games code intraRankOpps
                      sess.intraRank).bind (fun rGames =>
                      (get_inter_rank_games code interRankOpp
                        sess.interRank).map (fun xGames =>
                        (dGames, iGames, eGames, rGames, xGames))))))))))))

/-- Concrete intra pairing in canonical division order (a reachable
shuffle outcome): North with South and East with West in each
conference. -/
def intraMatchupsC : List Matchup := pairingsIntra divisionNames divisionNames

/-- Concrete inter pairing in canonical order: each AFC division paired
with the NFC division of the same name. -/
def interMatchupsC : List Matchup := pairingsInter divisionNames divisionNames

/-- The intra rankings table derived from `intraMatchupsC` by the
exclusion rule. -/
def intraRankingsC : List (String × List String) :=
  [("AFC North", ["East", "West"]), ("AFC South", ["East", "West"]),
   ("AFC East", ["North", "South"]), ("AFC West", ["North", "South"]),
   ("NFC North", ["East", "West"]), ("NFC South", ["East", "West"]),
   ("NFC East", ["North", "South"]), ("NFC West", ["North", "South"])]

/-- Random bits driving generate_intra_rank_assignments into its fatal
assertion: keep every built edge in iteration orientation, then host the
first edge of the AFC rank-1 cycle with its first team, the second
processed edge with its second team, and every later coin with the first
team. -/
def bitsFail : List Bool :=
  List.replicate 32 true ++ [true, false] ++ List.replicate 7 true

/-- Shuffle outcome driving generate_intra_rank_assignments into its
fatal assertion: process the two disjoint edges of the AFC rank-1 cycle
first, then the two remaining edges of that cycle, then the rest in build
order. -/
def permFail : List Nat :=
  [0, 9, 8, 1, 2, 3, 10, 11, 4, 5, 12, 13, 6, 7, 14, 15,
   16, 17, 24, 25, 18, 19, 26, 27, 20, 21, 28, 29, 22, 23, 30, 31]

/-- Random choices driving generate_rankings_matchups_inter into
random.choice on an empty list: with the identity inter pairing, give
North the division South, South the division East, East the division
North, leaving only West, which West cannot take. -/
def choicesFail : List Nat := [0, 1, 0, 0]

/-- A benign random-bit stream for a successful intra-rank run. -/
def bitsGood : List Bool := List.replicate 48 true

/-- The identity shuffle outcome for the 32 built rank matchups. -/
def permGood : List Nat := List.range 32

/-- Benign random choices for a successful inter rankings run. -/
def choicesGood : List Nat := [0, 0, 0, 0]

/-- A complete concrete pipeline run with canonical standings and
shuffles and benign randomness. -/
def sessC : Option Session :=
  runPipeline NFL_TEAMS divisionNames divisionNames divisionNames
    divisionNames bitsGood permGood choicesGood

/-- All eight (conference, division) coordinates. -/
def allDivCoords : List (String × String) :=
  conferenceNames.flatMap (fun c => divisionNames.map (fun d => (c, d)))

/-- Every cross-division pairing of two distinct real divisions, the
domain of the parity assignment rule. -/
def validCrossPairs : List Matchup :=
  allDivCoords.flatMap (fun p =>
    allDivCoords.filterMap (fun q =>
      if p ≠ q then some (p.1, p.2, q.1, q.2) else none))

/-- The division opponent names of a catalog team, as computed by
get_division_games. -/
def opponentNames (t : Team) : List String :=
  ((nflDivision t.conference t.division).filter (fun u => u != t)).map (·.name)

/-- The eight teams taking part in one cross-division matchup. -/
def matchupTeams (m : Matchup) : List Team :=
  nflDivision m.1 m.2.1 ++ nflDivision m.2.2.1 m.2.2.2

/-- Decidability of the success-and-property pattern used in the theorems
below: an optional result exists and satisfies a decidable property. -/
instance optionElimFalseDecidable :
    (o : Option α) → (p : α → Prop) → [∀ a, Decidable (p a)] →
      Decidable (o.elim False p)
  | none, _, _ => isFalse (fun h => h)
  | some a, _, inst => inst a

end NFLSched

namespace NFLSched

/-! Basic lemmas about the association-list model. -/

theorem alookup_aset_self : ∀ (m : List (String × α)) (k v : _),
    alookup k (aset k v m) = some v
  | [], k, v => by simp [aset, alookup]
  | (k', v') :: rest, k, v => by
    by_cases h : k' = k
    · simp [aset, alookup, h]
    · simp [aset, alookup, h, alookup_aset_self rest k v]

theorem alookup_aset_ne (m : List (String × α)) (k k' v : _) (h : k' ≠ k) :
    alookup k (aset k' v m) = alookup k m := by
  have h' : ¬ (k = k') := fun hh => h hh.symm
  induction m with
  | nil => simp [aset, alookup, h]
  | cons p rest ih =>
    by_cases h2 : p.1 = k'
    · simp [aset, alookup, h2, h, h']
    · by_cases h3 : p.1 = k <;> simp [aset, alookup, h2, h3, h', ih]

theorem mem_of_alookup : ∀ (m : List (String × α)) (k : String) (v : α),
    alookup k m = some v → (k, v) ∈ m
  | [], k, v => by simp [alookup]
  | (k', v') :: rest, k, v => by
    by_cases h : k' = k
    · subst h; simp [alookup]; intro h2; exact Or.inl h2.symm
    · simp [alookup, h]
      intro h2
      exact Or.inr (mem_of_alookup rest k v h2)

end NFLSched

namespace NFLSched

/-- C1: for the well-formed canonical standings, the intra rankings table
derived by the exclusion rule from the canonical intra pairing, and a
reachable sequence of random choices (all orientation coins true, a true
then a false processing coin, and a shuffle that processes the two
disjoint edges of the AFC rank-1 cycle first), the function
generate_intra_rank_assignments aborts in its fatal balance assertions
instead of terminating normally with every team holding 1 HOME and 1 AWAY
rank assignment: the assertions are reachable. -/
theorem c1_intra_rank_fatal_assertion_reachable :
    generate_intra_rank_assignments NFL_TEAMS intraRankingsC bitsFail permFail
      = none ∧
    generate_rankings_matchups_intra intraMatchupsC = some intraRankingsC ∧
    WellFormedStandings NFL_TEAMS ∧
    permFail.Perm (List.range 32) := by
  refine ⟨by decide, by decide, ?_, by decide⟩
  exact ⟨afcNorth, afcSouth, afcEast, afcWest, nfcNorth, nfcSouth, nfcEast,
    nfcWest, rfl, .refl _, .refl _, .refl _, .refl _, .refl _, .refl _,
    .refl _, .refl _⟩

/-- C4: with the identity inter-conference pairing (a reachable output of
generate_pairings_matchups) and the random choices South, East, North for
the first three AFC divisions, the greedy selection leaves AFC West with
an empty candidate list and generate_rankings_matchups raises IndexError
(modelled by `none`) instead of returning a rankings-pair list. -/
theorem c4_inter_rankings_choice_on_empty :
    generate_rankings_matchups_inter interMatchupsC choicesFail = none ∧
    interMatchupsC = pairingsInter divisionNames divisionNames :=
  ⟨by decide, rfl⟩

/-- C2 counterexample: with the identity inter pairing, which pairs AFC
North with NFC North, a successful run of generate_rankings_matchups
pairs AFC North with NFC South, not with the paired division NFC North:
the rankings pairing does not reuse the inter-conference pairing. -/
theorem c2_counterexample_rankings_avoid_pairing :
    generate_rankings_matchups_inter interMatchupsC choicesGood =
      some [("AFC", "North", "NFC", "South"), ("AFC", "South", "NFC", "North"),
            ("AFC", "East", "NFC", "West"), ("AFC", "West", "NFC", "East")] ∧
    find_division_matchup "AFC" "North" interMatchupsC =
      some ("NFC", "North") ∧
    ("South" : String) ≠ "North" := ⟨by decide, by decide, by decide⟩

/-- C6: for every pairing of two distinct real divisions, the parity rule
(division-1 team i hosts division-2 team j exactly when i+j is even, the
other side recorded opposite) passes the generated verification and gives
every team of both divisions exactly 2 HOME and 2 AWAY assignments; the
two cross-division generators are plain functions consuming no
randomness, and their identical bodies agree. -/
theorem c6_parity_rule_two_home_two_away :
    ∀ m ∈ validCrossPairs,
      (generate_intra_conference_assignments [m]).elim False (fun t =>
        generate_inter_conference_assignments [m] = some t ∧
        ∀ tm ∈ matchupTeams m,
          (alookup tm.abbreviation t).elim False (fun row =>
            countLoc row "HOME" = 2 ∧ countLoc row "AWAY" = 2)) := by
  decide

/-- A successful random choice picks an element of its candidate list. -/
theorem randChoice_mem (l : List α) (n : Nat) (x : α)
    (h : randChoice l n = some x) : x ∈ l :=
  List.get?_mem h

/-- Every rankings pair appended by the greedy inter-rankings fold names
an AFC division of the fold list and an NFC division distinct from the
second word of its current_pairs entry. -/
theorem interRankFold_pairs_ok (cp : List (String × String)) :
    ∀ (dlist : List String) (st res : List Matchup × List String × List Nat),
      dlist.foldlM (interRankStep cp) st = some res →
      ∀ t ∈ res.1, t ∈ st.1 ∨
        (t.2.1 ∈ dlist ∧
          ∃ cur p, alookup ("AFC " ++ t.2.1) cp = some cur ∧
            (splitOnSpace cur).get? 1 = some p ∧
            t.1 = "AFC" ∧ t.2.2.1 = "NFC" ∧
            t.2.2.2 ∈ divisionNames ∧ t.2.2.2 ≠ p)
  | [], st, res, h, t, ht => by
    simp only [List.foldlM_nil, pure, Option.some_inj] at h
    exact Or.inl (h ▸ ht)
  | d :: ds, st, res, h, t, ht => by
    rw [List.foldlM_cons] at h
    cases hstep : interRankStep cp st d with
    | none =>
      rw [hstep] at h
      exact absurd h (by simp)
    | some st' =>
      rw [hstep] at h
      simp only [Option.bind_eq_bind, Option.some_bind] at h
      rcases interRankFold_pairs_ok cp ds st' res h t ht with h1 | ⟨hd, rest⟩
      · simp only [interRankStep, Option.bind_eq_some, Option.map_eq_some']
          at hstep
        obtain ⟨cur, hcur, p, hp, chosen, hchosen, heq⟩ := hstep
        rw [← heq] at h1
        rcases List.mem_append.mp h1 with h2 | h2
        · exact Or.inl h2
        · right
          have ht2 : t = ("AFC", d, "NFC", chosen) := by simpa using h2
          have hmem := randChoice_mem _ _ _ hchosen
          rw [List.mem_filter] at hmem
          have hpred := hmem.2
          simp only [Bool.and_eq_true, bne_iff_ne, ne_eq,
            Bool.not_eq_true'] at hpred
          subst ht2
          exact ⟨List.mem_cons_self d ds,
            cur, p, hcur, hp, rfl, rfl, hmem.1, hpred.1⟩
      · exact Or.inr ⟨List.mem_cons_of_mem _ hd, rest⟩

/-- For every reachable inter pairing, the current_pairs entry of each
AFC division names exactly the NFC division the pairing table pairs it
with. -/
theorem currentPairs_characterization :
    ∀ lA ∈ divisionNames.permutations', ∀ lN ∈ divisionNames.permutations',
      ∀ d ∈ divisionNames,
        (alookup ("AFC " ++ d) (currentPairsOf (pairingsInter lA lN))).elim
          False (fun cur => ((splitOnSpace cur).get? 1).elim False
            (fun p => ∀ m ∈ pairingsInter lA lN, m.2.1 = d → m.2.2.2 = p)) := by
  decide

/-- C2 amended: for every reachable inter-conference matchup list and
every sequence of random choices on which the call succeeds, the rankings
pairs returned by generate_rankings_matchups pair each AFC division with
an NFC division DIFFERENT from the one the matchup list pairs it with:
the greedy selection explicitly excludes the current pairing partner. -/
theorem c2_amended_rankings_avoid_current_pairing
    (lA lN : List String) (hA : lA.Perm divisionNames)
    (hN : lN.Perm divisionNames) (choices : List Nat) (result : List Matchup)
    (h : generate_rankings_matchups_inter (pairingsInter lA lN) choices =
      some result) :
    ∀ t ∈ result, ∀ m ∈ pairingsInter lA lN,
      t.2.1 = m.2.1 → t.2.2.2 ≠ m.2.2.2 := by
  intro t ht m hm hsame
  simp only [generate_rankings_matchups_inter, Option.map_eq_some'] at h
  obtain ⟨st, hfold, hres⟩ := h
  have hok := interRankFold_pairs_ok _ _ _ _ hfold t (hres ▸ ht)
  rcases hok with h1 | ⟨hdmem, cur, p, hcur, hp, _, _, _, hne⟩
  · exact absurd h1 (List.not_mem_nil t)
  · have hchar := currentPairs_characterization lA
      (List.mem_permutations'.mpr hA) lN (List.mem_permutations'.mpr hN)
      t.2.1 hdmem
    rw [hcur] at hchar
    simp only [Option.elim] at hchar
    rw [hp] at hchar
    simp only [Option.elim] at hchar
    exact fun hc => hne (hc.trans (hchar m hm hsame.symm))

/-- C2 amended witness: with the identity pairing and benign choices, the
rankings pair for AFC North differs from its pairing partner. -/
theorem c2_amended_witness :
    (("AFC", "North", "NFC", "South") : Matchup).2.2.2 ≠
      (("AFC", "North", "NFC", "North") : Matchup).2.2.2 :=
  c2_amended_rankings_avoid_current_pairing divisionNames divisionNames
    (List.Perm.refl _) (List.Perm.refl _) choicesGood
    [("AFC", "North", "NFC", "South"), ("AFC", "South", "NFC", "North"),
     ("AFC", "East", "NFC", "West"), ("AFC", "West", "NFC", "East")]
    (by decide) _ (by decide) _ (by decide) (by decide)

/-- Spelling out membership in the abbreviation catalog. -/
theorem mem_allAbbreviations_iff (code : String) :
    code ∈ allAbbreviations ↔ ∃ t ∈ allTeams, t.abbreviation = code := by
  simp [allAbbreviations, List.mem_map]

/-- Unknown-team side of the get_division_games contract: the scan yields
the all-None tuple exactly when no catalog team carries the queried
abbreviation. -/
theorem get_division_games_none_iff (code : String) :
    get_division_games code = none ↔ code ∉ allAbbreviations := by
  rw [mem_allAbbreviations_iff]
  unfold get_division_games
  rw [List.findSome?_eq_none_iff]
  constructor
  · intro h hmem
    obtain ⟨t, ht, habbr⟩ := hmem
    simp only [allTeams, List.mem_flatMap] at ht
    obtain ⟨cd, hcd, dt, hdt2, htin⟩ := ht
    have h2 := h cd hcd
    rw [List.findSome?_eq_none_iff] at h2
    have h3 := h2 dt hdt2
    have hany : dt.2.any (fun u => u.abbreviation == code) = true :=
      List.any_eq_true.mpr ⟨t, htin, by simp [habbr]⟩
    rw [if_pos hany] at h3
    rw [Option.map_eq_none'] at h3
    rw [List.find?_eq_none] at h3
    exact h3 t htin (by simp [habbr])
  · intro h cd hcd
    rw [List.findSome?_eq_none_iff]
    intro dt hdt
    have hany : dt.2.any (fun u => u.abbreviation == code) = false := by
      rw [List.any_eq_false]
      intro u hu
      simp only [beq_iff_eq]
      intro habbr
      exact h ⟨u, by
        simp only [allTeams, List.mem_flatMap]
        exact ⟨cd, hcd, dt, hdt, hu⟩, habbr⟩
    rw [if_neg (by simp [hany])]

/-- C9: get_division_games returns the all-None tuple exactly for strings
that are not catalog abbreviations, and for every catalog team it returns
that team's full name, conference, division, and the names of exactly its
3 division opponents. -/
theorem c9_get_division_games_contract :
    (∀ code : String, get_division_games code = none ↔
      code ∉ allAbbreviations) ∧
    (∀ t ∈ allTeams,
      get_division_games t.abbreviation =
        some (t.name, t.conference, t.division, opponentNames t) ∧
      (opponentNames t).length = 3 ∧ (opponentNames t).Nodup) :=
  ⟨get_division_games_none_iff, by decide⟩

/-- C9 witness: an unknown string maps to the None tuple and a known
abbreviation to its full division record. -/
theorem c9_get_division_games_witness :
    get_division_games "ZZZ" = none ∧
    get_division_games "JAX" = some ("Jacksonville Jaguars", "AFC", "South",
      ["Houston Texans", "Indianapolis Colts", "Tennessee Titans"]) := by
  constructor
  · exact (c9_get_division_games_contract.1 "ZZZ").mpr (by decide)
  · exact (c9_get_division_games_contract.2
      ⟨"Jacksonville Jaguars", "JAX", "AFC", "South"⟩ (by decide)).1.trans
      (by decide)

/-- C8: for every reachable intra-conference matchup list (each division
paired with exactly one other division of its conference), the rank-based
opponent divisions computed for each division are exactly the two
divisions of its conference that are neither the division itself nor its
cross-division partner. -/
theorem c8_intra_rank_opponents_by_exclusion :
    ∀ lA ∈ divisionNames.permutations', ∀ lN ∈ divisionNames.permutations',
      (generate_rankings_matchups_intra (pairingsIntra lA lN)).elim False
        (fun r =>
          ∀ cf ∈ conferenceNames, ∀ d ∈ divisionNames,
            (find_division_matchup cf d (pairingsIntra lA lN)).elim False
              (fun pd =>
                pd.1 = cf ∧
                alookup (cf ++ " " ++ d) r =
                  some (divisionNames.filter
                    (fun x => x != d && x != pd.2)) ∧
                (divisionNames.filter
                  (fun x => x != d && x != pd.2)).length = 2)) := by
  decide

/-!
Witness section.  The heavy computable definitions are made irreducible
here so that applying the theorems above at concrete inputs does not make
the elaborator re-evaluate the concrete tables; every fact needing kernel
evaluation of these definitions is established before this line.
-/

theorem alookup_aset_self2 : ∀ (m : List (String × α)) (k v : _),
    alookup k (aset k v m) = some v
  | [], k, v => by simp [aset, alookup]
  | (k', v') :: rest, k, v => by
    by_cases h : k' = k
    · simp [aset, alookup, h]
    · simp [aset, alookup, h, alookup_aset_self2 rest k v]

theorem alookup_aset_ne2 (m : List (String × α)) (k k' v : _) (h : k' ≠ k) :
    alookup k (aset k' v m) = alookup k m := by
  have h' : ¬ (k = k') := fun hh => h hh.symm
  induction m with
  | nil => simp [aset, alookup, h]
  | cons p rest ih =>
    by_cases h2 : p.1 = k'
    · simp [aset, alookup, h2, h, h']
    · by_cases h3 : p.1 = k <;> simp [aset, alookup, h2, h3, h', ih]

theorem alookup_append_left (m1 m2 : List (String × α)) (k : String) (v : α)
    (h : alookup k m1 = some v) : alookup k (m1 ++ m2) = some v := by
  induction m1 with
  | nil => simp [alookup] at h
  | cons p rest ih =>
    by_cases h2 : p.1 = k
    · simp only [alookup, h2, if_pos] at h
      simp [alookup, h2, h]
    · simp only [alookup, h2, if_neg, not_false_iff] at h
      simp [alookup, h2, ih h]

theorem akeys_cons (p : String × α) (rest : List (String × α)) :
    akeys (p :: rest) = p.1 :: akeys rest := rfl

theorem mem_akeys_of_mem {m : List (String × α)} {k : String} {v : α}
    (h : (k, v) ∈ m) : k ∈ akeys m := by
  simp only [akeys, List.mem_map]
  exact ⟨(k, v), h, rfl⟩

theorem alookup_append_right (m1 m2 : List (String × α)) (k : String)
    (h : k ∉ akeys m1) : alookup k (m1 ++ m2) = alookup k m2 := by
  induction m1 with
  | nil => simp [alookup]
  | cons p rest ih =>
    rw [akeys_cons] at h
    simp only [List.mem_cons, not_or] at h
    have hne : ¬ (p.1 = k) := fun hh => h.1 hh.symm
    simp only [List.cons_append, alookup, if_neg hne]
    exact ih h.2

theorem alookup_of_mem_nodup (m : List (String × α)) (k : String) (v : α)
    (hmem : (k, v) ∈ m) (hnd : (akeys m).Nodup) : alookup k m = some v := by
  induction m with
  | nil => simp at hmem
  | cons p rest ih =>
    rw [akeys_cons] at hnd
    rw [List.nodup_cons] at hnd
    rcases List.mem_cons.mp hmem with h1 | h1
    · subst h1; simp [alookup]
    · have hk : p.1 ≠ k := fun he => hnd.1 (he ▸ mem_akeys_of_mem h1)
      simp only [alookup, if_neg hk]
      exact ih h1 hnd.2

theorem alookup_eq_none_of_not_mem (m : List (String × α)) (k : String)
    (h : k ∉ akeys m) : alookup k m = none := by
  induction m with
  | nil => simp [alookup]
  | cons p rest ih =>
    rw [akeys_cons] at h
    simp only [List.mem_cons, not_or] at h
    have hne : ¬ (p.1 = k) := fun hh => h.1 hh.symm
    simp only [alookup, if_neg hne]
    exact ih h.2

theorem akeys_aset_of_mem (m : List (String × α)) (k : String) (v : α)
    (h : k ∈ akeys m) : akeys (aset k v m) = akeys m := by
  induction m with
  | nil => simp [akeys] at h
  | cons p rest ih =>
    by_cases h2 : p.1 = k
    · simp [aset, akeys, h2]
    · rw [akeys_cons] at h
      rcases List.mem_cons.mp h with h3 | h3
      · exact absurd h3.symm h2
      · simp only [aset, if_neg h2]
        rw [akeys_cons, akeys_cons, ih h3]

theorem akeys_aset_of_not_mem (m : List (String × α)) (k : String) (v : α)
    (h : k ∉ akeys m) : akeys (aset k v m) = akeys m ++ [k] := by
  induction m with
  | nil => simp [aset, akeys]
  | cons p rest ih =>
    rw [akeys_cons] at h
    simp only [List.mem_cons, not_or] at h
    have hne : ¬ (p.1 = k) := fun hh => h.1 hh.symm
    simp only [aset, if_neg hne]
    rw [akeys_cons, akeys_cons, ih h.2]
    simp

theorem aset_append_of_not_mem (m : List (String × α)) (k : String) (v : α)
    (h : k ∉ akeys m) : aset k v m = m ++ [(k, v)] := by
  induction m with
  | nil => simp [aset]
  | cons p rest ih =>
    rw [akeys_cons] at h
    simp only [List.mem_cons, not_or] at h
    have hne : ¬ (p.1 = k) := fun hh => h.1 hh.symm
    simp only [aset, if_neg hne, List.cons_append, List.cons.injEq, true_and]
    exact ih h.2

theorem aset_aset_self (m : List (String × α)) (k : String) (v v' : α) :
    aset k v (aset k v' m) = aset k v m := by
  induction m with
  | nil => simp [aset]
  | cons p rest ih =>
    by_cases h : p.1 = k
    · simp [aset, h]
    · simp [aset, h, ih]

theorem alookup_divRow_zero (d : String) (hd : d ∈ divisionNames) :
    alookup d [("North", (0 : Nat)), ("South", 0), ("East", 0), ("West", 0)]
      = some 0 := by
  simp only [divisionNames, List.mem_cons, List.not_mem_nil, or_false] at hd
  rcases hd with h | h | h | h <;> subst h <;> rfl

theorem alookup_divRow_getD (d : String) :
    (alookup d [("North", (0 : Nat)), ("South", 0), ("East", 0),
      ("West", 0)]).getD 0 = 0 := by
  simp only [alookup]
  repeat' split
  all_goals simp

theorem getDivHomes_initial (cf d : String) :
    getDivHomes irInitialState cf d = 0 := by
  unfold getDivHomes irInitialState initDivHomes
  simp only [alookup]
  split
  · simp only [Option.getD_some]
    exact alookup_divRow_getD d
  · split
    · simp only [Option.getD_some]
      exact alookup_divRow_getD d
    · simp only [Option.getD_none]
      simp [alookup]

theorem pass1Step_noop (st : IRSt) (m : IRMatch)
    (h1 : getDivHomes st m.c1 m.d1 < 2) (h2 : getDivHomes st m.c2 m.d2 < 2) :
    pass1Step st m = st := by
  unfold pass1Step
  split
  · rfl
  · have hA : ¬ (getDivHomes st m.c1 m.d1 < 2 ∧
        ¬ getDivHomes st m.c2 m.d2 < 2) := fun hh => hh.2 h2
    have hB : ¬ (getDivHomes st m.c2 m.d2 < 2 ∧
        ¬ getDivHomes st m.c1 m.d1 < 2) := fun hh => hh.2 h1
    simp only [if_neg hA, if_neg hB]

theorem getDivHomes_foldl_pass1_initial (ms : List IRMatch) :
    ms.foldl pass1Step irInitialState = irInitialState := by
  induction ms with
  | nil => rfl
  | cons m tl ih =>
    rw [List.foldl_cons,
      pass1Step_noop irInitialState m
        (by rw [getDivHomes_initial]; omega)
        (by rw [getDivHomes_initial]; omega), ih]

theorem assignIR_processed (st : IRSt) (m : IRMatch) (b : Bool) :
    (assignIR st m b).processed = st.processed := by
  unfold assignIR
  cases b <;> rfl

theorem assignIR_true_asgn (st : IRSt) (m : IRMatch) :
    (assignIR st m true).asgn =
      aset m.t2 (m.t1, "AWAY") (aset m.t1 (m.t2, "HOME") st.asgn) := rfl

theorem assignIR_false_asgn (st : IRSt) (m : IRMatch) :
    (assignIR st m false).asgn =
      aset m.t2 (m.t1, "HOME") (aset m.t1 (m.t2, "AWAY") st.asgn) := rfl

theorem assignIR_true_confHomes (st : IRSt) (m : IRMatch) :
    (assignIR st m true).confHomes =
      aset m.c1 (getConfHomes st m.c1 + 1) st.confHomes := rfl

theorem assignIR_false_confHomes (st : IRSt) (m : IRMatch) :
    (assignIR st m false).confHomes =
      aset m.c2 (getConfHomes st m.c2 + 1) st.confHomes := rfl

theorem assignIR_true_divHomes (st : IRSt) (m : IRMatch) :
    (assignIR st m true).divHomes =
      aset m.c1 (aset m.d1 (getDivHomes st m.c1 m.d1 + 1)
        ((alookup m.c1 st.divHomes).getD [])) st.divHomes := rfl

theorem assignIR_false_divHomes (st : IRSt) (m : IRMatch) :
    (assignIR st m false).divHomes =
      aset m.c2 (aset m.d2 (getDivHomes st m.c2 m.d2 + 1)
        ((alookup m.c2 st.divHomes).getD [])) st.divHomes := rfl

theorem pass2Step_fresh_true (st : IRSt) (m : IRMatch)
    (h1 : m.t1 ∉ st.processed) (h2 : m.t2 ∉ st.processed)
    (hc : getConfHomes st m.c1 < 8 ∧ getDivHomes st m.c1 m.d1 < 2 ∧
      ¬ (getConfHomes st m.c2 < 8 ∧ getDivHomes st m.c2 m.d2 < 2)) :
    pass2Step st m =
      { assignIR st m true with
          processed := st.processed ++ [m.t1, m.t2] } := by
  unfold pass2Step
  have hb1 : st.processed.contains m.t1 = false := by simp; exact h1
  have hb2 : st.processed.contains m.t2 = false := by simp; exact h2
  rw [hb1, hb2]
  simp only [Bool.or_self, Bool.false_eq_true, if_false, if_pos hc]
  rw [assignIR_processed]

theorem pass2Step_fresh_false (st : IRSt) (m : IRMatch)
    (h1 : m.t1 ∉ st.processed) (h2 : m.t2 ∉ st.processed)
    (hc : ¬ (getConfHomes st m.c1 < 8 ∧ getDivHomes st m.c1 m.d1 < 2 ∧
      ¬ (getConfHomes st m.c2 < 8 ∧ getDivHomes st m.c2 m.d2 < 2))) :
    pass2Step st m =
      { assignIR st m false with
          processed := st.processed ++ [m.t1, m.t2] } := by
  unfold pass2Step
  have hb1 : st.processed.contains m.t1 = false := by simp; exact h1
  have hb2 : st.processed.contains m.t2 = false := by simp; exact h2
  rw [hb1, hb2]
  simp only [Bool.or_self, Bool.false_eq_true, if_false, if_neg hc]
  rw [assignIR_processed]

theorem getConfHomes_eq (st : IRSt) (cA cN : Nat)
    (hconf : st.confHomes = [("AFC", cA), ("NFC", cN)]) :
    getConfHomes st "AFC" = cA ∧ getConfHomes st "NFC" = cN := by
  unfold getConfHomes
  rw [hconf]
  constructor <;> simp [alookup]

theorem getDivHomes_eq (st : IRSt) (vA vN : List (String × Nat))
    (hdiv : st.divHomes = [("AFC", vA), ("NFC", vN)]) (d : String) :
    getDivHomes st "AFC" d = (alookup d vA).getD 0 ∧
    getDivHomes st "NFC" d = (alookup d vN).getD 0 := by
  unfold getDivHomes
  rw [hdiv]
  constructor <;> simp [alookup]

theorem aset_conf_afc (cA cN v : Nat) :
    aset "AFC" v [("AFC", cA), ("NFC", cN)] = [("AFC", v), ("NFC", cN)] := by
  simp [aset]

theorem aset_conf_nfc (cA cN v : Nat) :
    aset "NFC" v [("AFC", cA), ("NFC", cN)] = [("AFC", cA), ("NFC", v)] := by
  simp [aset]

theorem aset_div_afc (vA vN : List (String × Nat)) (x : List (String × Nat)) :
    aset "AFC" x [("AFC", vA), ("NFC", vN)] = [("AFC", x), ("NFC", vN)] := by
  simp [aset]

theorem aset_div_nfc (vA vN : List (String × Nat)) (x : List (String × Nat)) :
    aset "NFC" x [("AFC", vA), ("NFC", vN)] = [("AFC", vA), ("NFC", x)] := by
  simp [aset]

theorem alookup_conf_afc (vA vN : List (String × Nat)) :
    (alookup "AFC" [("AFC", vA), ("NFC", vN)]).getD [] = vA := by
  simp [alookup]

theorem alookup_conf_nfc (vA vN : List (String × Nat)) :
    (alookup "NFC" [("AFC", vA), ("NFC", vN)]).getD [] = vN := by
  simp [alookup]

theorem akeys_append (m1 m2 : List (String × α)) :
    akeys (m1 ++ m2) = akeys m1 ++ akeys m2 := by
  simp [akeys]

theorem pass2Step_nfc_home (st : IRSt) (ak nk x y : String)
    (cA cN dN : Nat) (vA vN : List (String × Nat))
    (hfx : x ∉ st.processed) (hfy : y ∉ st.processed) (hxy : x ≠ y)
    (hkeys : akeys st.asgn = st.processed)
    (hconf : st.confHomes = [("AFC", cA), ("NFC", cN)])
    (hdiv : st.divHomes = [("AFC", vA), ("NFC", vN)])
    (hnkl : alookup nk vN = some dN) (hdN : dN < 2) (hcN : cN < 8) :
    pass2Step st (⟨x, "AFC", ak, y, "NFC", nk⟩ : IRMatch) =
      { asgn := st.asgn ++ [(x, (y, "AWAY")), (y, (x, "HOME"))],
        confHomes := [("AFC", cA), ("NFC", cN + 1)],
        divHomes := [("AFC", vA), ("NFC", aset nk (dN + 1) vN)],
        processed := st.processed ++ [x, y] } := by
  have hgc := getConfHomes_eq st cA cN hconf
  have hgdN := (getDivHomes_eq st vA vN hdiv nk).2
  have hcond : ¬ (getConfHomes st "AFC" < 8 ∧ getDivHomes st "AFC" ak < 2 ∧
      ¬ (getConfHomes st "NFC" < 8 ∧ getDivHomes st "NFC" nk < 2)) := by
    rw [hgc.2, hgdN, hnkl]
    intro hh
    exact hh.2.2 ⟨hcN, by simpa using hdN⟩
  rw [pass2Step_fresh_false st _ hfx hfy hcond]
  have hxk : x ∉ akeys st.asgn := by rw [hkeys]; exact hfx
  have hyk : y ∉ akeys (st.asgn ++ [(x, ((y, "AWAY") : String × String))]) := by
    rw [akeys_append, hkeys]
    simp only [List.mem_append, akeys, List.map_cons, List.map_nil,
      List.mem_singleton, not_or]
    exact ⟨hfy, fun hh => hxy hh.symm⟩
  show ({ assignIR st _ false with
    processed := st.processed ++ [x, y] } : IRSt) = _
  rw [show (assignIR st (⟨x, "AFC", ak, y, "NFC", nk⟩ : IRMatch) false) =
    { asgn := aset y (x, "HOME") (aset x (y, "AWAY") st.asgn),
      confHomes := aset "NFC" (getConfHomes st "NFC" + 1) st.confHomes,
      divHomes := aset "NFC" (aset nk (getDivHomes st "NFC" nk + 1)
        ((alookup "NFC" st.divHomes).getD [])) st.divHomes,
      processed := st.processed } from rfl]
  rw [aset_append_of_not_mem _ _ _ hxk, aset_append_of_not_mem _ _ _ hyk,
    hgc.2, hgdN, hnkl, hconf, hdiv, aset_conf_nfc, alookup_conf_nfc,
    aset_div_nfc]
  simp

theorem pass2Step_afc_home (st : IRSt) (ak nk x y : String)
    (cA cN dA : Nat) (vA vN : List (String × Nat))
    (hfx : x ∉ st.processed) (hfy : y ∉ st.processed) (hxy : x ≠ y)
    (hkeys : akeys st.asgn = st.processed)
    (hconf : st.confHomes = [("AFC", cA), ("NFC", cN)])
    (hdiv : st.divHomes = [("AFC", vA), ("NFC", vN)])
    (hak : alookup ak vA = some dA) (hdA : dA < 2) (hcA : cA < 8)
    (hblock : ¬ (cN < 8 ∧ (alookup nk vN).getD 0 < 2)) :
    pass2Step st (⟨x, "AFC", ak, y, "NFC", nk⟩ : IRMatch) =
      { asgn := st.asgn ++ [(x, (y, "HOME")), (y, (x, "AWAY"))],
        confHomes := [("AFC", cA + 1), ("NFC", cN)],
        divHomes := [("AFC", aset ak (dA + 1) vA), ("NFC", vN)],
        processed := st.processed ++ [x, y] } := by
  have hgc := getConfHomes_eq st cA cN hconf
  have hgdA := (getDivHomes_eq st vA vN hdiv ak).1
  have hgdN := (getDivHomes_eq st vA vN hdiv nk).2
  have hcond : (getConfHomes st "AFC" < 8 ∧ getDivHomes st "AFC" ak < 2 ∧
      ¬ (getConfHomes st "NFC" < 8 ∧ getDivHomes st "NFC" nk < 2)) := by
    rw [hgc.1, hgc.2, hgdA, hgdN, hak]
    exact ⟨hcA, by simpa using hdA, hblock⟩
  rw [pass2Step_fresh_true st _ hfx hfy hcond]
  have hxk : x ∉ akeys st.asgn := by rw [hkeys]; exact hfx
  have hyk : y ∉ akeys (st.asgn ++ [(x, ((y, "HOME") : String × String))]) := by
    rw [akeys_append, hkeys]
    simp only [List.mem_append, akeys, List.map_cons, List.map_nil,
      List.mem_singleton, not_or]
    exact ⟨hfy, fun hh => hxy hh.symm⟩
  show ({ assignIR st _ true with
    processed := st.processed ++ [x, y] } : IRSt) = _
  rw [show (assignIR st (⟨x, "AFC", ak, y, "NFC", nk⟩ : IRMatch) true) =
    { asgn := aset y (x, "AWAY") (aset x (y, "HOME") st.asgn),
      confHomes := aset "AFC" (getConfHomes st "AFC" + 1) st.confHomes,
      divHomes := aset "AFC" (aset ak (getDivHomes st "AFC" ak + 1)
        ((alookup "AFC" st.divHomes).getD [])) st.divHomes,
      processed := st.processed } from rfl]
  rw [aset_append_of_not_mem _ _ _ hxk, aset_append_of_not_mem _ _ _ hyk,
    hgc.1, hgdA, hak, hconf, hdiv, aset_conf_afc, alookup_conf_afc,
    aset_div_afc]
  simp

theorem buildGroup_eq (s : Standings) (a n : String) (acc : List IRMatch)
    (p0 p1 p2 p3 q0 q1 q2 q3 : Team)
    (hA : sdivision s "AFC" a = [p0, p1, p2, p3])
    (hN : sdivision s "NFC" n = [q0, q1, q2, q3]) :
    (List.range 4).foldlM (buildIRStep s ("AFC", a, "NFC", n)) acc =
      some (acc ++
        [⟨p0.abbreviation, "AFC", a, q0.abbreviation, "NFC", n⟩,
         ⟨p1.abbreviation, "AFC", a, q1.abbreviation, "NFC", n⟩,
         ⟨p2.abbreviation, "AFC", a, q2.abbreviation, "NFC", n⟩,
         ⟨p3.abbreviation, "AFC", a, q3.abbreviation, "NFC", n⟩]) := by
  have h4 : List.range 4 = [0, 1, 2, 3] := rfl
  rw [h4]
  simp [List.foldlM_cons, List.foldlM_nil, buildIRStep, hA, hN]

theorem pass2_group (st : IRSt) (a n x0 y0 x1 y1 x2 y2 x3 y3 : String)
    (c : Nat) (vA vN : List (String × Nat))
    (hc : c ≤ 6)
    (hconf : st.confHomes = [("AFC", c), ("NFC", c)])
    (hdiv : st.divHomes = [("AFC", vA), ("NFC", vN)])
    (ha : alookup a vA = some 0) (hn : alookup n vN = some 0)
    (hkeys : akeys st.asgn = st.processed)
    (hnd : ([x0, y0, x1, y1, x2, y2, x3, y3] : List String).Nodup)
    (hf : ∀ z ∈ ([x0, y0, x1, y1, x2, y2, x3, y3] : List String),
      z ∉ st.processed) :
    ([⟨x0, "AFC", a, y0, "NFC", n⟩, ⟨x1, "AFC", a, y1, "NFC", n⟩,
      ⟨x2, "AFC", a, y2, "NFC", n⟩, ⟨x3, "AFC", a, y3, "NFC", n⟩] :
        List IRMatch).foldl pass2Step st =
      { asgn := st.asgn ++ irBlock x0 y0 x1 y1 x2 y2 x3 y3,
        confHomes := [("AFC", c + 2), ("NFC", c + 2)],
        divHomes := [("AFC", aset a 2 vA), ("NFC", aset n 2 vN)],
        processed := st.processed ++ [x0, y0, x1, y1, x2, y2, x3, y3] } := by
  simp only [List.nodup_cons, List.mem_cons, List.not_mem_nil, or_false,
    not_or, List.nodup_nil, and_true] at hnd
  obtain ⟨⟨h0y0, h0x1, h0y1, h0x2, h0y2, h0x3, h0y3⟩,
    ⟨hy0x1, hy0y1, hy0x2, hy0y2, hy0x3, hy0y3⟩,
    ⟨h1y1, h1x2, h1y2, h1x3, h1y3⟩,
    ⟨hy1x2, hy1y2, hy1x3, hy1y3⟩,
    ⟨h2y2, h2x3, h2y3⟩, ⟨hy2x3, hy2y3⟩, h3y3, -⟩ := hnd
  have hfx0 : x0 ∉ st.processed := hf _ (by simp)
  have hfy0 : y0 ∉ st.processed := hf _ (by simp)
  have hfx1 : x1 ∉ st.processed := hf _ (by simp)
  have hfy1 : y1 ∉ st.processed := hf _ (by simp)
  have hfx2 : x2 ∉ st.processed := hf _ (by simp)
  have hfy2 : y2 ∉ st.processed := hf _ (by simp)
  have hfx3 : x3 ∉ st.processed := hf _ (by simp)
  have hfy3 : y3 ∉ st.processed := hf _ (by simp)
  simp only [List.foldl_cons, List.foldl_nil]
  rw [pass2Step_nfc_home st a n x0 y0 c c 0 vA vN hfx0 hfy0 h0y0 hkeys
    hconf hdiv hn (by omega) (by omega)]
  rw [pass2Step_nfc_home _ a n x1 y1 c (c + 1) (0 + 1) vA (aset n (0 + 1) vN)
    (by
      simp only [List.mem_append, List.mem_cons, List.not_mem_nil, or_false,
        not_or]
      exact ⟨hfx1, fun h => h0x1 h.symm, fun h => hy0x1 h.symm⟩)
    (by
      simp only [List.mem_append, List.mem_cons, List.not_mem_nil, or_false,
        not_or]
      exact ⟨hfy1, fun h => h0y1 h.symm, fun h => hy0y1 h.symm⟩)
    h1y1
    (by rw [akeys_append, hkeys]; rfl)
    rfl rfl (alookup_aset_self2 vN n (0 + 1)) (by omega) (by omega)]
  rw [pass2Step_afc_home _ a n x2 y2 c (c + 1 + 1) 0 vA
    (aset n (0 + 1 + 1) (aset n (0 + 1) vN))
    (by
      simp only [List.mem_append, List.mem_cons, List.not_mem_nil, or_false,
        not_or]
      exact ⟨⟨hfx2, fun h => h0x2 h.symm, fun h => hy0x2 h.symm⟩,
        fun h => h1x2 h.symm, fun h => hy1x2 h.symm⟩)
    (by
      simp only [List.mem_append, List.mem_cons, List.not_mem_nil, or_false,
        not_or]
      exact ⟨⟨hfy2, fun h => h0y2 h.symm, fun h => hy0y2 h.symm⟩,
        fun h => h1y2 h.symm, fun h => hy1y2 h.symm⟩)
    h2y2
    (by rw [List.append_assoc, akeys_append, hkeys, List.append_assoc]; rfl)
    rfl rfl ha (by omega) (by omega)
    (by rw [alookup_aset_self2]; simp only [Option.getD_some]; omega)]
  rw [pass2Step_afc_home _ a n x3 y3 (c + 1) (c + 1 + 1) (0 + 1)
    (aset a (0 + 1) vA) (aset n (0 + 1 + 1) (aset n (0 + 1) vN))
    (by
      simp only [List.mem_append, List.mem_cons, List.not_mem_nil, or_false,
        not_or]
      exact ⟨⟨⟨hfx3, fun h => h0x3 h.symm, fun h => hy0x3 h.symm⟩,
        fun h => h1x3 h.symm, fun h => hy1x3 h.symm⟩,
        fun h => h2x3 h.symm, fun h => hy2x3 h.symm⟩)
    (by
      simp only [List.mem_append, List.mem_cons, List.not_mem_nil, or_false,
        not_or]
      exact ⟨⟨⟨hfy3, fun h => h0y3 h.symm, fun h => hy0y3 h.symm⟩,
        fun h => h1y3 h.symm, fun h => hy1y3 h.symm⟩,
        fun h => h2y3 h.symm, fun h => hy2y3 h.symm⟩)
    h3y3
    (by
      rw [List.append_assoc, List.append_assoc, akeys_append, hkeys,
        List.append_assoc, List.append_assoc]
      rfl)
    rfl rfl (alookup_aset_self2 vA a (0 + 1)) (by omega) (by omega)
    (by rw [alookup_aset_self2]; simp only [Option.getD_some]; omega)]
  simp [aset_aset_self, irBlock]

theorem perm_flatMap (f : α → List β) {l1 l2 : List α} (h : l1.Perm l2) :
    (l1.flatMap f).Perm (l2.flatMap f) := by
  induction h with
  | nil => rfl
  | cons x h ih => simpa [List.flatMap_cons] using ih.append_left (f x)
  | swap x y l =>
      simp only [List.flatMap_cons]
      rw [← List.append_assoc, ← List.append_assoc]
      exact (List.perm_append_comm).append_right _
  | trans h1 h2 ih1 ih2 => exact ih1.trans ih2

theorem interleave8_perm (x0 y0 x1 y1 x2 y2 x3 y3 : α) :
    ([x0, y0, x1, y1, x2, y2, x3, y3] : List α).Perm
      ([x0, x1, x2, x3] ++ [y0, y1, y2, y3]) := by
  refine List.Perm.cons x0 ?_
  refine (List.Perm.cons y0 ?_).trans (List.perm_middle).symm
  refine List.Perm.cons x1 ?_
  refine (List.Perm.cons y1 ?_).trans (List.perm_middle).symm
  refine List.Perm.cons x2 ?_
  refine (List.Perm.cons y2 ?_).trans (List.perm_middle).symm
  exact List.Perm.refl _

theorem regroup4_perm [DecidableEq α] (p0 q0 p1 q1 p2 q2 p3 q3 : List α) :
    ((p0 ++ q0) ++ ((p1 ++ q1) ++ ((p2 ++ q2) ++ (p3 ++ q3)))).Perm
      ((p0 ++ (p1 ++ (p2 ++ p3))) ++ (q0 ++ (q1 ++ (q2 ++ q3)))) := by
  rw [List.perm_iff_count]
  intro a
  simp only [List.count_append]
  ring

theorem exists_four (l : List Team) (h : l.length = 4) :
    ∃ t0 t1 t2 t3 : Team, l = [t0, t1, t2, t3] :=
  match l, h with
  | [a, b, c, d], _ => ⟨a, b, c, d, rfl⟩

theorem sdivision_perm_catalog (s : Standings) (hs : WellFormedStandings s)
    (cf d : String) (hcf : cf ∈ conferenceNames) (hd : d ∈ divisionNames) :
    (sdivision s cf d).Perm (nflDivision cf d) := by
  obtain ⟨aN, aS, aE, aW, nN, nS, nE, nW, hseq, hpAN, hpAS, hpAE, hpAW,
    hpNN, hpNS, hpNE, hpNW⟩ := hs
  subst hseq
  simp only [conferenceNames, List.mem_cons, List.not_mem_nil, or_false] at hcf
  simp only [divisionNames, List.mem_cons, List.not_mem_nil, or_false] at hd
  rcases hcf with h | h <;> subst h <;>
    rcases hd with h | h | h | h <;> subst h <;>
    first
      | simpa [sdivision, nflDivision, nflConf, NFL_TEAMS, alookup] using hpAN
      | simpa [sdivision, nflDivision, nflConf, NFL_TEAMS, alookup] using hpAS
      | simpa [sdivision, nflDivision, nflConf, NFL_TEAMS, alookup] using hpAE
      | simpa [sdivision, nflDivision, nflConf, NFL_TEAMS, alookup] using hpAW
      | simpa [sdivision, nflDivision, nflConf, NFL_TEAMS, alookup] using hpNN
      | simpa [sdivision, nflDivision, nflConf, NFL_TEAMS, alookup] using hpNS
      | simpa [sdivision, nflDivision, nflConf, NFL_TEAMS, alookup] using hpNE
      | simpa [sdivision, nflDivision, nflConf, NFL_TEAMS, alookup] using hpNW

theorem divRow_chain_facts (l : List String)
    (hl : l ∈ divisionNames.permutations') :
    alookup (l.getD 0 "")
      [("North", (0 : Nat)), ("South", 0), ("East", 0), ("West", 0)]
        = some 0 ∧
    alookup (l.getD 1 "") (aset (l.getD 0 "") 2
      [("North", (0 : Nat)), ("South", 0), ("East", 0), ("West", 0)])
        = some 0 ∧
    alookup (l.getD 2 "") (aset (l.getD 1 "") 2 (aset (l.getD 0 "") 2
      [("North", (0 : Nat)), ("South", 0), ("East", 0), ("West", 0)]))
        = some 0 ∧
    alookup (l.getD 3 "") (aset (l.getD 2 "") 2 (aset (l.getD 1 "") 2
      (aset (l.getD 0 "") 2
        [("North", (0 : Nat)), ("South", 0), ("East", 0), ("West", 0)])))
        = some 0 ∧
    ((aset (l.getD 3 "") 2 (aset (l.getD 2 "") 2 (aset (l.getD 1 "") 2
      (aset (l.getD 0 "") 2
        [("North", (0 : Nat)), ("South", 0), ("East", 0), ("West", 0)])))).all
      (fun dv => dv.2 == 2)) = true := by
  revert hl
  revert l
  decide

theorem exists_alookup_of_mem_akeys (m : List (String × α)) (k : String)
    (h : k ∈ akeys m) : ∃ v, alookup k m = some v := by
  induction m with
  | nil => simp [akeys] at h
  | cons p rest ih =>
      by_cases hk : p.1 = k
      · exact ⟨p.2, by simp [alookup, hk]⟩
      · simp only [akeys, List.map_cons, List.mem_cons] at h
        rcases h with h | h
        · exact absurd h.symm hk
        · obtain ⟨v, hv⟩ := ih h
          exact ⟨v, by simp only [alookup, if_neg hk]; exact hv⟩

theorem nflDivision_length :
    ∀ cf ∈ conferenceNames, ∀ d ∈ divisionNames,
      (nflDivision cf d).length = 4 := by decide

theorem afc_flatMap_take :
    divisionNames.flatMap (fun d => (nflDivision "AFC" d).map Team.abbreviation)
      = allAbbreviations.take 16 := by decide

theorem nfc_flatMap_drop :
    divisionNames.flatMap (fun d => (nflDivision "NFC" d).map Team.abbreviation)
      = allAbbreviations.drop 16 := by decide

theorem allAbbreviations_nodup : allAbbreviations.Nodup := by decide

theorem irBlock_all_consistent (T : IRTable) (x0 y0 x1 y1 x2 y2 x3 y3 : String)
    (hlk : ∀ p ∈ T, alookup p.1 T = some p.2)
    (hsub : ∀ p ∈ irBlock x0 y0 x1 y1 x2 y2 x3 y3, p ∈ T) :
    ∀ r ∈ irBlock x0 y0 x1 y1 x2 y2 x3 y3,
      (match alookup r.2.1 T with
       | some ol => ol.1 == r.1 && ol.2 != r.2.2
       | none => false) = true := by
  intro r hr
  simp only [irBlock, List.mem_cons, List.not_mem_nil, or_false] at hr
  rcases hr with h | h | h | h | h | h | h | h <;> subst h
  · rw [hlk (y0, (x0, "HOME")) (hsub _ (by simp [irBlock]))]; simp
  · rw [hlk (x0, (y0, "AWAY")) (hsub _ (by simp [irBlock]))]; simp
  · rw [hlk (y1, (x1, "HOME")) (hsub _ (by simp [irBlock]))]; simp
  · rw [hlk (x1, (y1, "AWAY")) (hsub _ (by simp [irBlock]))]; simp
  · rw [hlk (y2, (x2, "AWAY")) (hsub _ (by simp [irBlock]))]; simp
  · rw [hlk (x2, (y2, "HOME")) (hsub _ (by simp [irBlock]))]; simp
  · rw [hlk (y3, (x3, "AWAY")) (hsub _ (by simp [irBlock]))]; simp
  · rw [hlk (x3, (y3, "HOME")) (hsub _ (by simp [irBlock]))]; simp


theorem generate_inter_eq_of (s : Standings) (ir : List Matchup)
    (ms : List IRMatch) (stf : IRSt)
    (hb : buildInterRankMatchups s ir = some ms)
    (h1 : ms.foldl pass1Step irInitialState = irInitialState)
    (h2 : ms.foldl pass2Step irInitialState = stf)
    (hv : verify_inter_rank_assignments stf.asgn stf.confHomes stf.divHomes
      = true) :
    generate_inter_rank_assignments s ir = some stf.asgn := by
  unfold generate_inter_rank_assignments
  rw [hb]
  show (if verify_inter_rank_assignments
      (ms.foldl pass2Step (ms.foldl pass1Step irInitialState)).asgn
      (ms.foldl pass2Step (ms.foldl pass1Step irInitialState)).confHomes
      (ms.foldl pass2Step (ms.foldl pass1Step irInitialState)).divHomes
    then some (ms.foldl pass2Step (ms.foldl pass1Step irInitialState)).asgn
    else none) = some stf.asgn
  rw [h1, h2, hv]
  rfl

set_option maxHeartbeats 16000000 in
theorem inter_rank_run (s : Standings) (hs : WellFormedStandings s)
    (a0 n0 a1 n1 a2 n2 a3 n3 : String)
    (hpa : [a0, a1, a2, a3] ∈ divisionNames.permutations')
    (hpn : [n0, n1, n2, n3] ∈ divisionNames.permutations') :
    ∃ ms t,
      buildInterRankMatchups s
          [("AFC", a0, "NFC", n0), ("AFC", a1, "NFC", n1),
           ("AFC", a2, "NFC", n2), ("AFC", a3, "NFC", n3)] = some ms ∧
      ms.foldl pass1Step irInitialState = irInitialState ∧
      generate_inter_rank_assignments s
          [("AFC", a0, "NFC", n0), ("AFC", a1, "NFC", n1),
           ("AFC", a2, "NFC", n2), ("AFC", a3, "NFC", n3)] = some t ∧
      t.length = 32 ∧
      (akeys t).Perm allAbbreviations ∧
      (∀ code ∈ allAbbreviations, ∃ v, alookup code t = some v) ∧
      (∀ cf ∈ conferenceNames, ∀ d ∈ divisionNames,
        ((nflDivision cf d).map Team.abbreviation).countP
          (fun z => match alookup z t with
            | some r => r.2 == "HOME"
            | none => false) = 2) ∧
      (∀ m ∈ [(("AFC", a0, "NFC", n0) : Matchup), ("AFC", a1, "NFC", n1),
           ("AFC", a2, "NFC", n2), ("AFC", a3, "NFC", n3)],
        ∀ r : Nat, ∀ ta tn : Team, r < 4 →
        (sdivision s m.1 m.2.1).get? r = some ta →
        (sdivision s m.2.2.1 m.2.2.2).get? r = some tn →
        alookup ta.abbreviation t
            = some (tn.abbreviation, if r < 2 then "AWAY" else "HOME") ∧
        alookup tn.abbreviation t
            = some (ta.abbreviation, if r < 2 then "HOME" else "AWAY")) := by
  have hpaPerm : ([a0, a1, a2, a3] : List String).Perm divisionNames :=
    List.mem_permutations'.mp hpa
  have hpnPerm : ([n0, n1, n2, n3] : List String).Perm divisionNames :=
    List.mem_permutations'.mp hpn
  have ha0m : a0 ∈ divisionNames := hpaPerm.mem_iff.mp (by simp)
  have ha1m : a1 ∈ divisionNames := hpaPerm.mem_iff.mp (by simp)
  have ha2m : a2 ∈ divisionNames := hpaPerm.mem_iff.mp (by simp)
  have ha3m : a3 ∈ divisionNames := hpaPerm.mem_iff.mp (by simp)
  have hn0m : n0 ∈ divisionNames := hpnPerm.mem_iff.mp (by simp)
  have hn1m : n1 ∈ divisionNames := hpnPerm.mem_iff.mp (by simp)
  have hn2m : n2 ∈ divisionNames := hpnPerm.mem_iff.mp (by simp)
  have hn3m : n3 ∈ divisionNames := hpnPerm.mem_iff.mp (by simp)
  have hsdA0 := sdivision_perm_catalog s hs "AFC" a0 (by decide) ha0m
  have hsdA1 := sdivision_perm_catalog s hs "AFC" a1 (by decide) ha1m
  have hsdA2 := sdivision_perm_catalog s hs "AFC" a2 (by decide) ha2m
  have hsdA3 := sdivision_perm_catalog s hs "AFC" a3 (by decide) ha3m
  have hsdN0 := sdivision_perm_catalog s hs "NFC" n0 (by decide) hn0m
  have hsdN1 := sdivision_perm_catalog s hs "NFC" n1 (by decide) hn1m
  have hsdN2 := sdivision_perm_catalog s hs "NFC" n2 (by decide) hn2m
  have hsdN3 := sdivision_perm_catalog s hs "NFC" n3 (by decide) hn3m
  obtain ⟨p00, p01, p02, p03, hdA0⟩ := exists_four _
    (hsdA0.length_eq.trans (nflDivision_length "AFC" (by decide) a0 ha0m))
  obtain ⟨p10, p11, p12, p13, hdA1⟩ := exists_four _
    (hsdA1.length_eq.trans (nflDivision_length "AFC" (by decide) a1 ha1m))
  obtain ⟨p20, p21, p22, p23, hdA2⟩ := exists_four _
    (hsdA2.length_eq.trans (nflDivision_length "AFC" (by decide) a2 ha2m))
  obtain ⟨p30, p31, p32, p33, hdA3⟩ := exists_four _
    (hsdA3.length_eq.trans (nflDivision_length "AFC" (by decide) a3 ha3m))
  obtain ⟨q00, q01, q02, q03, hdN0⟩ := exists_four _
    (hsdN0.length_eq.trans (nflDivision_length "NFC" (by decide) n0 hn0m))
  obtain ⟨q10, q11, q12, q13, hdN1⟩ := exists_four _
    (hsdN1.length_eq.trans (nflDivision_length "NFC" (by decide) n1 hn1m))
  obtain ⟨q20, q21, q22, q23, hdN2⟩ := exists_four _
    (hsdN2.length_eq.trans (nflDivision_length "NFC" (by decide) n2 hn2m))
  obtain ⟨q30, q31, q32, q33, hdN3⟩ := exists_four _
    (hsdN3.length_eq.trans (nflDivision_length "NFC" (by decide) n3 hn3m))
  rw [hdA0] at hsdA0
  rw [hdA1] at hsdA1
  rw [hdA2] at hsdA2
  rw [hdA3] at hsdA3
  rw [hdN0] at hsdN0
  rw [hdN1] at hsdN1
  rw [hdN2] at hsdN2
  rw [hdN3] at hsdN3
  have hbuild : buildInterRankMatchups s
      [("AFC", a0, "NFC", n0), ("AFC", a1, "NFC", n1),
       ("AFC", a2, "NFC", n2), ("AFC", a3, "NFC", n3)] =
      some
        [⟨p00.abbreviation, "AFC", a0, q00.abbreviation, "NFC", n0⟩,
         ⟨p01.abbreviation, "AFC", a0, q01.abbreviation, "NFC", n0⟩,
         ⟨p02.abbreviation, "AFC", a0, q02.abbreviation, "NFC", n0⟩,
         ⟨p03.abbreviation, "AFC", a0, q03.abbreviation, "NFC", n0⟩,
         ⟨p10.abbreviation, "AFC", a1, q10.abbreviation, "NFC", n1⟩,
         ⟨p11.abbreviation, "AFC", a1, q11.abbreviation, "NFC", n1⟩,
         ⟨p12.abbreviation, "AFC", a1, q12.abbreviation, "NFC", n1⟩,
         ⟨p13.abbreviation, "AFC", a1, q13.abbreviation, "NFC", n1⟩,
         ⟨p20.abbreviation, "AFC", a2, q20.abbreviation, "NFC", n2⟩,
         ⟨p21.abbreviation, "AFC", a2, q21.abbreviation, "NFC", n2⟩,
         ⟨p22.abbreviation, "AFC", a2, q22.abbreviation, "NFC", n2⟩,
         ⟨p23.abbreviation, "AFC", a2, q23.abbreviation, "NFC", n2⟩,
         ⟨p30.abbreviation, "AFC", a3, q30.abbreviation, "NFC", n3⟩,
         ⟨p31.abbreviation, "AFC", a3, q31.abbreviation, "NFC", n3⟩,
         ⟨p32.abbreviation, "AFC", a3, q32.abbreviation, "NFC", n3⟩,
         ⟨p33.abbreviation, "AFC", a3, q33.abbreviation, "NFC", n3⟩] := by
    unfold buildInterRankMatchups
    simp only [List.foldlM_cons, List.foldlM_nil]
    rw [buildGroup_eq s a0 n0 [] p00 p01 p02 p03 q00 q01 q02 q03 hdA0 hdN0]
    simp only [Option.bind_eq_bind, Option.some_bind]
    rw [buildGroup_eq s a1 n1 _ p10 p11 p12 p13 q10 q11 q12 q13 hdA1 hdN1]
    simp only [Option.some_bind]
    rw [buildGroup_eq s a2 n2 _ p20 p21 p22 p23 q20 q21 q22 q23 hdA2 hdN2]
    simp only [Option.some_bind]
    rw [buildGroup_eq s a3 n3 _ p30 p31 p32 p33 q30 q31 q32 q33 hdA3 hdN3]
    simp only [Option.some_bind, Option.pure_def]
    simp
  have hK0 := interleave8_perm p00.abbreviation q00.abbreviation p01.abbreviation q01.abbreviation p02.abbreviation q02.abbreviation p03.abbreviation q03.abbreviation
  have hK1 := interleave8_perm p10.abbreviation q10.abbreviation p11.abbreviation q11.abbreviation p12.abbreviation q12.abbreviation p13.abbreviation q13.abbreviation
  have hK2 := interleave8_perm p20.abbreviation q20.abbreviation p21.abbreviation q21.abbreviation p22.abbreviation q22.abbreviation p23.abbreviation q23.abbreviation
  have hK3 := interleave8_perm p30.abbreviation q30.abbreviation p31.abbreviation q31.abbreviation p32.abbreviation q32.abbreviation p33.abbreviation q33.abbreviation
  have hA16 : ([p00.abbreviation, p01.abbreviation, p02.abbreviation, p03.abbreviation] ++
      ([p10.abbreviation, p11.abbreviation, p12.abbreviation, p13.abbreviation] ++
       ([p20.abbreviation, p21.abbreviation, p22.abbreviation, p23.abbreviation] ++
        [p30.abbreviation, p31.abbreviation, p32.abbreviation, p33.abbreviation]))).Perm (allAbbreviations.take 16) := by
    have h1 : ([p00.abbreviation, p01.abbreviation, p02.abbreviation, p03.abbreviation] ++
        ([p10.abbreviation, p11.abbreviation, p12.abbreviation, p13.abbreviation] ++
         ([p20.abbreviation, p21.abbreviation, p22.abbreviation, p23.abbreviation] ++
          [p30.abbreviation, p31.abbreviation, p32.abbreviation, p33.abbreviation]))) =
        [a0, a1, a2, a3].flatMap
          (fun d => (sdivision s "AFC" d).map Team.abbreviation) := by
      simp only [List.flatMap_cons, List.flatMap_nil, List.append_nil,
        hdA0, hdA1, hdA2, hdA3, List.map_cons, List.map_nil]
    rw [h1, ← afc_flatMap_take]
    exact (perm_flatMap _ hpaPerm).trans
      (List.Perm.flatMap_left divisionNames
        (fun d hd => (sdivision_perm_catalog s hs "AFC" d (by decide) hd).map _))
  have hN16 : ([q00.abbreviation, q01.abbreviation, q02.abbreviation, q03.abbreviation] ++
      ([q10.abbreviation, q11.abbreviation, q12.abbreviation, q13.abbreviation] ++
       ([q20.abbreviation, q21.abbreviation, q22.abbreviation, q23.abbreviation] ++
        [q30.abbreviation, q31.abbreviation, q32.abbreviation, q33.abbreviation]))).Perm (allAbbreviations.drop 16) := by
    have h1 : ([q00.abbreviation, q01.abbreviation, q02.abbreviation, q03.abbreviation] ++
        ([q10.abbreviation, q11.abbreviation, q12.abbreviation, q13.abbreviation] ++
         ([q20.abbreviation, q21.abbreviation, q22.abbreviation, q23.abbreviation] ++
          [q30.abbreviation, q31.abbreviation, q32.abbreviation, q33.abbreviation]))) =
        [n0, n1, n2, n3].flatMap
          (fun d => (sdivision s "NFC" d).map Team.abbreviation) := by
      simp only [List.flatMap_cons, List.flatMap_nil, List.append_nil,
        hdN0, hdN1, hdN2, hdN3, List.map_cons, List.map_nil]
    rw [h1, ← nfc_flatMap_drop]
    exact (perm_flatMap _ hpnPerm).trans
      (List.Perm.flatMap_left divisionNames
        (fun d hd => (sdivision_perm_catalog s hs "NFC" d (by decide) hd).map _))
  have hperm32 : ([p00.abbreviation, q00.abbreviation, p01.abbreviation, q01.abbreviation, p02.abbreviation, q02.abbreviation, p03.abbreviation, q03.abbreviation] ++
      ([p10.abbreviation, q10.abbreviation, p11.abbreviation, q11.abbreviation, p12.abbreviation, q12.abbreviation, p13.abbreviation, q13.abbreviation] ++
       ([p20.abbreviation, q20.abbreviation, p21.abbreviation, q21.abbreviation, p22.abbreviation, q22.abbreviation, p23.abbreviation, q23.abbreviation] ++
        [p30.abbreviation, q30.abbreviation, p31.abbreviation, q31.abbreviation, p32.abbreviation, q32.abbreviation, p33.abbreviation, q33.abbreviation]))).Perm allAbbreviations :=
    ((hK0.append (hK1.append (hK2.append hK3))).trans
      (regroup4_perm _ _ _ _ _ _ _ _)).trans
      ((hA16.append hN16).trans
        (show (allAbbreviations.take 16 ++ allAbbreviations.drop 16).Perm
            allAbbreviations by rw [List.take_append_drop]))
  have hnd32 := hperm32.nodup_iff.mpr allAbbreviations_nodup
  obtain ⟨hndK0, hnd1, hdis0⟩ := List.nodup_append.mp hnd32
  obtain ⟨hndK1, hnd2, hdis1⟩ := List.nodup_append.mp hnd1
  obtain ⟨hndK2, hndK3, hdis2⟩ := List.nodup_append.mp hnd2
  obtain ⟨hA0l, hA1l, hA2l, hA3l, hAall⟩ := divRow_chain_facts [a0, a1, a2, a3] hpa
  obtain ⟨hN0l, hN1l, hN2l, hN3l, hNall⟩ := divRow_chain_facts [n0, n1, n2, n3] hpn
  have hfold :
      ([⟨p00.abbreviation, "AFC", a0, q00.abbreviation, "NFC", n0⟩,
       ⟨p01.abbreviation, "AFC", a0, q01.abbreviation, "NFC", n0⟩,
       ⟨p02.abbreviation, "AFC", a0, q02.abbreviation, "NFC", n0⟩,
       ⟨p03.abbreviation, "AFC", a0, q03.abbreviation, "NFC", n0⟩,
       ⟨p10.abbreviation, "AFC", a1, q10.abbreviation, "NFC", n1⟩,
       ⟨p11.abbreviation, "AFC", a1, q11.abbreviation, "NFC", n1⟩,
       ⟨p12.abbreviation, "AFC", a1, q12.abbreviation, "NFC", n1⟩,
       ⟨p13.abbreviation, "AFC", a1, q13.abbreviation, "NFC", n1⟩,
       ⟨p20.abbreviation, "AFC", a2, q20.abbreviation, "NFC", n2⟩,
       ⟨p21.abbreviation, "AFC", a2, q21.abbreviation, "NFC", n2⟩,
       ⟨p22.abbreviation, "AFC", a2, q22.abbreviation, "NFC", n2⟩,
       ⟨p23.abbreviation, "AFC", a2, q23.abbreviation, "NFC", n2⟩,
       ⟨p30.abbreviation, "AFC", a3, q30.abbreviation, "NFC", n3⟩,
       ⟨p31.abbreviation, "AFC", a3, q31.abbreviation, "NFC", n3⟩,
       ⟨p32.abbreviation, "AFC", a3, q32.abbreviation, "NFC", n3⟩,
       ⟨p33.abbreviation, "AFC", a3, q33.abbreviation, "NFC", n3⟩]).foldl pass2Step irInitialState =
      { asgn :=
        [(p00.abbreviation, (q00.abbreviation, "AWAY")),
         (q00.abbreviation, (p00.abbreviation, "HOME")),
         (p01.abbreviation, (q01.abbreviation, "AWAY")),
         (q01.abbreviation, (p01.abbreviation, "HOME")),
         (p02.abbreviation, (q02.abbreviation, "HOME")),
         (q02.abbreviation, (p02.abbreviation, "AWAY")),
         (p03.abbreviation, (q03.abbreviation, "HOME")),
         (q03.abbreviation, (p03.abbreviation, "AWAY")),
         (p10.abbreviation, (q10.abbreviation, "AWAY")),
         (q10.abbreviation, (p10.abbreviation, "HOME")),
         (p11.abbreviation, (q11.abbreviation, "AWAY")),
         (q11.abbreviation, (p11.abbreviation, "HOME")),
         (p12.abbreviation, (q12.abbreviation, "HOME")),
         (q12.abbreviation, (p12.abbreviation, "AWAY")),
         (p13.abbreviation, (q13.abbreviation, "HOME")),
         (q13.abbreviation, (p13.abbreviation, "AWAY")),
         (p20.abbreviation, (q20.abbreviation, "AWAY")),
         (q20.abbreviation, (p20.abbreviation, "HOME")),
         (p21.abbreviation, (q21.abbreviation, "AWAY")),
         (q21.abbreviation, (p21.abbreviation, "HOME")),
         (p22.abbreviation, (q22.abbreviation, "HOME")),
         (q22.abbreviation, (p22.abbreviation, "AWAY")),
         (p23.abbreviation, (q23.abbreviation, "HOME")),
         (q23.abbreviation, (p23.abbreviation, "AWAY")),
         (p30.abbreviation, (q30.abbreviation, "AWAY")),
         (q30.abbreviation, (p30.abbreviation, "HOME")),
         (p31.abbreviation, (q31.abbreviation, "AWAY")),
         (q31.abbreviation, (p31.abbreviation, "HOME")),
         (p32.abbreviation, (q32.abbreviation, "HOME")),
         (q32.abbreviation, (p32.abbreviation, "AWAY")),
         (p33.abbreviation, (q33.abbreviation, "HOME")),
         (q33.abbreviation, (p33.abbreviation, "AWAY"))],
        confHomes := [("AFC", 8), ("NFC", 8)],
        divHomes := [("AFC", aset a3 2 (aset a2 2 (aset a1 2 (aset a0 2 [("North", (0 : Nat)), ("South", 0), ("East", 0), ("West", 0)])))),
                     ("NFC", aset n3 2 (aset n2 2 (aset n1 2 (aset n0 2 [("North", (0 : Nat)), ("South", 0), ("East", 0), ("West", 0)]))))],
        processed := [p00.abbreviation, q00.abbreviation, p01.abbreviation, q01.abbreviation, p02.abbreviation, q02.abbreviation, p03.abbreviation, q03.abbreviation, p10.abbreviation, q10.abbreviation, p11.abbreviation, q11.abbreviation, p12.abbreviation, q12.abbreviation, p13.abbreviation, q13.abbreviation, p20.abbreviation, q20.abbreviation, p21.abbreviation, q21.abbreviation, p22.abbreviation, q22.abbreviation, p23.abbreviation, q23.abbreviation, p30.abbreviation, q30.abbreviation, p31.abbreviation, q31.abbreviation, p32.abbreviation, q32.abbreviation, p33.abbreviation, q33.abbreviation] } := by
    have hsplit :
        ([⟨p00.abbreviation, "AFC", a0, q00.abbreviation, "NFC", n0⟩,
       ⟨p01.abbreviation, "AFC", a0, q01.abbreviation, "NFC", n0⟩,
       ⟨p02.abbreviation, "AFC", a0, q02.abbreviation, "NFC", n0⟩,
       ⟨p03.abbreviation, "AFC", a0, q03.abbreviation, "NFC", n0⟩,
       ⟨p10.abbreviation, "AFC", a1, q10.abbreviation, "NFC", n1⟩,
       ⟨p11.abbreviation, "AFC", a1, q11.abbreviation, "NFC", n1⟩,
       ⟨p12.abbreviation, "AFC", a1, q12.abbreviation, "NFC", n1⟩,
       ⟨p13.abbreviation, "AFC", a1, q13.abbreviation, "NFC", n1⟩,
       ⟨p20.abbreviation, "AFC", a2, q20.abbreviation, "NFC", n2⟩,
       ⟨p21.abbreviation, "AFC", a2, q21.abbreviation, "NFC", n2⟩,
       ⟨p22.abbreviation, "AFC", a2, q22.abbreviation, "NFC", n2⟩,
       ⟨p23.abbreviation, "AFC", a2, q23.abbreviation, "NFC", n2⟩,
       ⟨p30.abbreviation, "AFC", a3, q30.abbreviation, "NFC", n3⟩,
       ⟨p31.abbreviation, "AFC", a3, q31.abbreviation, "NFC", n3⟩,
       ⟨p32.abbreviation, "AFC", a3, q32.abbreviation, "NFC", n3⟩,
       ⟨p33.abbreviation, "AFC", a3, q33.abbreviation, "NFC", n3⟩] : List IRMatch) =
        [⟨p00.abbreviation, "AFC", a0, q00.abbreviation, "NFC", n0⟩,
       ⟨p01.abbreviation, "AFC", a0, q01.abbreviation, "NFC", n0⟩,
       ⟨p02.abbreviation, "AFC", a0, q02.abbreviation, "NFC", n0⟩,
       ⟨p03.abbreviation, "AFC", a0, q03.abbreviation, "NFC", n0⟩] ++
      ([⟨p10.abbreviation, "AFC", a1, q10.abbreviation, "NFC", n1⟩,
       ⟨p11.abbreviation, "AFC", a1, q11.abbreviation, "NFC", n1⟩,
       ⟨p12.abbreviation, "AFC", a1, q12.abbreviation, "NFC", n1⟩,
       ⟨p13.abbreviation, "AFC", a1, q13.abbreviation, "NFC", n1⟩] ++
      ([⟨p20.abbreviation, "AFC", a2, q20.abbreviation, "NFC", n2⟩,
       ⟨p21.abbreviation, "AFC", a2, q21.abbreviation, "NFC", n2⟩,
       ⟨p22.abbreviation, "AFC", a2, q22.abbreviation, "NFC", n2⟩,
       ⟨p23.abbreviation, "AFC", a2, q23.abbreviation, "NFC", n2⟩] ++
      [⟨p30.abbreviation, "AFC", a3, q30.abbreviation, "NFC", n3⟩,
       ⟨p31.abbreviation, "AFC", a3, q31.abbreviation, "NFC", n3⟩,
       ⟨p32.abbreviation, "AFC", a3, q32.abbreviation, "NFC", n3⟩,
       ⟨p33.abbreviation, "AFC", a3, q33.abbreviation, "NFC", n3⟩])) := rfl
    rw [hsplit, List.foldl_append, List.foldl_append, List.foldl_append]
    rw [pass2_group irInitialState a0 n0 p00.abbreviation q00.abbreviation p01.abbreviation q01.abbreviation p02.abbreviation q02.abbreviation p03.abbreviation q03.abbreviation
      (0) [("North", (0 : Nat)), ("South", 0), ("East", 0), ("West", 0)] [("North", (0 : Nat)), ("South", 0), ("East", 0), ("West", 0)] (by omega) rfl rfl hA0l hN0l rfl hndK0
      (by intro z hz hzm; exact absurd hzm (by simp [irInitialState]))]
    rw [pass2_group _ a1 n1 p10.abbreviation q10.abbreviation p11.abbreviation q11.abbreviation p12.abbreviation q12.abbreviation p13.abbreviation q13.abbreviation
      (0 + 2) (aset a0 2 [("North", (0 : Nat)), ("South", 0), ("East", 0), ("West", 0)]) (aset n0 2 [("North", (0 : Nat)), ("South", 0), ("East", 0), ("West", 0)]) (by omega) rfl rfl hA1l hN1l rfl hndK1
      (by
      intro z hz hzm
      rcases List.mem_append.mp hzm with h00 | h0
      · exact absurd h00 (by simp [irInitialState])
      · exact hdis0 h0 (List.mem_append_left _ hz))]
    rw [pass2_group _ a2 n2 p20.abbreviation q20.abbreviation p21.abbreviation q21.abbreviation p22.abbreviation q22.abbreviation p23.abbreviation q23.abbreviation
      (0 + 2 + 2) (aset a1 2 (aset a0 2 [("North", (0 : Nat)), ("South", 0), ("East", 0), ("West", 0)])) (aset n1 2 (aset n0 2 [("North", (0 : Nat)), ("South", 0), ("East", 0), ("West", 0)])) (by omega) rfl rfl hA2l hN2l rfl hndK2
      (by
      intro z hz hzm
      rcases List.mem_append.mp hzm with h01 | h1
      · rcases List.mem_append.mp h01 with h00 | h0
        · exact absurd h00 (by simp [irInitialState])
        · exact hdis0 h0 (List.mem_append_right _ (List.mem_append_left _ hz))
      · exact hdis1 h1 (List.mem_append_left _ hz))]
    rw [pass2_group _ a3 n3 p30.abbreviation q30.abbreviation p31.abbreviation q31.abbreviation p32.abbreviation q32.abbreviation p33.abbreviation q33.abbreviation
      (0 + 2 + 2 + 2) (aset a2 2 (aset a1 2 (aset a0 2 [("North", (0 : Nat)), ("South", 0), ("East", 0), ("West", 0)]))) (aset n2 2 (aset n1 2 (aset n0 2 [("North", (0 : Nat)), ("South", 0), ("East", 0), ("West", 0)]))) (by omega) rfl rfl hA3l hN3l rfl hndK3
      (by
      intro z hz hzm
      rcases List.mem_append.mp hzm with h012 | h2
      · rcases List.mem_append.mp h012 with h01 | h1
        · rcases List.mem_append.mp h01 with h00 | h0
          · exact absurd h00 (by simp [irInitialState])
          · exact hdis0 h0 (List.mem_append_right _ (List.mem_append_right _ hz))
        · exact hdis1 h1 (List.mem_append_right _ hz)
      · exact hdis2 h2 hz)]
    simp [irInitialState, irBlock]
  have hlk : ∀ p ∈ ([(p00.abbreviation, (q00.abbreviation, "AWAY")),
       (q00.abbreviation, (p00.abbreviation, "HOME")),
       (p01.abbreviation, (q01.abbreviation, "AWAY")),
       (q01.abbreviation, (p01.abbreviation, "HOME")),
       (p02.abbreviation, (q02.abbreviation, "HOME")),
       (q02.abbreviation, (p02.abbreviation, "AWAY")),
       (p03.abbreviation, (q03.abbreviation, "HOME")),
       (q03.abbreviation, (p03.abbreviation, "AWAY")),
       (p10.abbreviation, (q10.abbreviation, "AWAY")),
       (q10.abbreviation, (p10.abbreviation, "HOME")),
       (p11.abbreviation, (q11.abbreviation, "AWAY")),
       (q11.abbreviation, (p11.abbreviation, "HOME")),
       (p12.abbreviation, (q12.abbreviation, "HOME")),
       (q12.abbreviation, (p12.abbreviation, "AWAY")),
       (p13.abbreviation, (q13.abbreviation, "HOME")),
       (q13.abbreviation, (p13.abbreviation, "AWAY")),
       (p20.abbreviation, (q20.abbreviation, "AWAY")),
       (q20.abbreviation, (p20.abbreviation, "HOME")),
       (p21.abbreviation, (q21.abbreviation, "AWAY")),
       (q21.abbreviation, (p21.abbreviation, "HOME")),
       (p22.abbreviation, (q22.abbreviation, "HOME")),
       (q22.abbreviation, (p22.abbreviation, "AWAY")),
       (p23.abbreviation, (q23.abbreviation, "HOME")),
       (q23.abbreviation, (p23.abbreviation, "AWAY")),
       (p30.abbreviation, (q30.abbreviation, "AWAY")),
       (q30.abbreviation, (p30.abbreviation, "HOME")),
       (p31.abbreviation, (q31.abbreviation, "AWAY")),
       (q31.abbreviation, (p31.abbreviation, "HOME")),
       (p32.abbreviation, (q32.abbreviation, "HOME")),
       (q32.abbreviation, (p32.abbreviation, "AWAY")),
       (p33.abbreviation, (q33.abbreviation, "HOME")),
       (q33.abbreviation, (p33.abbreviation, "AWAY"))] : IRTable),
      alookup p.1
        ([(p00.abbreviation, (q00.abbreviation, "AWAY")),
       (q00.abbreviation, (p00.abbreviation, "HOME")),
       (p01.abbreviation, (q01.abbreviation, "AWAY")),
       (q01.abbreviation, (p01.abbreviation, "HOME")),
       (p02.abbreviation, (q02.abbreviation, "HOME")),
       (q02.abbreviation, (p02.abbreviation, "AWAY")),
       (p03.abbreviation, (q03.abbreviation, "HOME")),
       (q03.abbreviation, (p03.abbreviation, "AWAY")),
       (p10.abbreviation, (q10.abbreviation, "AWAY")),
       (q10.abbreviation, (p10.abbreviation, "HOME")),
       (p11.abbreviation, (q11.abbreviation, "AWAY")),
       (q11.abbreviation, (p11.abbreviation, "HOME")),
       (p12.abbreviation, (q12.abbreviation, "HOME")),
       (q12.abbreviation, (p12.abbreviation, "AWAY")),
       (p13.abbreviation, (q13.abbreviation, "HOME")),
       (q13.abbreviation, (p13.abbreviation, "AWAY")),
       (p20.abbreviation, (q20.abbreviation, "AWAY")),
       (q20.abbreviation, (p20.abbreviation, "HOME")),
       (p21.abbreviation, (q21.abbreviation, "AWAY")),
       (q21.abbreviation, (p21.abbreviation, "HOME")),
       (p22.abbreviation, (q22.abbreviation, "HOME")),
       (q22.abbreviation, (p22.abbreviation, "AWAY")),
       (p23.abbreviation, (q23.abbreviation, "HOME")),
       (q23.abbreviation, (p23.abbreviation, "AWAY")),
       (p30.abbreviation, (q30.abbreviation, "AWAY")),
       (q30.abbreviation, (p30.abbreviation, "HOME")),
       (p31.abbreviation, (q31.abbreviation, "AWAY")),
       (q31.abbreviation, (p31.abbreviation, "HOME")),
       (p32.abbreviation, (q32.abbreviation, "HOME")),
       (q32.abbreviation, (p32.abbreviation, "AWAY")),
       (p33.abbreviation, (q33.abbreviation, "HOME")),
       (q33.abbreviation, (p33.abbreviation, "AWAY"))] : IRTable) = some p.2 := by
    intro p hp
    exact alookup_of_mem_nodup _ p.1 p.2 hp hnd32
  have hP0 := interleave8_perm q00.abbreviation p00.abbreviation q01.abbreviation p01.abbreviation q02.abbreviation p02.abbreviation q03.abbreviation p03.abbreviation
  have hP1 := interleave8_perm q10.abbreviation p10.abbreviation q11.abbreviation p11.abbreviation q12.abbreviation p12.abbreviation q13.abbreviation p13.abbreviation
  have hP2 := interleave8_perm q20.abbreviation p20.abbreviation q21.abbreviation p21.abbreviation q22.abbreviation p22.abbreviation q23.abbreviation p23.abbreviation
  have hP3 := interleave8_perm q30.abbreviation p30.abbreviation q31.abbreviation p31.abbreviation q32.abbreviation p32.abbreviation q33.abbreviation p33.abbreviation
  have hpermP := ((hP0.append (hP1.append (hP2.append hP3))).trans
      (regroup4_perm _ _ _ _ _ _ _ _)).trans
      (((hN16.append hA16).trans List.perm_append_comm).trans
        (show (allAbbreviations.take 16 ++ allAbbreviations.drop 16).Perm
            allAbbreviations by rw [List.take_append_drop]))
  have hlkA00 := hlk (p00.abbreviation, (q00.abbreviation, "AWAY")) (by simp)
  have hlkN00 := hlk (q00.abbreviation, (p00.abbreviation, "HOME")) (by simp)
  have hlkA01 := hlk (p01.abbreviation, (q01.abbreviation, "AWAY")) (by simp)
  have hlkN01 := hlk (q01.abbreviation, (p01.abbreviation, "HOME")) (by simp)
  have hlkA02 := hlk (p02.abbreviation, (q02.abbreviation, "HOME")) (by simp)
  have hlkN02 := hlk (q02.abbreviation, (p02.abbreviation, "AWAY")) (by simp)
  have hlkA03 := hlk (p03.abbreviation, (q03.abbreviation, "HOME")) (by simp)
  have hlkN03 := hlk (q03.abbreviation, (p03.abbreviation, "AWAY")) (by simp)
  have hlkA10 := hlk (p10.abbreviation, (q10.abbreviation, "AWAY")) (by simp)
  have hlkN10 := hlk (q10.abbreviation, (p10.abbreviation, "HOME")) (by simp)
  have hlkA11 := hlk (p11.abbreviation, (q11.abbreviation, "AWAY")) (by simp)
  have hlkN11 := hlk (q11.abbreviation, (p11.abbreviation, "HOME")) (by simp)
  have hlkA12 := hlk (p12.abbreviation, (q12.abbreviation, "HOME")) (by simp)
  have hlkN12 := hlk (q12.abbreviation, (p12.abbreviation, "AWAY")) (by simp)
  have hlkA13 := hlk (p13.abbreviation, (q13.abbreviation, "HOME")) (by simp)
  have hlkN13 := hlk (q13.abbreviation, (p13.abbreviation, "AWAY")) (by simp)
  have hlkA20 := hlk (p20.abbreviation, (q20.abbreviation, "AWAY")) (by simp)
  have hlkN20 := hlk (q20.abbreviation, (p20.abbreviation, "HOME")) (by simp)
  have hlkA21 := hlk (p21.abbreviation, (q21.abbreviation, "AWAY")) (by simp)
  have hlkN21 := hlk (q21.abbreviation, (p21.abbreviation, "HOME")) (by simp)
  have hlkA22 := hlk (p22.abbreviation, (q22.abbreviation, "HOME")) (by simp)
  have hlkN22 := hlk (q22.abbreviation, (p22.abbreviation, "AWAY")) (by simp)
  have hlkA23 := hlk (p23.abbreviation, (q23.abbreviation, "HOME")) (by simp)
  have hlkN23 := hlk (q23.abbreviation, (p23.abbreviation, "AWAY")) (by simp)
  have hlkA30 := hlk (p30.abbreviation, (q30.abbreviation, "AWAY")) (by simp)
  have hlkN30 := hlk (q30.abbreviation, (p30.abbreviation, "HOME")) (by simp)
  have hlkA31 := hlk (p31.abbreviation, (q31.abbreviation, "AWAY")) (by simp)
  have hlkN31 := hlk (q31.abbreviation, (p31.abbreviation, "HOME")) (by simp)
  have hlkA32 := hlk (p32.abbreviation, (q32.abbreviation, "HOME")) (by simp)
  have hlkN32 := hlk (q32.abbreviation, (p32.abbreviation, "AWAY")) (by simp)
  have hlkA33 := hlk (p33.abbreviation, (q33.abbreviation, "HOME")) (by simp)
  have hlkN33 := hlk (q33.abbreviation, (p33.abbreviation, "AWAY")) (by simp)
  have hver : verify_inter_rank_assignments
      [(p00.abbreviation, (q00.abbreviation, "AWAY")),
       (q00.abbreviation, (p00.abbreviation, "HOME")),
       (p01.abbreviation, (q01.abbreviation, "AWAY")),
       (q01.abbreviation, (p01.abbreviation, "HOME")),
       (p02.abbreviation, (q02.abbreviation, "HOME")),
       (q02.abbreviation, (p02.abbreviation, "AWAY")),
       (p03.abbreviation, (q03.abbreviation, "HOME")),
       (q03.abbreviation, (p03.abbreviation, "AWAY")),
       (p10.abbreviation, (q10.abbreviation, "AWAY")),
       (q10.abbreviation, (p10.abbreviation, "HOME")),
       (p11.abbreviation, (q11.abbreviation, "AWAY")),
       (q11.abbreviation, (p11.abbreviation, "HOME")),
       (p12.abbreviation, (q12.abbreviation, "HOME")),
       (q12.abbreviation, (p12.abbreviation, "AWAY")),
       (p13.abbreviation, (q13.abbreviation, "HOME")),
       (q13.abbreviation, (p13.abbreviation, "AWAY")),
       (p20.abbreviation, (q20.abbreviation, "AWAY")),
       (q20.abbreviation, (p20.abbreviation, "HOME")),
       (p21.abbreviation, (q21.abbreviation, "AWAY")),
       (q21.abbreviation, (p21.abbreviation, "HOME")),
       (p22.abbreviation, (q22.abbreviation, "HOME")),
       (q22.abbreviation, (p22.abbreviation, "AWAY")),
       (p23.abbreviation, (q23.abbreviation, "HOME")),
       (q23.abbreviation, (p23.abbreviation, "AWAY")),
       (p30.abbreviation, (q30.abbreviation, "AWAY")),
       (q30.abbreviation, (p30.abbreviation, "HOME")),
       (p31.abbreviation, (q31.abbreviation, "AWAY")),
       (q31.abbreviation, (p31.abbreviation, "HOME")),
       (p32.abbreviation, (q32.abbreviation, "HOME")),
       (q32.abbreviation, (p32.abbreviation, "AWAY")),
       (p33.abbreviation, (q33.abbreviation, "HOME")),
       (q33.abbreviation, (p33.abbreviation, "AWAY"))]
      [("AFC", 8), ("NFC", 8)]
      [("AFC", aset a3 2 (aset a2 2 (aset a1 2 (aset a0 2 [("North", (0 : Nat)), ("South", 0), ("East", 0), ("West", 0)])))), ("NFC", aset n3 2 (aset n2 2 (aset n1 2 (aset n0 2 [("North", (0 : Nat)), ("South", 0), ("East", 0), ("West", 0)]))))] = true := by
    unfold verify_inter_rank_assignments
    simp only [Bool.and_eq_true]
    refine ⟨⟨⟨⟨?_, ?_⟩, ?_⟩, ?_⟩, ?_⟩
    · rfl
    · rw [List.all_eq_true]
      intro r hr
      have hr2 : r ∈ irBlock p00.abbreviation q00.abbreviation p01.abbreviation q01.abbreviation p02.abbreviation q02.abbreviation p03.abbreviation q03.abbreviation ++
          (irBlock p10.abbreviation q10.abbreviation p11.abbreviation q11.abbreviation p12.abbreviation q12.abbreviation p13.abbreviation q13.abbreviation ++
           (irBlock p20.abbreviation q20.abbreviation p21.abbreviation q21.abbreviation p22.abbreviation q22.abbreviation p23.abbreviation q23.abbreviation ++
            irBlock p30.abbreviation q30.abbreviation p31.abbreviation q31.abbreviation p32.abbreviation q32.abbreviation p33.abbreviation q33.abbreviation)) := hr
      rcases List.mem_append.mp hr2 with h0 | h123
      · exact irBlock_all_consistent _ _ _ _ _ _ _ _ _ hlk
          (fun p hp => (List.mem_append.mpr (Or.inl hp) :
            p ∈ irBlock p00.abbreviation q00.abbreviation p01.abbreviation q01.abbreviation p02.abbreviation q02.abbreviation p03.abbreviation q03.abbreviation ++
          (irBlock p10.abbreviation q10.abbreviation p11.abbreviation q11.abbreviation p12.abbreviation q12.abbreviation p13.abbreviation q13.abbreviation ++
           (irBlock p20.abbreviation q20.abbreviation p21.abbreviation q21.abbreviation p22.abbreviation q22.abbreviation p23.abbreviation q23.abbreviation ++
            irBlock p30.abbreviation q30.abbreviation p31.abbreviation q31.abbreviation p32.abbreviation q32.abbreviation p33.abbreviation q33.abbreviation)))) r h0
      rcases List.mem_append.mp h123 with h1 | h23
      · exact irBlock_all_consistent _ _ _ _ _ _ _ _ _ hlk
          (fun p hp => (List.mem_append.mpr
            (Or.inr (List.mem_append.mpr (Or.inl hp))) :
            p ∈ irBlock p00.abbreviation q00.abbreviation p01.abbreviation q01.abbreviation p02.abbreviation q02.abbreviation p03.abbreviation q03.abbreviation ++
          (irBlock p10.abbreviation q10.abbreviation p11.abbreviation q11.abbreviation p12.abbreviation q12.abbreviation p13.abbreviation q13.abbreviation ++
           (irBlock p20.abbreviation q20.abbreviation p21.abbreviation q21.abbreviation p22.abbreviation q22.abbreviation p23.abbreviation q23.abbreviation ++
            irBlock p30.abbreviation q30.abbreviation p31.abbreviation q31.abbreviation p32.abbreviation q32.abbreviation p33.abbreviation q33.abbreviation)))) r h1
      rcases List.mem_append.mp h23 with h2 | h3
      · exact irBlock_all_consistent _ _ _ _ _ _ _ _ _ hlk
          (fun p hp => (List.mem_append.mpr (Or.inr (List.mem_append.mpr
            (Or.inr (List.mem_append.mpr (Or.inl hp))))) :
            p ∈ irBlock p00.abbreviation q00.abbreviation p01.abbreviation q01.abbreviation p02.abbreviation q02.abbreviation p03.abbreviation q03.abbreviation ++
          (irBlock p10.abbreviation q10.abbreviation p11.abbreviation q11.abbreviation p12.abbreviation q12.abbreviation p13.abbreviation q13.abbreviation ++
           (irBlock p20.abbreviation q20.abbreviation p21.abbreviation q21.abbreviation p22.abbreviation q22.abbreviation p23.abbreviation q23.abbreviation ++
            irBlock p30.abbreviation q30.abbreviation p31.abbreviation q31.abbreviation p32.abbreviation q32.abbreviation p33.abbreviation q33.abbreviation)))) r h2
      · exact irBlock_all_consistent _ _ _ _ _ _ _ _ _ hlk
          (fun p hp => (List.mem_append.mpr (Or.inr (List.mem_append.mpr
            (Or.inr (List.mem_append.mpr (Or.inr hp))))) :
            p ∈ irBlock p00.abbreviation q00.abbreviation p01.abbreviation q01.abbreviation p02.abbreviation q02.abbreviation p03.abbreviation q03.abbreviation ++
          (irBlock p10.abbreviation q10.abbreviation p11.abbreviation q11.abbreviation p12.abbreviation q12.abbreviation p13.abbreviation q13.abbreviation ++
           (irBlock p20.abbreviation q20.abbreviation p21.abbreviation q21.abbreviation p22.abbreviation q22.abbreviation p23.abbreviation q23.abbreviation ++
            irBlock p30.abbreviation q30.abbreviation p31.abbreviation q31.abbreviation p32.abbreviation q32.abbreviation p33.abbreviation q33.abbreviation)))) r h3
    · suffices h : ((akeys
          [(p00.abbreviation, (q00.abbreviation, "AWAY")),
       (q00.abbreviation, (p00.abbreviation, "HOME")),
       (p01.abbreviation, (q01.abbreviation, "AWAY")),
       (q01.abbreviation, (p01.abbreviation, "HOME")),
       (p02.abbreviation, (q02.abbreviation, "HOME")),
       (q02.abbreviation, (p02.abbreviation, "AWAY")),
       (p03.abbreviation, (q03.abbreviation, "HOME")),
       (q03.abbreviation, (p03.abbreviation, "AWAY")),
       (p10.abbreviation, (q10.abbreviation, "AWAY")),
       (q10.abbreviation, (p10.abbreviation, "HOME")),
       (p11.abbreviation, (q11.abbreviation, "AWAY")),
       (q11.abbreviation, (p11.abbreviation, "HOME")),
       (p12.abbreviation, (q12.abbreviation, "HOME")),
       (q12.abbreviation, (p12.abbreviation, "AWAY")),
       (p13.abbreviation, (q13.abbreviation, "HOME")),
       (q13.abbreviation, (p13.abbreviation, "AWAY")),
       (p20.abbreviation, (q20.abbreviation, "AWAY")),
       (q20.abbreviation, (p20.abbreviation, "HOME")),
       (p21.abbreviation, (q21.abbreviation, "AWAY")),
       (q21.abbreviation, (p21.abbreviation, "HOME")),
       (p22.abbreviation, (q22.abbreviation, "HOME")),
       (q22.abbreviation, (p22.abbreviation, "AWAY")),
       (p23.abbreviation, (q23.abbreviation, "HOME")),
       (q23.abbreviation, (p23.abbreviation, "AWAY")),
       (p30.abbreviation, (q30.abbreviation, "AWAY")),
       (q30.abbreviation, (p30.abbreviation, "HOME")),
       (p31.abbreviation, (q31.abbreviation, "AWAY")),
       (q31.abbreviation, (p31.abbreviation, "HOME")),
       (p32.abbreviation, (q32.abbreviation, "HOME")),
       (q32.abbreviation, (p32.abbreviation, "AWAY")),
       (p33.abbreviation, (q33.abbreviation, "HOME")),
       (q33.abbreviation, (p33.abbreviation, "AWAY"))] ++
          ([(p00.abbreviation, (q00.abbreviation, "AWAY")),
       (q00.abbreviation, (p00.abbreviation, "HOME")),
       (p01.abbreviation, (q01.abbreviation, "AWAY")),
       (q01.abbreviation, (p01.abbreviation, "HOME")),
       (p02.abbreviation, (q02.abbreviation, "HOME")),
       (q02.abbreviation, (p02.abbreviation, "AWAY")),
       (p03.abbreviation, (q03.abbreviation, "HOME")),
       (q03.abbreviation, (p03.abbreviation, "AWAY")),
       (p10.abbreviation, (q10.abbreviation, "AWAY")),
       (q10.abbreviation, (p10.abbreviation, "HOME")),
       (p11.abbreviation, (q11.abbreviation, "AWAY")),
       (q11.abbreviation, (p11.abbreviation, "HOME")),
       (p12.abbreviation, (q12.abbreviation, "HOME")),
       (q12.abbreviation, (p12.abbreviation, "AWAY")),
       (p13.abbreviation, (q13.abbreviation, "HOME")),
       (q13.abbreviation, (p13.abbreviation, "AWAY")),
       (p20.abbreviation, (q20.abbreviation, "AWAY")),
       (q20.abbreviation, (p20.abbreviation, "HOME")),
       (p21.abbreviation, (q21.abbreviation, "AWAY")),
       (q21.abbreviation, (p21.abbreviation, "HOME")),
       (p22.abbreviation, (q22.abbreviation, "HOME")),
       (q22.abbreviation, (p22.abbreviation, "AWAY")),
       (p23.abbreviation, (q23.abbreviation, "HOME")),
       (q23.abbreviation, (p23.abbreviation, "AWAY")),
       (p30.abbreviation, (q30.abbreviation, "AWAY")),
       (q30.abbreviation, (p30.abbreviation, "HOME")),
       (p31.abbreviation, (q31.abbreviation, "AWAY")),
       (q31.abbreviation, (p31.abbreviation, "HOME")),
       (p32.abbreviation, (q32.abbreviation, "HOME")),
       (q32.abbreviation, (p32.abbreviation, "AWAY")),
       (p33.abbreviation, (q33.abbreviation, "HOME")),
       (q33.abbreviation, (p33.abbreviation, "AWAY"))] : IRTable).map (fun r => r.2.1)).dedup).length = 32 by
        simp only [h]
        rfl
      have e1 : akeys
          ([(p00.abbreviation, (q00.abbreviation, "AWAY")),
       (q00.abbreviation, (p00.abbreviation, "HOME")),
       (p01.abbreviation, (q01.abbreviation, "AWAY")),
       (q01.abbreviation, (p01.abbreviation, "HOME")),
       (p02.abbreviation, (q02.abbreviation, "HOME")),
       (q02.abbreviation, (p02.abbreviation, "AWAY")),
       (p03.abbreviation, (q03.abbreviation, "HOME")),
       (q03.abbreviation, (p03.abbreviation, "AWAY")),
       (p10.abbreviation, (q10.abbreviation, "AWAY")),
       (q10.abbreviation, (p10.abbreviation, "HOME")),
       (p11.abbreviation, (q11.abbreviation, "AWAY")),
       (q11.abbreviation, (p11.abbreviation, "HOME")),
       (p12.abbreviation, (q12.abbreviation, "HOME")),
       (q12.abbreviation, (p12.abbreviation, "AWAY")),
       (p13.abbreviation, (q13.abbreviation, "HOME")),
       (q13.abbreviation, (p13.abbreviation, "AWAY")),
       (p20.abbreviation, (q20.abbreviation, "AWAY")),
       (q20.abbreviation, (p20.abbreviation, "HOME")),
       (p21.abbreviation, (q21.abbreviation, "AWAY")),
       (q21.abbreviation, (p21.abbreviation, "HOME")),
       (p22.abbreviation, (q22.abbreviation, "HOME")),
       (q22.abbreviation, (p22.abbreviation, "AWAY")),
       (p23.abbreviation, (q23.abbreviation, "HOME")),
       (q23.abbreviation, (p23.abbreviation, "AWAY")),
       (p30.abbreviation, (q30.abbreviation, "AWAY")),
       (q30.abbreviation, (p30.abbreviation, "HOME")),
       (p31.abbreviation, (q31.abbreviation, "AWAY")),
       (q31.abbreviation, (p31.abbreviation, "HOME")),
       (p32.abbreviation, (q32.abbreviation, "HOME")),
       (q32.abbreviation, (p32.abbreviation, "AWAY")),
       (p33.abbreviation, (q33.abbreviation, "HOME")),
       (q33.abbreviation, (p33.abbreviation, "AWAY"))] : IRTable) =
          [p00.abbreviation, q00.abbreviation, p01.abbreviation, q01.abbreviation, p02.abbreviation, q02.abbreviation, p03.abbreviation, q03.abbreviation] ++
          ([p10.abbreviation, q10.abbreviation, p11.abbreviation, q11.abbreviation, p12.abbreviation, q12.abbreviation, p13.abbreviation, q13.abbreviation] ++
           ([p20.abbreviation, q20.abbreviation, p21.abbreviation, q21.abbreviation, p22.abbreviation, q22.abbreviation, p23.abbreviation, q23.abbreviation] ++
            [p30.abbreviation, q30.abbreviation, p31.abbreviation, q31.abbreviation, p32.abbreviation, q32.abbreviation, p33.abbreviation, q33.abbreviation])) := rfl
      have e2 : ([(p00.abbreviation, (q00.abbreviation, "AWAY")),
       (q00.abbreviation, (p00.abbreviation, "HOME")),
       (p01.abbreviation, (q01.abbreviation, "AWAY")),
       (q01.abbreviation, (p01.abbreviation, "HOME")),
       (p02.abbreviation, (q02.abbreviation, "HOME")),
       (q02.abbreviation, (p02.abbreviation, "AWAY")),
       (p03.abbreviation, (q03.abbreviation, "HOME")),
       (q03.abbreviation, (p03.abbreviation, "AWAY")),
       (p10.abbreviation, (q10.abbreviation, "AWAY")),
       (q10.abbreviation, (p10.abbreviation, "HOME")),
       (p11.abbreviation, (q11.abbreviation, "AWAY")),
       (q11.abbreviation, (p11.abbreviation, "HOME")),
       (p12.abbreviation, (q12.abbreviation, "HOME")),
       (q12.abbreviation, (p12.abbreviation, "AWAY")),
       (p13.abbreviation, (q13.abbreviation, "HOME")),
       (q13.abbreviation, (p13.abbreviation, "AWAY")),
       (p20.abbreviation, (q20.abbreviation, "AWAY")),
       (q20.abbreviation, (p20.abbreviation, "HOME")),
       (p21.abbreviation, (q21.abbreviation, "AWAY")),
       (q21.abbreviation, (p21.abbreviation, "HOME")),
       (p22.abbreviation, (q22.abbreviation, "HOME")),
       (q22.abbreviation, (p22.abbreviation, "AWAY")),
       (p23.abbreviation, (q23.abbreviation, "HOME")),
       (q23.abbreviation, (p23.abbreviation, "AWAY")),
       (p30.abbreviation, (q30.abbreviation, "AWAY")),
       (q30.abbreviation, (p30.abbreviation, "HOME")),
       (p31.abbreviation, (q31.abbreviation, "AWAY")),
       (q31.abbreviation, (p31.abbreviation, "HOME")),
       (p32.abbreviation, (q32.abbreviation, "HOME")),
       (q32.abbreviation, (p32.abbreviation, "AWAY")),
       (p33.abbreviation, (q33.abbreviation, "HOME")),
       (q33.abbreviation, (p33.abbreviation, "AWAY"))] : IRTable).map (fun r => r.2.1) =
          [q00.abbreviation, p00.abbreviation, q01.abbreviation, p01.abbreviation, q02.abbreviation, p02.abbreviation, q03.abbreviation, p03.abbreviation] ++
          ([q10.abbreviation, p10.abbreviation, q11.abbreviation, p11.abbreviation, q12.abbreviation, p12.abbreviation, q13.abbreviation, p13.abbreviation] ++
           ([q20.abbreviation, p20.abbreviation, q21.abbreviation, p21.abbreviation, q22.abbreviation, p22.abbreviation, q23.abbreviation, p23.abbreviation] ++
            [q30.abbreviation, p30.abbreviation, q31.abbreviation, p31.abbreviation, q32.abbreviation, p32.abbreviation, q33.abbreviation, p33.abbreviation])) := rfl
      rw [e1, e2, ← List.card_toFinset, List.toFinset_append,
        List.toFinset_eq_of_perm _ _ hperm32,
        List.toFinset_eq_of_perm _ _ hpermP, Finset.union_self,
        List.card_toFinset]
      decide
    · rfl
    · simp only [List.all_cons, List.all_nil, Bool.and_true, Bool.and_eq_true]
      exact ⟨hAall, hNall⟩
  have hgen := generate_inter_eq_of s
      [("AFC", a0, "NFC", n0), ("AFC", a1, "NFC", n1),
       ("AFC", a2, "NFC", n2), ("AFC", a3, "NFC", n3)]
      _ _ hbuild (getDivHomes_foldl_pass1_initial _) hfold hver
  refine ⟨_, _, hbuild, getDivHomes_foldl_pass1_initial _, hgen, ?_, ?_, ?_, ?_, ?_⟩
  · rfl
  · exact hperm32
  · intro code hc
    exact exists_alookup_of_mem_akeys _ _ (hperm32.mem_iff.mpr hc)
  · intro cf hcf d hd
    simp only [conferenceNames, List.mem_cons, List.not_mem_nil, or_false]
      at hcf
    rcases hcf with rfl | rfl
    · have hd4 : d ∈ [a0, a1, a2, a3] := hpaPerm.mem_iff.mpr hd
      simp only [List.mem_cons, List.not_mem_nil, or_false] at hd4
      rcases hd4 with rfl | rfl | rfl | rfl
      · have hc0 : (([p00, p01, p02, p03] : List Team).map
            Team.abbreviation).countP
            (fun z => match alookup z
                ([(p00.abbreviation, (q00.abbreviation, "AWAY")),
       (q00.abbreviation, (p00.abbreviation, "HOME")),
       (p01.abbreviation, (q01.abbreviation, "AWAY")),
       (q01.abbreviation, (p01.abbreviation, "HOME")),
       (p02.abbreviation, (q02.abbreviation, "HOME")),
       (q02.abbreviation, (p02.abbreviation, "AWAY")),
       (p03.abbreviation, (q03.abbreviation, "HOME")),
       (q03.abbreviation, (p03.abbreviation, "AWAY")),
       (p10.abbreviation, (q10.abbreviation, "AWAY")),
       (q10.abbreviation, (p10.abbreviation, "HOME")),
       (p11.abbreviation, (q11.abbreviation, "AWAY")),
       (q11.abbreviation, (p11.abbreviation, "HOME")),
       (p12.abbreviation, (q12.abbreviation, "HOME")),
       (q12.abbreviation, (p12.abbreviation, "AWAY")),
       (p13.abbreviation, (q13.abbreviation, "HOME")),
       (q13.abbreviation, (p13.abbreviation, "AWAY")),
       (p20.abbreviation, (q20.abbreviation, "AWAY")),
       (q20.abbreviation, (p20.abbreviation, "HOME")),
       (p21.abbreviation, (q21.abbreviation, "AWAY")),
       (q21.abbreviation, (p21.abbreviation, "HOME")),
       (p22.abbreviation, (q22.abbreviation, "HOME")),
       (q22.abbreviation, (p22.abbreviation, "AWAY")),
       (p23.abbreviation, (q23.abbreviation, "HOME")),
       (q23.abbreviation, (p23.abbreviation, "AWAY")),
       (p30.abbreviation, (q30.abbreviation, "AWAY")),
       (q30.abbreviation, (p30.abbreviation, "HOME")),
       (p31.abbreviation, (q31.abbreviation, "AWAY")),
       (q31.abbreviation, (p31.abbreviation, "HOME")),
       (p32.abbreviation, (q32.abbreviation, "HOME")),
       (q32.abbreviation, (p32.abbreviation, "AWAY")),
       (p33.abbreviation, (q33.abbreviation, "HOME")),
       (q33.abbreviation, (p33.abbreviation, "AWAY"))] : IRTable) with
              | some r => r.2 == "HOME"
              | none => false) = 2 := by
          simp only [List.map_cons, List.map_nil, List.countP_cons,
            List.countP_nil, hlkA00, hlkA01, hlkA02, hlkA03]
          decide
        exact ((hsdA0.map Team.abbreviation).countP_eq _).symm.trans hc0
      · have hc0 : (([p10, p11, p12, p13] : List Team).map
            Team.abbreviation).countP
            (fun z => match alookup z
                ([(p00.abbreviation, (q00.abbreviation, "AWAY")),
       (q00.abbreviation, (p00.abbreviation, "HOME")),
       (p01.abbreviation, (q01.abbreviation, "AWAY")),
       (q01.abbreviation, (p01.abbreviation, "HOME")),
       (p02.abbreviation, (q02.abbreviation, "HOME")),
       (q02.abbreviation, (p02.abbreviation, "AWAY")),
       (p03.abbreviation, (q03.abbreviation, "HOME")),
       (q03.abbreviation, (p03.abbreviation, "AWAY")),
       (p10.abbreviation, (q10.abbreviation, "AWAY")),
       (q10.abbreviation, (p10.abbreviation, "HOME")),
       (p11.abbreviation, (q11.abbreviation, "AWAY")),
       (q11.abbreviation, (p11.abbreviation, "HOME")),
       (p12.abbreviation, (q12.abbreviation, "HOME")),
       (q12.abbreviation, (p12.abbreviation, "AWAY")),
       (p13.abbreviation, (q13.abbreviation, "HOME")),
       (q13.abbreviation, (p13.abbreviation, "AWAY")),
       (p20.abbreviation, (q20.abbreviation, "AWAY")),
       (q20.abbreviation, (p20.abbreviation, "HOME")),
       (p21.abbreviation, (q21.abbreviation, "AWAY")),
       (q21.abbreviation, (p21.abbreviation, "HOME")),
       (p22.abbreviation, (q22.abbreviation, "HOME")),
       (q22.abbreviation, (p22.abbreviation, "AWAY")),
       (p23.abbreviation, (q23.abbreviation, "HOME")),
       (q23.abbreviation, (p23.abbreviation, "AWAY")),
       (p30.abbreviation, (q30.abbreviation, "AWAY")),
       (q30.abbreviation, (p30.abbreviation, "HOME")),
       (p31.abbreviation, (q31.abbreviation, "AWAY")),
       (q31.abbreviation, (p31.abbreviation, "HOME")),
       (p32.abbreviation, (q32.abbreviation, "HOME")),
       (q32.abbreviation, (p32.abbreviation, "AWAY")),
       (p33.abbreviation, (q33.abbreviation, "HOME")),
       (q33.abbreviation, (p33.abbreviation, "AWAY"))] : IRTable) with
              | some r => r.2 == "HOME"
              | none => false) = 2 := by
          simp only [List.map_cons, List.map_nil, List.countP_cons,
            List.countP_nil, hlkA10, hlkA11, hlkA12, hlkA13]
          decide
        exact ((hsdA1.map Team.abbreviation).countP_eq _).symm.trans hc0
      · have hc0 : (([p20, p21, p22, p23] : List Team).map
            Team.abbreviation).countP
            (fun z => match alookup z
                ([(p00.abbreviation, (q00.abbreviation, "AWAY")),
       (q00.abbreviation, (p00.abbreviation, "HOME")),
       (p01.abbreviation, (q01.abbreviation, "AWAY")),
       (q01.abbreviation, (p01.abbreviation, "HOME")),
       (p02.abbreviation, (q02.abbreviation, "HOME")),
       (q02.abbreviation, (p02.abbreviation, "AWAY")),
       (p03.abbreviation, (q03.abbreviation, "HOME")),
       (q03.abbreviation, (p03.abbreviation, "AWAY")),
       (p10.abbreviation, (q10.abbreviation, "AWAY")),
       (q10.abbreviation, (p10.abbreviation, "HOME")),
       (p11.abbreviation, (q11.abbreviation, "AWAY")),
       (q11.abbreviation, (p11.abbreviation, "HOME")),
       (p12.abbreviation, (q12.abbreviation, "HOME")),
       (q12.abbreviation, (p12.abbreviation, "AWAY")),
       (p13.abbreviation, (q13.abbreviation, "HOME")),
       (q13.abbreviation, (p13.abbreviation, "AWAY")),
       (p20.abbreviation, (q20.abbreviation, "AWAY")),
       (q20.abbreviation, (p20.abbreviation, "HOME")),
       (p21.abbreviation, (q21.abbreviation, "AWAY")),
       (q21.abbreviation, (p21.abbreviation, "HOME")),
       (p22.abbreviation, (q22.abbreviation, "HOME")),
       (q22.abbreviation, (p22.abbreviation, "AWAY")),
       (p23.abbreviation, (q23.abbreviation, "HOME")),
       (q23.abbreviation, (p23.abbreviation, "AWAY")),
       (p30.abbreviation, (q30.abbreviation, "AWAY")),
       (q30.abbreviation, (p30.abbreviation, "HOME")),
       (p31.abbreviation, (q31.abbreviation, "AWAY")),
       (q31.abbreviation, (p31.abbreviation, "HOME")),
       (p32.abbreviation, (q32.abbreviation, "HOME")),
       (q32.abbreviation, (p32.abbreviation, "AWAY")),
       (p33.abbreviation, (q33.abbreviation, "HOME")),
       (q33.abbreviation, (p33.abbreviation, "AWAY"))] : IRTable) with
              | some r => r.2 == "HOME"
              | none => false) = 2 := by
          simp only [List.map_cons, List.map_nil, List.countP_cons,
            List.countP_nil, hlkA20, hlkA21, hlkA22, hlkA23]
          decide
        exact ((hsdA2.map Team.abbreviation).countP_eq _).symm.trans hc0
      · have hc0 : (([p30, p31, p32, p33] : List Team).map
            Team.abbreviation).countP
            (fun z => match alookup z
                ([(p00.abbreviation, (q00.abbreviation, "AWAY")),
       (q00.abbreviation, (p00.abbreviation, "HOME")),
       (p01.abbreviation, (q01.abbreviation, "AWAY")),
       (q01.abbreviation, (p01.abbreviation, "HOME")),
       (p02.abbreviation, (q02.abbreviation, "HOME")),
       (q02.abbreviation, (p02.abbreviation, "AWAY")),
       (p03.abbreviation, (q03.abbreviation, "HOME")),
       (q03.abbreviation, (p03.abbreviation, "AWAY")),
       (p10.abbreviation, (q10.abbreviation, "AWAY")),
       (q10.abbreviation, (p10.abbreviation, "HOME")),
       (p11.abbreviation, (q11.abbreviation, "AWAY")),
       (q11.abbreviation, (p11.abbreviation, "HOME")),
       (p12.abbreviation, (q12.abbreviation, "HOME")),
       (q12.abbreviation, (p12.abbreviation, "AWAY")),
       (p13.abbreviation, (q13.abbreviation, "HOME")),
       (q13.abbreviation, (p13.abbreviation, "AWAY")),
       (p20.abbreviation, (q20.abbreviation, "AWAY")),
       (q20.abbreviation, (p20.abbreviation, "HOME")),
       (p21.abbreviation, (q21.abbreviation, "AWAY")),
       (q21.abbreviation, (p21.abbreviation, "HOME")),
       (p22.abbreviation, (q22.abbreviation, "HOME")),
       (q22.abbreviation, (p22.abbreviation, "AWAY")),
       (p23.abbreviation, (q23.abbreviation, "HOME")),
       (q23.abbreviation, (p23.abbreviation, "AWAY")),
       (p30.abbreviation, (q30.abbreviation, "AWAY")),
       (q30.abbreviation, (p30.abbreviation, "HOME")),
       (p31.abbreviation, (q31.abbreviation, "AWAY")),
       (q31.abbreviation, (p31.abbreviation, "HOME")),
       (p32.abbreviation, (q32.abbreviation, "HOME")),
       (q32.abbreviation, (p32.abbreviation, "AWAY")),
       (p33.abbreviation, (q33.abbreviation, "HOME")),
       (q33.abbreviation, (p33.abbreviation, "AWAY"))] : IRTable) with
              | some r => r.2 == "HOME"
              | none => false) = 2 := by
          simp only [List.map_cons, List.map_nil, List.countP_cons,
            List.countP_nil, hlkA30, hlkA31, hlkA32, hlkA33]
          decide
        exact ((hsdA3.map Team.abbreviation).countP_eq _).symm.trans hc0
    · have hd4 : d ∈ [n0, n1, n2, n3] := hpnPerm.mem_iff.mpr hd
      simp only [List.mem_cons, List.not_mem_nil, or_false] at hd4
      rcases hd4 with rfl | rfl | rfl | rfl
      · have hc0 : (([q00, q01, q02, q03] : List Team).map
            Team.abbreviation).countP
            (fun z => match alookup z
                ([(p00.abbreviation, (q00.abbreviation, "AWAY")),
       (q00.abbreviation, (p00.abbreviation, "HOME")),
       (p01.abbreviation, (q01.abbreviation, "AWAY")),
       (q01.abbreviation, (p01.abbreviation, "HOME")),
       (p02.abbreviation, (q02.abbreviation, "HOME")),
       (q02.abbreviation, (p02.abbreviation, "AWAY")),
       (p03.abbreviation, (q03.abbreviation, "HOME")),
       (q03.abbreviation, (p03.abbreviation, "AWAY")),
       (p10.abbreviation, (q10.abbreviation, "AWAY")),
       (q10.abbreviation, (p10.abbreviation, "HOME")),
       (p11.abbreviation, (q11.abbreviation, "AWAY")),
       (q11.abbreviation, (p11.abbreviation, "HOME")),
       (p12.abbreviation, (q12.abbreviation, "HOME")),
       (q12.abbreviation, (p12.abbreviation, "AWAY")),
       (p13.abbreviation, (q13.abbreviation, "HOME")),
       (q13.abbreviation, (p13.abbreviation, "AWAY")),
       (p20.abbreviation, (q20.abbreviation, "AWAY")),
       (q20.abbreviation, (p20.abbreviation, "HOME")),
       (p21.abbreviation, (q21.abbreviation, "AWAY")),
       (q21.abbreviation, (p21.abbreviation, "HOME")),
       (p22.abbreviation, (q22.abbreviation, "HOME")),
       (q22.abbreviation, (p22.abbreviation, "AWAY")),
       (p23.abbreviation, (q23.abbreviation, "HOME")),
       (q23.abbreviation, (p23.abbreviation, "AWAY")),
       (p30.abbreviation, (q30.abbreviation, "AWAY")),
       (q30.abbreviation, (p30.abbreviation, "HOME")),
       (p31.abbreviation, (q31.abbreviation, "AWAY")),
       (q31.abbreviation, (p31.abbreviation, "HOME")),
       (p32.abbreviation, (q32.abbreviation, "HOME")),
       (q32.abbreviation, (p32.abbreviation, "AWAY")),
       (p33.abbreviation, (q33.abbreviation, "HOME")),
       (q33.abbreviation, (p33.abbreviation, "AWAY"))] : IRTable) with
              | some r => r.2 == "HOME"
              | none => false) = 2 := by
          simp only [List.map_cons, List.map_nil, List.countP_cons,
            List.countP_nil, hlkN00, hlkN01, hlkN02, hlkN03]
          decide
        exact ((hsdN0.map Team.abbreviation).countP_eq _).symm.trans hc0
      · have hc0 : (([q10, q11, q12, q13] : List Team).map
            Team.abbreviation).countP
            (fun z => match alookup z
                ([(p00.abbreviation, (q00.abbreviation, "AWAY")),
       (q00.abbreviation, (p00.abbreviation, "HOME")),
       (p01.abbreviation, (q01.abbreviation, "AWAY")),
       (q01.abbreviation, (p01.abbreviation, "HOME")),
       (p02.abbreviation, (q02.abbreviation, "HOME")),
       (q02.abbreviation, (p02.abbreviation, "AWAY")),
       (p03.abbreviation, (q03.abbreviation, "HOME")),
       (q03.abbreviation, (p03.abbreviation, "AWAY")),
       (p10.abbreviation, (q10.abbreviation, "AWAY")),
       (q10.abbreviation, (p10.abbreviation, "HOME")),
       (p11.abbreviation, (q11.abbreviation, "AWAY")),
       (q11.abbreviation, (p11.abbreviation, "HOME")),
       (p12.abbreviation, (q12.abbreviation, "HOME")),
       (q12.abbreviation, (p12.abbreviation, "AWAY")),
       (p13.abbreviation, (q13.abbreviation, "HOME")),
       (q13.abbreviation, (p13.abbreviation, "AWAY")),
       (p20.abbreviation, (q20.abbreviation, "AWAY")),
       (q20.abbreviation, (p20.abbreviation, "HOME")),
       (p21.abbreviation, (q21.abbreviation, "AWAY")),
       (q21.abbreviation, (p21.abbreviation, "HOME")),
       (p22.abbreviation, (q22.abbreviation, "HOME")),
       (q22.abbreviation, (p22.abbreviation, "AWAY")),
       (p23.abbreviation, (q23.abbreviation, "HOME")),
       (q23.abbreviation, (p23.abbreviation, "AWAY")),
       (p30.abbreviation, (q30.abbreviation, "AWAY")),
       (q30.abbreviation, (p30.abbreviation, "HOME")),
       (p31.abbreviation, (q31.abbreviation, "AWAY")),
       (q31.abbreviation, (p31.abbreviation, "HOME")),
       (p32.abbreviation, (q32.abbreviation, "HOME")),
       (q32.abbreviation, (p32.abbreviation, "AWAY")),
       (p33.abbreviation, (q33.abbreviation, "HOME")),
       (q33.abbreviation, (p33.abbreviation, "AWAY"))] : IRTable) with
              | some r => r.2 == "HOME"
              | none => false) = 2 := by
          simp only [List.map_cons, List.map_nil, List.countP_cons,
            List.countP_nil, hlkN10, hlkN11, hlkN12, hlkN13]
          decide
        exact ((hsdN1.map Team.abbreviation).countP_eq _).symm.trans hc0
      · have hc0 : (([q20, q21, q22, q23] : List Team).map
            Team.abbreviation).countP
            (fun z => match alookup z
                ([(p00.abbreviation, (q00.abbreviation, "AWAY")),
       (q00.abbreviation, (p00.abbreviation, "HOME")),
       (p01.abbreviation, (q01.abbreviation, "AWAY")),
       (q01.abbreviation, (p01.abbreviation, "HOME")),
       (p02.abbreviation, (q02.abbreviation, "HOME")),
       (q02.abbreviation, (p02.abbreviation, "AWAY")),
       (p03.abbreviation, (q03.abbreviation, "HOME")),
       (q03.abbreviation, (p03.abbreviation, "AWAY")),
       (p10.abbreviation, (q10.abbreviation, "AWAY")),
       (q10.abbreviation, (p10.abbreviation, "HOME")),
       (p11.abbreviation, (q11.abbreviation, "AWAY")),
       (q11.abbreviation, (p11.abbreviation, "HOME")),
       (p12.abbreviation, (q12.abbreviation, "HOME")),
       (q12.abbreviation, (p12.abbreviation, "AWAY")),
       (p13.abbreviation, (q13.abbreviation, "HOME")),
       (q13.abbreviation, (p13.abbreviation, "AWAY")),
       (p20.abbreviation, (q20.abbreviation, "AWAY")),
       (q20.abbreviation, (p20.abbreviation, "HOME")),
       (p21.abbreviation, (q21.abbreviation, "AWAY")),
       (q21.abbreviation, (p21.abbreviation, "HOME")),
       (p22.abbreviation, (q22.abbreviation, "HOME")),
       (q22.abbreviation, (p22.abbreviation, "AWAY")),
       (p23.abbreviation, (q23.abbreviation, "HOME")),
       (q23.abbreviation, (p23.abbreviation, "AWAY")),
       (p30.abbreviation, (q30.abbreviation, "AWAY")),
       (q30.abbreviation, (p30.abbreviation, "HOME")),
       (p31.abbreviation, (q31.abbreviation, "AWAY")),
       (q31.abbreviation, (p31.abbreviation, "HOME")),
       (p32.abbreviation, (q32.abbreviation, "HOME")),
       (q32.abbreviation, (p32.abbreviation, "AWAY")),
       (p33.abbreviation, (q33.abbreviation, "HOME")),
       (q33.abbreviation, (p33.abbreviation, "AWAY"))] : IRTable) with
              | some r => r.2 == "HOME"
              | none => false) = 2 := by
          simp only [List.map_cons, List.map_nil, List.countP_cons,
            List.countP_nil, hlkN20, hlkN21, hlkN22, hlkN23]
          decide
        exact ((hsdN2.map Team.abbreviation).countP_eq _).symm.trans hc0
      · have hc0 : (([q30, q31, q32, q33] : List Team).map
            Team.abbreviation).countP
            (fun z => match alookup z
                ([(p00.abbreviation, (q00.abbreviation, "AWAY")),
       (q00.abbreviation, (p00.abbreviation, "HOME")),
       (p01.abbreviation, (q01.abbreviation, "AWAY")),
       (q01.abbreviation, (p01.abbreviation, "HOME")),
       (p02.abbreviation, (q02.abbreviation, "HOME")),
       (q02.abbreviation, (p02.abbreviation, "AWAY")),
       (p03.abbreviation, (q03.abbreviation, "HOME")),
       (q03.abbreviation, (p03.abbreviation, "AWAY")),
       (p10.abbreviation, (q10.abbreviation, "AWAY")),
       (q10.abbreviation, (p10.abbreviation, "HOME")),
       (p11.abbreviation, (q11.abbreviation, "AWAY")),
       (q11.abbreviation, (p11.abbreviation, "HOME")),
       (p12.abbreviation, (q12.abbreviation, "HOME")),
       (q12.abbreviation, (p12.abbreviation, "AWAY")),
       (p13.abbreviation, (q13.abbreviation, "HOME")),
       (q13.abbreviation, (p13.abbreviation, "AWAY")),
       (p20.abbreviation, (q20.abbreviation, "AWAY")),
       (q20.abbreviation, (p20.abbreviation, "HOME")),
       (p21.abbreviation, (q21.abbreviation, "AWAY")),
       (q21.abbreviation, (p21.abbreviation, "HOME")),
       (p22.abbreviation, (q22.abbreviation, "HOME")),
       (q22.abbreviation, (p22.abbreviation, "AWAY")),
       (p23.abbreviation, (q23.abbreviation, "HOME")),
       (q23.abbreviation, (p23.abbreviation, "AWAY")),
       (p30.abbreviation, (q30.abbreviation, "AWAY")),
       (q30.abbreviation, (p30.abbreviation, "HOME")),
       (p31.abbreviation, (q31.abbreviation, "AWAY")),
       (q31.abbreviation, (p31.abbreviation, "HOME")),
       (p32.abbreviation, (q32.abbreviation, "HOME")),
       (q32.abbreviation, (p32.abbreviation, "AWAY")),
       (p33.abbreviation, (q33.abbreviation, "HOME")),
       (q33.abbreviation, (p33.abbreviation, "AWAY"))] : IRTable) with
              | some r => r.2 == "HOME"
              | none => false) = 2 := by
          simp only [List.map_cons, List.map_nil, List.countP_cons,
            List.countP_nil, hlkN30, hlkN31, hlkN32, hlkN33]
          decide
        exact ((hsdN3.map Team.abbreviation).countP_eq _).symm.trans hc0
  · intro m hm r ta tn hr hta htn
    simp only [List.mem_cons, List.not_mem_nil, or_false] at hm
    rcases hm with rfl | rfl | rfl | rfl
    ·
      have hta2 : (sdivision s "AFC" a0).get? r = some ta := hta
      have htn2 : (sdivision s "NFC" n0).get? r = some tn := htn
      rw [hdA0] at hta2
      rw [hdN0] at htn2
      interval_cases r
      · simp only [List.get?_cons_zero, List.get?_cons_succ,
          Option.some.injEq] at hta2 htn2
        subst hta2
        subst htn2
        exact ⟨hlkA00, hlkN00⟩
      · simp only [List.get?_cons_zero, List.get?_cons_succ,
          Option.some.injEq] at hta2 htn2
        subst hta2
        subst htn2
        exact ⟨hlkA01, hlkN01⟩
      · simp only [List.get?_cons_zero, List.get?_cons_succ,
          Option.some.injEq] at hta2 htn2
        subst hta2
        subst htn2
        exact ⟨hlkA02, hlkN02⟩
      · simp only [List.get?_cons_zero, List.get?_cons_succ,
          Option.some.injEq] at hta2 htn2
        subst hta2
        subst htn2
        exact ⟨hlkA03, hlkN03⟩
    ·
      have hta2 : (sdivision s "AFC" a1).get? r = some ta := hta
      have htn2 : (sdivision s "NFC" n1).get? r = some tn := htn
      rw [hdA1] at hta2
      rw [hdN1] at htn2
      interval_cases r
      · simp only [List.get?_cons_zero, List.get?_cons_succ,
          Option.some.injEq] at hta2 htn2
        subst hta2
        subst htn2
        exact ⟨hlkA10, hlkN10⟩
      · simp only [List.get?_cons_zero, List.get?_cons_succ,
          Option.some.injEq] at hta2 htn2
        subst hta2
        subst htn2
        exact ⟨hlkA11, hlkN11⟩
      · simp only [List.get?_cons_zero, List.get?_cons_succ,
          Option.some.injEq] at hta2 htn2
        subst hta2
        subst htn2
        exact ⟨hlkA12, hlkN12⟩
      · simp only [List.get?_cons_zero, List.get?_cons_succ,
          Option.some.injEq] at hta2 htn2
        subst hta2
        subst htn2
        exact ⟨hlkA13, hlkN13⟩
    ·
      have hta2 : (sdivision s "AFC" a2).get? r = some ta := hta
      have htn2 : (sdivision s "NFC" n2).get? r = some tn := htn
      rw [hdA2] at hta2
      rw [hdN2] at htn2
      interval_cases r
      · simp only [List.get?_cons_zero, List.get?_cons_succ,
          Option.some.injEq] at hta2 htn2
        subst hta2
        subst htn2
        exact ⟨hlkA20, hlkN20⟩
      · simp only [List.get?_cons_zero, List.get?_cons_succ,
          Option.some.injEq] at hta2 htn2
        subst hta2
        subst htn2
        exact ⟨hlkA21, hlkN21⟩
      · simp only [List.get?_cons_zero, List.get?_cons_succ,
          Option.some.injEq] at hta2 htn2
        subst hta2
        subst htn2
        exact ⟨hlkA22, hlkN22⟩
      · simp only [List.get?_cons_zero, List.get?_cons_succ,
          Option.some.injEq] at hta2 htn2
        subst hta2
        subst htn2
        exact ⟨hlkA23, hlkN23⟩
    ·
      have hta2 : (sdivision s "AFC" a3).get? r = some ta := hta
      have htn2 : (sdivision s "NFC" n3).get? r = some tn := htn
      rw [hdA3] at hta2
      rw [hdN3] at htn2
      interval_cases r
      · simp only [List.get?_cons_zero, List.get?_cons_succ,
          Option.some.injEq] at hta2 htn2
        subst hta2
        subst htn2
        exact ⟨hlkA30, hlkN30⟩
      · simp only [List.get?_cons_zero, List.get?_cons_succ,
          Option.some.injEq] at hta2 htn2
        subst hta2
        subst htn2
        exact ⟨hlkA31, hlkN31⟩
      · simp only [List.get?_cons_zero, List.get?_cons_succ,
          Option.some.injEq] at hta2 htn2
        subst hta2
        subst htn2
        exact ⟨hlkA32, hlkN32⟩
      · simp only [List.get?_cons_zero, List.get?_cons_succ,
          Option.some.injEq] at hta2 htn2
        subst hta2
        subst htn2
        exact ⟨hlkA33, hlkN33⟩


/-- C7.  For every well-formed standings table and every inter-conference
rankings pairing list (each AFC division paired with one NFC division,
both sides covering the four division names exactly once),
generate_inter_rank_assignments succeeds and assigns each of the 32 teams
exactly one inter-conference rank-based game, with exactly 2 of the 4
teams of every division labeled HOME and exactly 8 HOME labels per
conference. -/
theorem c7_inter_rank_division_balance (s : Standings)
    (hs : WellFormedStandings s) (a0 n0 a1 n1 a2 n2 a3 n3 : String)
    (hpa : [a0, a1, a2, a3] ∈ divisionNames.permutations')
    (hpn : [n0, n1, n2, n3] ∈ divisionNames.permutations') :
    ∃ t, generate_inter_rank_assignments s
        [("AFC", a0, "NFC", n0), ("AFC", a1, "NFC", n1),
         ("AFC", a2, "NFC", n2), ("AFC", a3, "NFC", n3)] = some t ∧
      t.length = 32 ∧
      (akeys t).Perm allAbbreviations ∧
      (∀ tm ∈ allTeams, ∃ v, alookup tm.abbreviation t = some v) ∧
      (∀ cf ∈ conferenceNames, ∀ d ∈ divisionNames,
        (nflDivision cf d).countP
          (fun tm => match alookup tm.abbreviation t with
            | some rec => rec.2 == "HOME"
            | none => false) = 2) ∧
      (∀ cf ∈ conferenceNames,
        ((nflConf cf).flatMap (fun dv => dv.2)).countP
          (fun tm => match alookup tm.abbreviation t with
            | some rec => rec.2 == "HOME"
            | none => false) = 8) := by
  obtain ⟨ms, t, hb, h1, hg, hlen, hperm, hex, hdivm, hpat⟩ :=
    inter_rank_run s hs a0 n0 a1 n1 a2 n2 a3 n3 hpa hpn
  have hdiv : ∀ cf ∈ conferenceNames, ∀ d ∈ divisionNames,
      (nflDivision cf d).countP
        (fun tm => match alookup tm.abbreviation t with
            | some rec => rec.2 == "HOME"
            | none => false) = 2 := by
    intro cf hcf d hd
    have h := hdivm cf hcf d hd
    rwa [List.countP_map] at h
  refine ⟨t, hg, hlen, hperm, ?_, hdiv, ?_⟩
  · intro tm htm
    exact hex _ (List.mem_map_of_mem _ htm)
  · intro cf hcf
    simp only [conferenceNames, List.mem_cons, List.not_mem_nil, or_false]
      at hcf
    have hdn : ∀ d ∈ divisionNames, d ∈ divisionNames := fun d hd => hd
    rcases hcf with rfl | rfl
    · have e : ((nflConf "AFC").flatMap (fun dv => dv.2)) =
          nflDivision "AFC" "North" ++ (nflDivision "AFC" "South" ++
          (nflDivision "AFC" "East" ++ (nflDivision "AFC" "West" ++ []))) :=
        rfl
      rw [e, List.countP_append, List.countP_append, List.countP_append,
        List.countP_append]
      rw [hdiv "AFC" (by decide) "North" (by decide),
        hdiv "AFC" (by decide) "South" (by decide),
        hdiv "AFC" (by decide) "East" (by decide),
        hdiv "AFC" (by decide) "West" (by decide)]
      rfl
    · have e : ((nflConf "NFC").flatMap (fun dv => dv.2)) =
          nflDivision "NFC" "North" ++ (nflDivision "NFC" "South" ++
          (nflDivision "NFC" "East" ++ (nflDivision "NFC" "West" ++ []))) :=
        rfl
      rw [e, List.countP_append, List.countP_append, List.countP_append,
        List.countP_append]
      rw [hdiv "NFC" (by decide) "North" (by decide),
        hdiv "NFC" (by decide) "South" (by decide),
        hdiv "NFC" (by decide) "East" (by decide),
        hdiv "NFC" (by decide) "West" (by decide)]
      rfl

/-- C10.  generate_inter_rank_assignments consumes no randomness (its
embedding takes none): on every well-formed standings table and
inter-rankings pairing list it is determined by its two arguments, its
first forced pass assigns nothing, and the second pass gives the NFC team
the HOME label on the rank-1 and rank-2 games of every division pairing
and the AFC team the HOME label on the rank-3 and rank-4 games. -/
theorem c10_inter_rank_deterministic_pattern (s : Standings)
    (hs : WellFormedStandings s) (a0 n0 a1 n1 a2 n2 a3 n3 : String)
    (hpa : [a0, a1, a2, a3] ∈ divisionNames.permutations')
    (hpn : [n0, n1, n2, n3] ∈ divisionNames.permutations') :
    ∃ ms t,
      buildInterRankMatchups s
        [("AFC", a0, "NFC", n0), ("AFC", a1, "NFC", n1),
         ("AFC", a2, "NFC", n2), ("AFC", a3, "NFC", n3)] = some ms ∧
      ms.foldl pass1Step irInitialState = irInitialState ∧
      generate_inter_rank_assignments s
        [("AFC", a0, "NFC", n0), ("AFC", a1, "NFC", n1),
         ("AFC", a2, "NFC", n2), ("AFC", a3, "NFC", n3)] = some t ∧
      (∀ m ∈ ([("AFC", a0, "NFC", n0), ("AFC", a1, "NFC", n1),
         ("AFC", a2, "NFC", n2), ("AFC", a3, "NFC", n3)] : List Matchup),
        ∀ r : Nat, ∀ ta tn : Team, r < 4 →
        (sdivision s m.1 m.2.1).get? r = some ta →
        (sdivision s m.2.2.1 m.2.2.2).get? r = some tn →
        alookup ta.abbreviation t
            = some (tn.abbreviation, if r < 2 then "AWAY" else "HOME") ∧
        alookup tn.abbreviation t
            = some (ta.abbreviation, if r < 2 then "HOME" else "AWAY")) := by
  obtain ⟨ms, t, hb, h1, hg, hlen, hperm, hex, hdivm, hpat⟩ :=
    inter_rank_run s hs a0 n0 a1 n1 a2 n2 a3 n3 hpa hpn
  exact ⟨ms, t, hb, h1, hg, hpat⟩



theorem aget2_aset2_self (t : Table) (a b v : String) :
    aget2 (aset2 t a b v) a b = some v := by
  unfold aget2 aset2
  rw [alookup_aset_self2]
  show alookup b (aset b v ((alookup a t).getD [])) = some v
  exact alookup_aset_self2 _ _ _

theorem aget2_aset2_ne (t : Table) (a b v A B : String)
    (h : A ≠ a ∨ B ≠ b) : aget2 (aset2 t a b v) A B = aget2 t A B := by
  unfold aget2 aset2
  by_cases hA : A = a
  · subst hA
    have hB : B ≠ b := h.resolve_left (fun hc => hc rfl)
    rw [alookup_aset_self2]
    show alookup B (aset b v ((alookup A t).getD []))
      = (alookup A t).bind (alookup B)
    rw [alookup_aset_ne2 _ _ _ _ (Ne.symm hB)]
    cases halo : alookup A t
    · simp [alookup]
    · simp
  · rw [alookup_aset_ne2 _ _ _ _ (Ne.symm hA)]

theorem aget2_assignPair_fst (t : Table) (a b la lb : String) (hab : a ≠ b) :
    aget2 (assignPair t a b la lb) a b = some la := by
  unfold assignPair
  rw [aget2_aset2_ne _ _ _ _ _ _ (Or.inl hab)]
  exact aget2_aset2_self _ _ _ _

theorem aget2_assignPair_snd (t : Table) (a b la lb : String) :
    aget2 (assignPair t a b la lb) b a = some lb :=
  aget2_aset2_self _ _ _ _

theorem aget2_assignPair_other (t : Table) (a b la lb A B : String)
    (h1 : ¬(A = a ∧ B = b)) (h2 : ¬(A = b ∧ B = a)) :
    aget2 (assignPair t a b la lb) A B = aget2 t A B := by
  unfold assignPair
  rw [aget2_aset2_ne _ _ _ _ _ _ (not_and_or.mp h2),
    aget2_aset2_ne _ _ _ _ _ _ (not_and_or.mp h1)]

theorem pairConsistent_nil : PairConsistent [] := by
  intro A B h
  exact Or.inl ⟨rfl, rfl⟩

theorem pairConsistent_assignPair (t : Table) (a b la lb : String)
    (hpc : PairConsistent t)
    (hv : (la = "HOME" ∧ lb = "AWAY") ∨ (la = "AWAY" ∧ lb = "HOME")) :
    PairConsistent (assignPair t a b la lb) := by
  intro A B hAB
  by_cases hab : a = b
  · subst hab
    have e1 : aget2 (assignPair t a a la lb) A B = aget2 t A B :=
      aget2_assignPair_other _ _ _ _ _ _ _
        (fun hc => hAB (hc.1.trans hc.2.symm))
        (fun hc => hAB (hc.1.trans hc.2.symm))
    have e2 : aget2 (assignPair t a a la lb) B A = aget2 t B A :=
      aget2_assignPair_other _ _ _ _ _ _ _
        (fun hc => hAB (hc.2.trans hc.1.symm))
        (fun hc => hAB (hc.2.trans hc.1.symm))
    rw [e1, e2]
    exact hpc A B hAB
  · by_cases h1 : A = a ∧ B = b
    · obtain ⟨rfl, rfl⟩ := h1
      rw [aget2_assignPair_fst _ _ _ _ _ hab, aget2_assignPair_snd]
      rcases hv with ⟨rfl, rfl⟩ | ⟨rfl, rfl⟩
      · exact Or.inr (Or.inl ⟨rfl, rfl⟩)
      · exact Or.inr (Or.inr ⟨rfl, rfl⟩)
    · by_cases h2 : A = b ∧ B = a
      · obtain ⟨rfl, rfl⟩ := h2
        rw [aget2_assignPair_snd, aget2_assignPair_fst _ _ _ _ _ hab]
        rcases hv with ⟨rfl, rfl⟩ | ⟨rfl, rfl⟩
        · exact Or.inr (Or.inr ⟨rfl, rfl⟩)
        · exact Or.inr (Or.inl ⟨rfl, rfl⟩)
      · have e1 := aget2_assignPair_other t a b la lb A B h1 h2
        have e2 := aget2_assignPair_other t a b la lb B A
          (fun hc => h2 ⟨hc.2, hc.1⟩) (fun hc => h1 ⟨hc.2, hc.1⟩)
        rw [e1, e2]
        exact hpc A B hAB

theorem aget2_aset_nil_row (t : Table) (c A B : String)
    (hc : alookup c t = none) :
    aget2 (aset c [] t) A B = aget2 t A B := by
  by_cases hA : A = c
  · subst hA
    unfold aget2
    rw [alookup_aset_self2, hc]
    simp [alookup]
  · unfold aget2
    rw [alookup_aset_ne2 _ _ _ _ (Ne.symm hA)]

theorem pairConsistent_initTeams (ts : List Team) (t : Table)
    (hpc : PairConsistent t) : PairConsistent (initTeams ts t) := by
  induction ts generalizing t with
  | nil => exact hpc
  | cons tm rest ih =>
      show PairConsistent (initTeams rest
        (if (alookup tm.abbreviation t).isSome then t
         else aset tm.abbreviation [] t))
      apply ih
      split
      · exact hpc
      · intro A B hAB
        rename_i hnone
        have hc : alookup tm.abbreviation t = none :=
          Option.not_isSome_iff_eq_none.mp (by simpa using hnone)
        rw [aget2_aset_nil_row _ _ _ _ hc, aget2_aset_nil_row _ _ _ _ hc]
        exact hpc A B hAB

theorem pairConsistent_processMatchup (t : Table) (m : Matchup)
    (hpc : PairConsistent t) : PairConsistent (processMatchup t m) := by
  have inner : ∀ (l2 : List (Nat × Team)) (i : Nat × Team) (acc : Table),
      PairConsistent acc →
      PairConsistent (l2.foldl
        (fun acc2 jt =>
          if (i.1 + jt.1) % 2 = 0 then
            assignPair acc2 i.2.abbreviation jt.2.abbreviation "HOME" "AWAY"
          else
            assignPair acc2 i.2.abbreviation jt.2.abbreviation "AWAY" "HOME")
        acc) := by
    intro l2
    induction l2 with
    | nil => intro i acc h; exact h
    | cons jt rest ih =>
        intro i acc h
        simp only [List.foldl_cons]
        apply ih
        split
        · exact pairConsistent_assignPair _ _ _ _ _ h (Or.inl ⟨rfl, rfl⟩)
        · exact pairConsistent_assignPair _ _ _ _ _ h (Or.inr ⟨rfl, rfl⟩)
  have outer : ∀ (l1 : List (Nat × Team)) (acc : Table),
      PairConsistent acc →
      PairConsistent (l1.foldl
        (fun acc it =>
          (nflDivision m.2.2.1 m.2.2.2).enum.foldl
            (fun acc2 jt =>
              if (it.1 + jt.1) % 2 = 0 then
                assignPair acc2 it.2.abbreviation jt.2.abbreviation
                  "HOME" "AWAY"
              else
                assignPair acc2 it.2.abbreviation jt.2.abbreviation
                  "AWAY" "HOME")
            acc)
        acc) := by
    intro l1
    induction l1 with
    | nil => intro acc h; exact h
    | cons it rest ih =>
        intro acc h
        simp only [List.foldl_cons]
        exact ih _ (inner _ _ _ h)
  exact outer _ _
    (pairConsistent_initTeams
      (nflDivision m.1 m.2.1 ++ nflDivision m.2.2.1 m.2.2.2) t hpc)

theorem pairConsistent_fold_processMatchup (ms : List Matchup) (t : Table)
    (hpc : PairConsistent t) : PairConsistent (ms.foldl processMatchup t) := by
  induction ms generalizing t with
  | nil => exact hpc
  | cons m rest ih =>
      simp only [List.foldl_cons]
      exact ih _ (pairConsistent_processMatchup _ _ hpc)

theorem cross_intra_some_inv (ms : List Matchup) (t : Table)
    (h : generate_intra_conference_assignments ms = some t) :
    t = ms.foldl processMatchup [] := by
  unfold generate_intra_conference_assignments at h
  revert h
  show (if verifyCross (ms.foldl processMatchup []) then
      some (ms.foldl processMatchup []) else none) = some t → _
  intro h
  split at h
  · exact (Option.some.inj h).symm
  · cases h

theorem cross_inter_some_inv (ms : List Matchup) (t : Table)
    (h : generate_inter_conference_assignments ms = some t) :
    t = ms.foldl processMatchup [] := by
  unfold generate_inter_conference_assignments at h
  revert h
  show (if verifyCross (ms.foldl processMatchup []) then
      some (ms.foldl processMatchup []) else none) = some t → _
  intro h
  split at h
  · exact (Option.some.inj h).symm
  · cases h


theorem aget2_map_empty (cs : List String) (A B : String) :
    aget2 (cs.map (fun c => (c, ([] : List (String × String))))) A B
      = none := by
  induction cs with
  | nil => rfl
  | cons c rest ih =>
      unfold aget2 at *
      simp only [List.map_cons, alookup]
      split
      · rfl
      · exact ih

theorem pairConsistent_empty_rows (cs : List String) :
    PairConsistent (cs.map (fun c => (c, []))) := by
  intro A B h
  refine Or.inl ⟨?_, ?_⟩ <;> rw [aget2_map_empty] <;> rfl

theorem pairConsistent_assignEdge (st : ProcSt) (t1 t2 : String) (b : Bool)
    (h : PairConsistent st.asgn) :
    PairConsistent (assignEdge st t1 t2 b).asgn := by
  cases b
  · simp only [assignEdge, Bool.false_eq_true, if_false]
    exact pairConsistent_assignPair _ _ _ _ _ h (Or.inr ⟨rfl, rfl⟩)
  · simp only [assignEdge, if_true]
    exact pairConsistent_assignPair _ _ _ _ _ h (Or.inl ⟨rfl, rfl⟩)

theorem pairConsistent_procStep (st : ProcSt) (e : String × String)
    (h : PairConsistent st.asgn) :
    PairConsistent (procStep st e).asgn := by
  have hgen : ∀ (st2 : ProcSt) (b : Bool), st2.asgn = st.asgn →
      PairConsistent (assignEdge st2 e.1 e.2 b).asgn := by
    intro st2 b he
    cases b
    · simp only [assignEdge, Bool.false_eq_true, if_false, he]
      exact pairConsistent_assignPair _ _ _ _ _ h (Or.inr ⟨rfl, rfl⟩)
    · simp only [assignEdge, if_true, he]
      exact pairConsistent_assignPair _ _ _ _ _ h (Or.inl ⟨rfl, rfl⟩)
  unfold procStep
  dsimp only
  split
  · exact hgen _ _ rfl
  · split
    · exact hgen _ _ rfl
    · split
      · exact hgen _ _ rfl
      · split
        · exact hgen _ _ rfl
        · exact hgen _ _ rfl

theorem pairConsistent_fold_procStep (l : List (String × String))
    (st : ProcSt) (h : PairConsistent st.asgn) :
    PairConsistent ((l.foldl procStep st).asgn) := by
  induction l generalizing st with
  | nil => exact h
  | cons e rest ih =>
      simp only [List.foldl_cons]
      exact ih _ (pairConsistent_procStep _ _ h)

theorem intra_rank_some_inv (s : Standings)
    (ir : List (String × List String)) (bits : List Bool) (perm : List Nat)
    (t : Table) (h : generate_intra_rank_assignments s ir bits perm = some t) :
    ∃ bst, buildIntraRankMatchups s ir bits = some bst ∧
      t = ((applyPerm perm bst.matchups).foldl procStep
        { asgn := bst.seen.map (fun c => (c, [])),
          hm := bst.seen.map (fun c => (c, 0)),
          aw := bst.seen.map (fun c => (c, 0)),
          tot := bst.seen.map (fun c => (c, 0)),
          bits := bst.bits }).asgn := by
  unfold generate_intra_rank_assignments at h
  obtain ⟨bst, hb, h2⟩ := Option.bind_eq_some.mp h
  refine ⟨bst, hb, ?_⟩
  revert h2
  show (if verifyIntraRank ((applyPerm perm bst.matchups).foldl procStep
      { asgn := bst.seen.map (fun c => (c, [])),
        hm := bst.seen.map (fun c => (c, 0)),
        aw := bst.seen.map (fun c => (c, 0)),
        tot := bst.seen.map (fun c => (c, 0)),
        bits := bst.bits }) then
      some ((applyPerm perm bst.matchups).foldl procStep
        { asgn := bst.seen.map (fun c => (c, [])),
          hm := bst.seen.map (fun c => (c, 0)),
          aw := bst.seen.map (fun c => (c, 0)),
          tot := bst.seen.map (fun c => (c, 0)),
          bits := bst.bits }).asgn
      else none) = some t → _
  intro h2
  split at h2
  · exact (Option.some.inj h2).symm
  · cases h2

theorem mem_aset_cases (m : List (String × α)) (k : String) (v : α)
    (p : String × α) (h : p ∈ aset k v m) : p ∈ m ∨ p.2 = v := by
  induction m with
  | nil =>
      simp only [aset, List.mem_singleton] at h
      exact Or.inr (by rw [h])
  | cons q rest ih =>
      unfold aset at h
      split at h
      · rcases List.mem_cons.mp h with h1 | h1
        · exact Or.inr (by rw [h1])
        · exact Or.inl (List.mem_cons_of_mem _ h1)
      · rcases List.mem_cons.mp h with h1 | h1
        · exact Or.inl (h1 ▸ List.mem_cons_self _ _)
        · rcases ih h1 with h2 | h2
          · exact Or.inl (List.mem_cons_of_mem _ h2)
          · exact Or.inr h2

theorem ir_range_assignIR (st : IRSt) (m : IRMatch) (b : Bool)
    (h : ∀ r ∈ st.asgn, r.2.2 = "HOME" ∨ r.2.2 = "AWAY") :
    ∀ r ∈ (assignIR st m b).asgn, r.2.2 = "HOME" ∨ r.2.2 = "AWAY" := by
  intro r hr
  cases b
  · simp only [assignIR, Bool.false_eq_true, if_false] at hr
    rcases mem_aset_cases _ _ _ _ hr with h1 | h1
    · rcases mem_aset_cases _ _ _ _ h1 with h2 | h2
      · exact h r h2
      · exact Or.inr (by rw [h2])
    · exact Or.inl (by rw [h1])
  · simp only [assignIR, if_true] at hr
    rcases mem_aset_cases _ _ _ _ hr with h1 | h1
    · rcases mem_aset_cases _ _ _ _ h1 with h2 | h2
      · exact h r h2
      · exact Or.inl (by rw [h2])
    · exact Or.inr (by rw [h1])

theorem ir_range_pass1Step (st : IRSt) (m : IRMatch)
    (h : ∀ r ∈ st.asgn, r.2.2 = "HOME" ∨ r.2.2 = "AWAY") :
    ∀ r ∈ (pass1Step st m).asgn, r.2.2 = "HOME" ∨ r.2.2 = "AWAY" := by
  unfold pass1Step
  dsimp only
  split
  · exact h
  · split
    · exact ir_range_assignIR _ _ _ h
    · split
      · exact ir_range_assignIR _ _ _ h
      · exact h

theorem ir_range_pass2Step (st : IRSt) (m : IRMatch)
    (h : ∀ r ∈ st.asgn, r.2.2 = "HOME" ∨ r.2.2 = "AWAY") :
    ∀ r ∈ (pass2Step st m).asgn, r.2.2 = "HOME" ∨ r.2.2 = "AWAY" := by
  unfold pass2Step
  dsimp only
  split
  · exact h
  · split
    · exact ir_range_assignIR _ _ _ h
    · exact ir_range_assignIR _ _ _ h

theorem ir_range_fold_pass1 (l : List IRMatch) (st : IRSt)
    (h : ∀ r ∈ st.asgn, r.2.2 = "HOME" ∨ r.2.2 = "AWAY") :
    ∀ r ∈ (l.foldl pass1Step st).asgn, r.2.2 = "HOME" ∨ r.2.2 = "AWAY" := by
  induction l generalizing st with
  | nil => exact h
  | cons m rest ih =>
      simp only [List.foldl_cons]
      exact ih _ (ir_range_pass1Step _ _ h)

theorem ir_range_fold_pass2 (l : List IRMatch) (st : IRSt)
    (h : ∀ r ∈ st.asgn, r.2.2 = "HOME" ∨ r.2.2 = "AWAY") :
    ∀ r ∈ (l.foldl pass2Step st).asgn, r.2.2 = "HOME" ∨ r.2.2 = "AWAY" := by
  induction l generalizing st with
  | nil => exact h
  | cons m rest ih =>
      simp only [List.foldl_cons]
      exact ih _ (ir_range_pass2Step _ _ h)

theorem inter_rank_some_inv (s : Standings) (ir : List Matchup) (t : IRTable)
    (h : generate_inter_rank_assignments s ir = some t) :
    ∃ ms, buildInterRankMatchups s ir = some ms ∧
      t = (ms.foldl pass2Step (ms.foldl pass1Step irInitialState)).asgn ∧
      verify_inter_rank_assignments t
        (ms.foldl pass2Step (ms.foldl pass1Step irInitialState)).confHomes
        (ms.foldl pass2Step (ms.foldl pass1Step irInitialState)).divHomes
        = true := by
  unfold generate_inter_rank_assignments at h
  obtain ⟨ms, hb, h2⟩ := Option.bind_eq_some.mp h
  refine ⟨ms, hb, ?_⟩
  revert h2
  show (if verify_inter_rank_assignments
      (ms.foldl pass2Step (ms.foldl pass1Step irInitialState)).asgn
      (ms.foldl pass2Step (ms.foldl pass1Step irInitialState)).confHomes
      (ms.foldl pass2Step (ms.foldl pass1Step irInitialState)).divHomes
    then some (ms.foldl pass2Step (ms.foldl pass1Step irInitialState)).asgn
    else none) = some t → _
  intro h2
  cases hv : verify_inter_rank_assignments
      (ms.foldl pass2Step (ms.foldl pass1Step irInitialState)).asgn
      (ms.foldl pass2Step (ms.foldl pass1Step irInitialState)).confHomes
      (ms.foldl pass2Step (ms.foldl pass1Step irInitialState)).divHomes
  · rw [hv] at h2
    cases h2
  · rw [hv] at h2
    simp only [if_true] at h2
    obtain rfl := (Option.some.inj h2).symm
    exact ⟨rfl, hv⟩


/-- C5.  Every assignment table produced by the generators is pairwise
consistent: the two cross-division generators and the intra-rank generator
only ever write a game into both team records at once with complementary
HOME and AWAY labels, so every produced table satisfies PairConsistent;
and every table returned by generate_inter_rank_assignments passes its
final verification, whose reverse-lookup check together with the
HOME/AWAY range of all written records forces the opponent record to
show the complementary label. -/
theorem c5_pairwise_consistency :
    (∀ ms t, generate_intra_conference_assignments ms = some t →
      PairConsistent t) ∧
    (∀ ms t, generate_inter_conference_assignments ms = some t →
      PairConsistent t) ∧
    (∀ s ir bits perm t,
      generate_intra_rank_assignments s ir bits perm = some t →
      PairConsistent t) ∧
    (∀ s ir t, generate_inter_rank_assignments s ir = some t →
      ∀ r ∈ t,
        (r.2.2 = "HOME" → alookup r.2.1 t = some (r.1, "AWAY")) ∧
        (r.2.2 = "AWAY" → alookup r.2.1 t = some (r.1, "HOME"))) := by
  refine ⟨?_, ?_, ?_, ?_⟩
  · intro ms t h
    rw [cross_intra_some_inv ms t h]
    exact pairConsistent_fold_processMatchup ms [] pairConsistent_nil
  · intro ms t h
    rw [cross_inter_some_inv ms t h]
    exact pairConsistent_fold_processMatchup ms [] pairConsistent_nil
  · intro s ir bits perm t h
    obtain ⟨bst, hb, ht⟩ := intra_rank_some_inv s ir bits perm t h
    rw [ht]
    exact pairConsistent_fold_procStep _ _ (pairConsistent_empty_rows bst.seen)
  · intro s ir t h
    obtain ⟨ms, hb, ht, hv⟩ := inter_rank_some_inv s ir t h
    have hrange : ∀ r ∈ t, r.2.2 = "HOME" ∨ r.2.2 = "AWAY" := by
      rw [ht]
      refine ir_range_fold_pass2 _ _ (ir_range_fold_pass1 _ _ ?_)
      intro r hr
      simp [irInitialState] at hr
    unfold verify_inter_rank_assignments at hv
    rw [Bool.and_eq_true, Bool.and_eq_true, Bool.and_eq_true,
      Bool.and_eq_true] at hv
    have hall := hv.1.1.1.2
    rw [List.all_eq_true] at hall
    intro r hr
    have hr2 := hall r hr
    cases halo : alookup r.2.1 t with
    | none =>
        rw [halo] at hr2
        simp at hr2
    | some ol =>
        rw [halo] at hr2
        simp only [Bool.and_eq_true, beq_iff_eq, bne_iff_ne, ne_eq] at hr2
        have holrange := hrange (r.2.1, ol) (mem_of_alookup _ _ _ halo)
        simp only at holrange
        constructor
        · intro hH
          rw [hH] at hr2
          have haw : ol.2 = "AWAY" := by
            rcases holrange with h1 | h1
            · exact absurd h1 hr2.2
            · exact h1
          exact congrArg some (Prod.ext hr2.1 haw)
        · intro hA
          rw [hA] at hr2
          have hhm : ol.2 = "HOME" := by
            rcases holrange with h1 | h1
            · exact h1
            · exact absurd h1 hr2.2
          exact congrArg some (Prod.ext hr2.1 hhm)

theorem intraConfC_succeeds :
    (generate_intra_conference_assignments intraMatchupsC).isSome = true := by
  decide

theorem interConfC_succeeds :
    (generate_inter_conference_assignments interMatchupsC).isSome = true := by
  decide

theorem intraRankC_succeeds :
    (generate_intra_rank_assignments NFL_TEAMS intraRankingsC bitsGood
      permGood).isSome = true := by
  decide

theorem interRankC_succeeds :
    (generate_inter_rank_assignments NFL_TEAMS
      [("AFC", "North", "NFC", "North"), ("AFC", "South", "NFC", "South"),
       ("AFC", "East", "NFC", "East"),
       ("AFC", "West", "NFC", "West")]).isSome = true := by
  decide


theorem exists_four_str (l : List String) (h : l.length = 4) :
    ∃ a b c d : String, l = [a, b, c, d] :=
  match l, h with
  | [a, b, c, d], _ => ⟨a, b, c, d, rfl⟩

theorem splitGame_foldlM_length (table : Table) (code : String) :
    ∀ (l : List (String × String))
      (acc res : List (String × String) × List (String × String)),
      l.foldlM (splitGameStep table code) acc = some res →
      res.1.length + res.2.length
        = acc.1.length + acc.2.length + l.length := by
  intro l
  induction l with
  | nil =>
      intro acc res h
      obtain rfl := Option.some.inj h
      simp
  | cons nc rest ih =>
      intro acc res h
      rw [List.foldlM_cons] at h
      obtain ⟨acc2, h1, h2⟩ := Option.bind_eq_some.mp h
      have hstep : acc2.1.length + acc2.2.length
          = acc.1.length + acc.2.length + 1 := by
        unfold splitGameStep at h1
        obtain ⟨loc, hl, hacc2⟩ := Option.map_eq_some'.mp h1
        rw [← hacc2]
        split <;> simp [List.length_append]  <;> omega
      have hrest := ih acc2 res h2
      simp only [List.length_cons]
      omega

theorem if_pair_eq_some (c1 c2 : Prop) [Decidable c1] [Decidable c2]
    (x y im : String × String)
    (h : (if c1 then some x else if c2 then some y else none) = some im) :
    (c1 ∧ im = x) ∨ (c2 ∧ im = y) := by
  split at h
  · exact Or.inl ⟨by assumption, (Option.some.inj h).symm⟩
  · split at h
    · exact Or.inr ⟨by assumption, (Option.some.inj h).symm⟩
    · cases h

theorem find_intra_matchup_fields (cf d : String)
    (a0 a1 a2 a3 b0 b1 b2 b3 : String) (im : String × String)
    (h : find_division_matchup cf d
      (pairingsIntra [a0, a1, a2, a3] [b0, b1, b2, b3]) = some im) :
    im.1 = cf ∧ (im.2 ∈ [a0, a1, a2, a3] ∨ im.2 ∈ [b0, b1, b2, b3]) := by
  unfold find_division_matchup at h
  have hP : pairingsIntra [a0, a1, a2, a3] [b0, b1, b2, b3] =
      [("AFC", a0, "AFC", a1), ("AFC", a2, "AFC", a3),
       ("NFC", b0, "NFC", b1), ("NFC", b2, "NFC", b3)] := rfl
  rw [hP] at h
  simp only [List.findSome?_cons, List.findSome?_nil] at h
  repeat' split at h
  any_goals cases h
  all_goals
    rename_i x heq
    rcases if_pair_eq_some _ _ _ _ _ heq with ⟨hc, rfl⟩ | ⟨hc, rfl⟩ <;>
      exact ⟨hc.1, by simp⟩

theorem find_inter_matchup_fields (cf d : String)
    (a0 a1 a2 a3 b0 b1 b2 b3 : String) (im : String × String)
    (h : find_division_matchup cf d
      (pairingsInter [a0, a1, a2, a3] [b0, b1, b2, b3]) = some im) :
    (cf = "AFC" ∧ im.1 = "NFC" ∧ im.2 ∈ [b0, b1, b2, b3]) ∨
    (cf = "NFC" ∧ im.1 = "AFC" ∧ im.2 ∈ [a0, a1, a2, a3]) := by
  unfold find_division_matchup at h
  have hP : pairingsInter [a0, a1, a2, a3] [b0, b1, b2, b3] =
      [("AFC", a0, "NFC", b0), ("AFC", a1, "NFC", b1),
       ("AFC", a2, "NFC", b2), ("AFC", a3, "NFC", b3)] := rfl
  rw [hP] at h
  simp only [List.findSome?_cons, List.findSome?_nil] at h
  repeat' split at h
  any_goals cases h
  all_goals
    rename_i x heq
    rcases if_pair_eq_some _ _ _ _ _ heq with ⟨hc, rfl⟩ | ⟨hc, rfl⟩
    · exact Or.inl ⟨hc.1.symm, rfl, by simp⟩
    · exact Or.inr ⟨hc.1.symm, rfl, by simp⟩

theorem division_games_fields :
    ∀ code ∈ allAbbreviations,
      (match get_division_games code with
       | some dg => decide (dg.2.1 ∈ conferenceNames)
           && decide (dg.2.2.1 ∈ divisionNames)
       | none => true) = true := by decide

theorem teams_resolve_length :
    ∀ cf ∈ conferenceNames, ∀ d ∈ divisionNames,
      ((get_teams_in_division cf d).filterMap
        (fun nm => (nameToCodeInConf cf nm).map (fun c => (nm, c)))).length
        = 4 := by decide

theorem runPipeline_matchups (s : Standings) (lA lN lA2 lN2 : List String)
    (bits : List Bool) (perm : List Nat) (choices : List Nat)
    (sess : Session)
    (h : runPipeline s lA lN lA2 lN2 bits perm choices = some sess) :
    sess.intraMatchups = pairingsIntra lA lN ∧
    sess.interMatchups = pairingsInter lA2 lN2 := by
  unfold runPipeline at h
  obtain ⟨x1, h1, h⟩ := Option.bind_eq_some.mp h
  obtain ⟨x2, h2, h⟩ := Option.bind_eq_some.mp h
  obtain ⟨x3, h3, h⟩ := Option.bind_eq_some.mp h
  obtain ⟨x4, h4, h⟩ := Option.bind_eq_some.mp h
  obtain ⟨x5, h5, h⟩ := Option.bind_eq_some.mp h
  obtain ⟨x6, h6, hsess⟩ := Option.map_eq_some'.mp h
  rw [← hsess]
  exact ⟨rfl, rfl⟩


/-- C3.  On every completed pipeline run (shuffles drawn from the
permutations of the division names, arbitrary remaining randomness) and
for every valid team abbreviation whose schedule renders, the rendered
schedule holds exactly 17 games: 6 division games (3 HOME, 3 AWAY), 4
intra-conference cross-division games, 4 inter-conference cross-division
games, 2 rank-based intra-conference games (1 HOME, 1 AWAY) and 1
rank-based inter-conference game. -/
theorem c3_seventeen_game_schedule (s : Standings) (lA lN lA2 lN2 : List String)
    (bits : List Bool) (perm : List Nat) (choices : List Nat) (sess : Session)
    (hpA : lA ∈ divisionNames.permutations')
    (hpN : lN ∈ divisionNames.permutations')
    (hpA2 : lA2 ∈ divisionNames.permutations')
    (hpN2 : lN2 ∈ divisionNames.permutations')
    (hrun : runPipeline s lA lN lA2 lN2 bits perm choices = some sess)
    (code : String) (hcode : code ∈ allAbbreviations)
    (sched : (List (String × String) × List (String × String)) ×
             (List (String × String) × List (String × String)) ×
             (List (String × String) × List (String × String)) ×
             (List (String × String) × List (String × String)) ×
             (List (String × String) × List (String × String)))
    (hts : team_schedule sess code = some sched) :
    sched.1.1.length = 3 ∧ sched.1.2.length = 3 ∧
    sched.2.1.1.length + sched.2.1.2.length = 4 ∧
    sched.2.2.1.1.length + sched.2.2.1.2.length = 4 ∧
    sched.2.2.2.1.1.length = 1 ∧ sched.2.2.2.1.2.length = 1 ∧
    sched.2.2.2.2.1.length + sched.2.2.2.2.2.length = 1 ∧
    sched.1.1.length + sched.1.2.length +
      (sched.2.1.1.length + sched.2.1.2.length) +
      (sched.2.2.1.1.length + sched.2.2.1.2.length) +
      (sched.2.2.2.1.1.length + sched.2.2.2.1.2.length) +
      (sched.2.2.2.2.1.length + sched.2.2.2.2.2.length) = 17 := by
  obtain ⟨him, hem⟩ :=
    runPipeline_matchups s lA lN lA2 lN2 bits perm choices sess hrun
  unfold team_schedule at hts
  obtain ⟨dg, hdg, hts⟩ := Option.bind_eq_some.mp hts
  obtain ⟨im, himc, hts⟩ := Option.bind_eq_some.mp hts
  obtain ⟨em, hemc, hts⟩ := Option.bind_eq_some.mp hts
  obtain ⟨rank, hrank, hts⟩ := Option.bind_eq_some.mp hts
  obtain ⟨iro, hiro, hts⟩ := Option.bind_eq_some.mp hts
  obtain ⟨ero, hero, hts⟩ := Option.bind_eq_some.mp hts
  obtain ⟨dG, hdG, hts⟩ := Option.bind_eq_some.mp hts
  obtain ⟨iG, hiG, hts⟩ := Option.bind_eq_some.mp hts
  obtain ⟨eG, heG, hts⟩ := Option.bind_eq_some.mp hts
  obtain ⟨rG, hrG, hts⟩ := Option.bind_eq_some.mp hts
  obtain ⟨xG, hxG, hsched⟩ := Option.map_eq_some'.mp hts
  have hdg3 : dG.1.length = 3 ∧ dG.2.length = 3 := by
    unfold assign_home_away_division at hdG
    split at hdG
    · rename_i hlen
      obtain rfl := (Option.some.inj hdG).symm
      constructor <;> simp [hlen]
    · cases hdG
  have hfields := division_games_fields code hcode
  rw [hdg] at hfields
  simp only [Bool.and_eq_true, decide_eq_true_eq] at hfields
  obtain ⟨hcf, hdv⟩ := hfields
  obtain ⟨a0, a1, a2, a3, hlAeq⟩ := exists_four_str lA
    ((List.mem_permutations'.mp hpA).length_eq.trans rfl)
  obtain ⟨b0, b1, b2, b3, hlNeq⟩ := exists_four_str lN
    ((List.mem_permutations'.mp hpN).length_eq.trans rfl)
  obtain ⟨c0, c1, c2, c3, hlA2eq⟩ := exists_four_str lA2
    ((List.mem_permutations'.mp hpA2).length_eq.trans rfl)
  obtain ⟨e0, e1, e2, e3, hlN2eq⟩ := exists_four_str lN2
    ((List.mem_permutations'.mp hpN2).length_eq.trans rfl)
  subst hlAeq hlNeq hlA2eq hlN2eq
  rw [him] at himc
  obtain ⟨him1, him2⟩ :=
    find_intra_matchup_fields _ _ _ _ _ _ _ _ _ _ _ himc
  have him2d : im.2 ∈ divisionNames := by
    rcases him2 with h | h
    · exact (List.mem_permutations'.mp hpA).mem_iff.mp h
    · exact (List.mem_permutations'.mp hpN).mem_iff.mp h
  have hi4 : iG.1.length + iG.2.length = 4 := by
    unfold get_intra_conference_games at hiG
    rw [hdg] at hiG
    simp only [Option.some_bind] at hiG
    have hlen := splitGame_foldlM_length _ _ _ _ _ hiG
    simpa [him1, teams_resolve_length dg.2.1 hcf im.2 him2d] using hlen
  rw [hem] at hemc
  have hfem := find_inter_matchup_fields _ _ _ _ _ _ _ _ _ _ _ hemc
  have hem1 : em.1 = (if dg.2.1 = "AFC" then "NFC" else "AFC") ∧
      em.1 ∈ conferenceNames ∧ em.2 ∈ divisionNames := by
    rcases hfem with ⟨hA, h1, h2⟩ | ⟨hA, h1, h2⟩
    · exact ⟨by rw [hA]; simpa using h1, by rw [h1]; decide,
        (List.mem_permutations'.mp hpN2).mem_iff.mp h2⟩
    · refine ⟨?_, by rw [h1]; decide,
        (List.mem_permutations'.mp hpA2).mem_iff.mp h2⟩
      rw [hA]
      have : ("NFC" : String) ≠ "AFC" := by decide
      simpa [this] using h1
  have he4 : eG.1.length + eG.2.length = 4 := by
    unfold get_inter_conference_games at heG
    rw [hdg] at heG
    simp only [Option.some_bind] at heG
    have hlen := splitGame_foldlM_length _ _ _ _ _ heG
    simp only [← hem1.1] at hlen
    simpa [teams_resolve_length em.1 hem1.2.1 em.2 hem1.2.2] using hlen
  have hr11 : rG.1.length = 1 ∧ rG.2.length = 1 := by
    unfold get_intra_rank_games at hrG
    rw [hdg] at hrG
    simp only [Option.some_bind] at hrG
    obtain ⟨res, hres, hgate⟩ := Option.bind_eq_some.mp hrG
    split at hgate
    · rename_i hcond
      obtain rfl := Option.some.inj hgate
      exact hcond
    · cases hgate
  have hx1 : xG.1.length + xG.2.length = 1 := by
    unfold get_inter_rank_games at hxG
    obtain ⟨asn, hasn, hxg⟩ := Option.map_eq_some'.mp hxG
    rw [← hxg]
    split <;> simp
  rw [← hsched]
  dsimp only
  refine ⟨hdg3.1, hdg3.2, hi4, he4, hr11.1, hr11.2, hx1, ?_⟩
  omega


theorem sessC_succeeds : sessC.isSome = true := by decide

theorem sessC_schedule_succeeds :
    (sessC.bind (fun sess => team_schedule sess "BAL")).isSome = true := by
  decide

attribute [irreducible] generate_intra_conference_assignments
  generate_inter_conference_assignments generate_intra_rank_assignments
  generate_inter_rank_assignments generate_rankings_matchups_inter
  generate_rankings_matchups_intra runPipeline team_schedule
  buildIntraRankMatchups buildInterRankMatchups processMatchup
  verifyCross verifyIntraRank verify_inter_rank_assignments
  find_division_matchup find_other_divisions get_division_games
  get_team_rank nameToCodeInConf currentPairsOf

/-- C6 witness: the parity theorem applied to the concrete AFC North
versus AFC South pairing. -/
theorem c6_parity_rule_witness :
    (("AFC", "North", "AFC", "South") : Matchup) ∈ validCrossPairs ∧
    (generate_intra_conference_assignments
      [("AFC", "North", "AFC", "South")]).elim False (fun t =>
        generate_inter_conference_assignments
          [("AFC", "North", "AFC", "South")] = some t ∧
        ∀ tm ∈ matchupTeams ("AFC", "North", "AFC", "South"),
          (alookup tm.abbreviation t).elim False (fun row =>
            countLoc row "HOME" = 2 ∧ countLoc row "AWAY" = 2)) := by
  have hm : (("AFC", "North", "AFC", "South") : Matchup) ∈ validCrossPairs := by
    decide
  exact ⟨hm, c6_parity_rule_two_home_two_away ("AFC", "North", "AFC", "South")
    hm⟩

/-- C8 witness: the exclusion theorem applied to the canonical intra
pairing. -/
theorem c8_intra_rank_opponents_witness :
    (generate_rankings_matchups_intra
      (pairingsIntra divisionNames divisionNames)).elim False (fun r =>
        ∀ cf ∈ conferenceNames, ∀ d ∈ divisionNames,
          (find_division_matchup cf d
            (pairingsIntra divisionNames divisionNames)).elim False (fun pd =>
              pd.1 = cf ∧
              alookup (cf ++ " " ++ d) r =
                some (divisionNames.filter (fun x => x != d && x != pd.2)) ∧
              (divisionNames.filter
                (fun x => x != d && x != pd.2)).length = 2)) :=
  c8_intra_rank_opponents_by_exclusion divisionNames (by decide)
    divisionNames (by decide)

theorem c7_witness :
    ∃ t, generate_inter_rank_assignments NFL_TEAMS
        [("AFC", "North", "NFC", "North"), ("AFC", "South", "NFC", "South"),
         ("AFC", "East", "NFC", "East"), ("AFC", "West", "NFC", "West")] = some t ∧
      t.length = 32 ∧
      (akeys t).Perm allAbbreviations ∧
      (∀ tm ∈ allTeams, ∃ v, alookup tm.abbreviation t = some v) ∧
      (∀ cf ∈ conferenceNames, ∀ d ∈ divisionNames,
        (nflDivision cf d).countP
          (fun tm => match alookup tm.abbreviation t with
            | some rec => rec.2 == "HOME"
            | none => false) = 2) ∧
      (∀ cf ∈ conferenceNames,
        ((nflConf cf).flatMap (fun dv => dv.2)).countP
          (fun tm => match alookup tm.abbreviation t with
            | some rec => rec.2 == "HOME"
            | none => false) = 8) :=
  c7_inter_rank_division_balance NFL_TEAMS
    ⟨afcNorth, afcSouth, afcEast, afcWest, nfcNorth, nfcSouth, nfcEast,
      nfcWest, rfl, List.Perm.refl _, List.Perm.refl _, List.Perm.refl _,
      List.Perm.refl _, List.Perm.refl _, List.Perm.refl _, List.Perm.refl _,
      List.Perm.refl _⟩
    "North" "North" "South" "South" "East" "East" "West" "West"
    (by decide) (by decide)

theorem c10_witness :
    ∃ ms t,
      buildInterRankMatchups NFL_TEAMS
        [("AFC", "North", "NFC", "North"), ("AFC", "South", "NFC", "South"),
         ("AFC", "East", "NFC", "East"), ("AFC", "West", "NFC", "West")] = some ms ∧
      ms.foldl pass1Step irInitialState = irInitialState ∧
      generate_inter_rank_assignments NFL_TEAMS
        [("AFC", "North", "NFC", "North"), ("AFC", "South", "NFC", "South"),
         ("AFC", "East", "NFC", "East"), ("AFC", "West", "NFC", "West")] = some t ∧
      (∀ m ∈ ([("AFC", "North", "NFC", "North"), ("AFC", "South", "NFC", "South"),
         ("AFC", "East", "NFC", "East"), ("AFC", "West", "NFC", "West")] : List Matchup),
        ∀ r : Nat, ∀ ta tn : Team, r < 4 →
        (sdivision NFL_TEAMS m.1 m.2.1).get? r = some ta →
        (sdivision NFL_TEAMS m.2.2.1 m.2.2.2).get? r = some tn →
        alookup ta.abbreviation t
            = some (tn.abbreviation, if r < 2 then "AWAY" else "HOME") ∧
        alookup tn.abbreviation t
            = some (ta.abbreviation, if r < 2 then "HOME" else "AWAY")) :=
  c10_inter_rank_deterministic_pattern NFL_TEAMS
    ⟨afcNorth, afcSouth, afcEast, afcWest, nfcNorth, nfcSouth, nfcEast,
      nfcWest, rfl, List.Perm.refl _, List.Perm.refl _, List.Perm.refl _,
      List.Perm.refl _, List.Perm.refl _, List.Perm.refl _, List.Perm.refl _,
      List.Perm.refl _⟩
    "North" "North" "South" "South" "East" "East" "West" "West"
    (by decide) (by decide)



theorem c5_witness :
    (∃ t, generate_intra_conference_assignments intraMatchupsC = some t ∧
      PairConsistent t) ∧
    (∃ t, generate_inter_conference_assignments interMatchupsC = some t ∧
      PairConsistent t) ∧
    (∃ t, generate_intra_rank_assignments NFL_TEAMS intraRankingsC bitsGood
      permGood = some t ∧ PairConsistent t) ∧
    (∃ t, generate_inter_rank_assignments NFL_TEAMS
        [("AFC", "North", "NFC", "North"), ("AFC", "South", "NFC", "South"),
         ("AFC", "East", "NFC", "East"),
         ("AFC", "West", "NFC", "West")] = some t ∧
      ∀ r ∈ t,
        (r.2.2 = "HOME" → alookup r.2.1 t = some (r.1, "AWAY")) ∧
        (r.2.2 = "AWAY" → alookup r.2.1 t = some (r.1, "HOME"))) := by
  obtain ⟨t1, h1⟩ := Option.isSome_iff_exists.mp intraConfC_succeeds
  obtain ⟨t2, h2⟩ := Option.isSome_iff_exists.mp interConfC_succeeds
  obtain ⟨t3, h3⟩ := Option.isSome_iff_exists.mp intraRankC_succeeds
  obtain ⟨t4, h4⟩ := Option.isSome_iff_exists.mp interRankC_succeeds
  exact ⟨⟨t1, h1, c5_pairwise_consistency.1 _ _ h1⟩,
    ⟨t2, h2, c5_pairwise_consistency.2.1 _ _ h2⟩,
    ⟨t3, h3, c5_pairwise_consistency.2.2.1 _ _ _ _ _ h3⟩,
    ⟨t4, h4, c5_pairwise_consistency.2.2.2 _ _ _ h4⟩⟩



theorem c3_witness :
    ∃ sess sched,
      runPipeline NFL_TEAMS divisionNames divisionNames divisionNames
        divisionNames bitsGood permGood choicesGood = some sess ∧
      team_schedule sess "BAL" = some sched ∧
      (sched.1.1.length = 3 ∧ sched.1.2.length = 3 ∧
       sched.2.1.1.length + sched.2.1.2.length = 4 ∧
       sched.2.2.1.1.length + sched.2.2.1.2.length = 4 ∧
       sched.2.2.2.1.1.length = 1 ∧ sched.2.2.2.1.2.length = 1 ∧
       sched.2.2.2.2.1.length + sched.2.2.2.2.2.length = 1 ∧
       sched.1.1.length + sched.1.2.length +
         (sched.2.1.1.length + sched.2.1.2.length) +
         (sched.2.2.1.1.length + sched.2.2.1.2.length) +
         (sched.2.2.2.1.1.length + sched.2.2.2.1.2.length) +
         (sched.2.2.2.2.1.length + sched.2.2.2.2.2.length) = 17) := by
  obtain ⟨sess, hsess⟩ := Option.isSome_iff_exists.mp sessC_succeeds
  have hts0 := sessC_schedule_succeeds
  rw [show sessC = some sess from hsess] at hts0
  simp only [Option.some_bind] at hts0
  obtain ⟨sched, hsched⟩ := Option.isSome_iff_exists.mp hts0
  exact ⟨sess, sched, hsess, hsched,
    c3_seventeen_game_schedule NFL_TEAMS divisionNames divisionNames
      divisionNames divisionNames bitsGood permGood choicesGood sess
      (by decide) (by decide) (by decide) (by decide) hsess "BAL" (by decide)
      sched hsched⟩

end NFLSched
